import Mathlib

/-!
# The job engine of imageflow (`lib/job.c`)

A shallow embedding of `lib/job.c`: the codec registry (`flow_job_add_io`,
`flow_job_get_codec_instance`, `flow_job_get_io`), the linker
(`flow_job_link_codecs`), the per-stage visitors and drivers, and the
orchestrator `flow_job_execute`.

Conventions of the embedding

* A C function that takes the context `c` and mutates the job or the graph
  becomes a function that takes them and returns the success bit together
  with the new context, job and graph.
* The singly linked chain `codecs_head .. codecs_tail` is a list in registration
  order; a pointer to a binding is its position in that list, the null pointer
  is `none`.
* `g->nodes`, `g->edges` and `g->info_bytes` are indexed tables; the loops of
  the source range over the ids below `next_node_id` / `next_edge_id`.
* Everything `job.c` calls but does not define (node operations, the graph
  walkers, the codec module, the recording hooks, the allocator, the clock)
  is a field of `Externals`; every definition takes the externals as `E`.
* `do .. while` loops driven by an external walker take a fuel argument and
  answer `none` when it runs out.
-/

namespace Imageflow

/-! ## Data model -/

/-- The status codes `job.c` raises (`flow_status_*`); `Other_error` stands for the
codes raised only by callees. -/
inductive flow_status where
  | No_Error
  | Out_of_memory
  | IO_error
  | Not_implemented
  | Null_argument
  | Graph_invalid
  | Maximum_graph_passes_exceeded
  | Other_error (code : Nat)
  deriving DecidableEq, Repr

/-- One error raised through `FLOW_error` / `FLOW_error_msg`. -/
structure flow_error where
  status : flow_status
  message : String
  deriving DecidableEq, Repr

/-- The context `flow_c`, as far as `job.c` can see it: the errors raised so far
(oldest first), the call stack frames added while unwinding, and the reading of
the high precision tick counter (`flow_get_high_precision_ticks`). -/
structure flow_c where
  errors : List flow_error
  callstack : List String
  ticks : Nat
  deriving DecidableEq, Repr

/-- Modelled from the spec: the macro `FLOW_error` is not in job.c. On failure the
callee annotates the context with the error code and its own frame. The model
appends the error to the context's record and the raising function to the
call stack; it does not return from the caller (every use in job.c is followed
by an explicit `return`). -/
def FLOW_error (c : flow_c) (status : flow_status) (func : String) : flow_c :=
  { c with errors := c.errors ++ [{ status := status, message := "" }],
           callstack := c.callstack ++ [func] }

/-- Modelled from the spec: the macro `FLOW_error_msg` is not in job.c. As
`FLOW_error`, with a human-readable message. -/
def FLOW_error_msg (c : flow_c) (status : flow_status) (func : String) (message : String) :
    flow_c :=
  { c with errors := c.errors ++ [{ status := status, message := message }],
           callstack := c.callstack ++ [func] }

/-- Modelled from the spec: the macro `FLOW_add_to_callstack` is not in job.c. The
caller appends its own frame to the call stack while unwinding. -/
def FLOW_add_to_callstack (c : flow_c) (func : String) : flow_c :=
  { c with callstack := c.callstack ++ [func] }

/-- Modelled from the spec: the macro `FLOW_error_return` is not in job.c. The caller
unwinds, appending its own frame to the call stack, and returns false; the `return false`
is written out at each use below. -/
def FLOW_error_return (c : flow_c) (func : String) : flow_c :=
  FLOW_add_to_callstack c func

/-- The last error raised in a context, if any. -/
def flow_c.last_error (c : flow_c) : Option flow_error := c.errors.getLast?

inductive FLOW_DIRECTION where
  | FLOW_INPUT
  | FLOW_OUTPUT
  deriving DecidableEq, Repr

/-- A `struct flow_codec_instance` (a codec binding). `io` and `codec_state` are
pointers (`none` is null); the `next` link is the list order of `flow_job.codecs`. -/
structure flow_codec_instance where
  graph_placeholder_id : Int
  io : Option Nat
  codec_id : Int
  codec_state : Option Nat
  direction : FLOW_DIRECTION
  deriving DecidableEq, Repr

/-- A `struct flow_job`. `codecs` is the chain from `codecs_head` to `codecs_tail`. -/
structure flow_job where
  debug_job_id : Int
  next_graph_version : Int
  max_calc_flatten_execute_passes : Int
  record_graph_versions : Bool
  record_frame_images : Bool
  render_last_graph : Bool
  render_graph_versions : Bool
  render_animated_graph : Bool
  codecs : List flow_codec_instance
  deriving DecidableEq, Repr

/-- Node kinds; job.c names three of them, every other kind is `other`. -/
inductive flow_ntype where
  | Null
  | decoder
  | encoder
  | other (kind : Nat)
  deriving DecidableEq, Repr

/-- Edge kinds; job.c names only the tombstone `flow_edgetype_null`. -/
inductive flow_edgetype where
  | null
  | other (kind : Nat)
  deriving DecidableEq, Repr

structure flow_edge where
  type : flow_edgetype
  «from» : Nat
  «to» : Nat
  deriving DecidableEq, Repr

/-- A `struct flow_node`; `state` is the bit set over the node-state flags. -/
structure flow_node where
  type : flow_ntype
  state : Nat
  result_width : Int
  result_height : Int
  info_byte_index : Nat
  ticks_elapsed : Nat
  deriving DecidableEq, Repr

/-- A `struct flow_nodeinfo_codec`, the info record of a decoder or encoder node:
the placeholder id and the pointer to the linked binding. -/
structure flow_nodeinfo_codec where
  placeholder_id : Int
  codec : Option Nat
  deriving DecidableEq, Repr

/-- A `struct flow_graph`. `info_bytes k` is the info buffer read at offset `k` as a
`struct flow_nodeinfo_codec`. -/
structure flow_graph where
  nodes : Nat → flow_node
  next_node_id : Nat
  edges : Nat → flow_edge
  next_edge_id : Nat
  info_bytes : Nat → flow_nodeinfo_codec

/-- An I/O endpoint (`struct flow_io`): its private state and the two function
pointers `add_io` calls. `read_func c io n` answers the count it reports, the
bytes it stored in the buffer, and the new context and state. -/
structure flow_io (σ : Type) where
  user_data : σ
  read_func : flow_c → σ → Nat → Int × List Nat × flow_c × σ
  seek_function : flow_c → σ → Int → Bool × flow_c × σ

/-- What a node visitor hands back: the success bit, the state it may have
changed, and the out-parameters `quit`, `skip_outbound_paths`, `custom_data`. -/
structure flow_visit (J D : Type) where
  ok : Bool
  c : flow_c
  job : J
  graph : flow_graph
  quit : Bool
  skip_outbound_paths : Bool
  custom_data : D

/-- The type of a node visitor:
`visitor c job graph node_id quit skip_outbound_paths custom_data`. -/
abbrev flow_graph_visitor (J D : Type) :=
  flow_c → J → flow_graph → Nat → Bool → Bool → D → flow_visit J D

/-- Modelled from the spec: everything job.c calls and does not define. The types
give each collaborator the access the spec describes: `notify_graph_changed`
bumps `next_graph_version` (it answers the new value) and snapshots the graph;
`render_graph_to_png` and `graph_validate` read the graph; `initialize_codec` may
install `codec_state`; the walkers hand the job and `custom_data` to the visitor
and own neither; node operations may rewrite the graph. The values of the
node-state flags and gates come from a header that is not in the sources. -/
structure Externals where
  flow_node_state_InputDimensionsKnown : Nat
  flow_node_state_ReadyForPreOptimizeFlatten : Nat
  flow_node_state_ReadyForOptimize : Nat
  flow_node_state_Optimized : Nat
  flow_node_state_ReadyForPostOptimizeFlatten : Nat
  flow_node_state_ReadyForExecution : Nat
  flow_node_state_Executed : Nat
  FLOW_malloc_owned : flow_c → flow_job → Bool
  flow_job_codec_select : flow_c → flow_job → List Nat → Int → Int
  flow_job_initialize_codec : flow_c → flow_job → flow_codec_instance → Bool × flow_c × Option Nat
  flow_job_notify_graph_changed : flow_c → flow_job → Option flow_graph → Bool × flow_c × Int
  flow_job_notify_node_complete : flow_c → flow_job → flow_graph → Nat → Bool × flow_c × flow_job
  flow_job_render_graph_to_png : flow_c → flow_job → flow_graph → Int → Bool × flow_c
  flow_node_update_state : flow_c → flow_graph → Nat → Bool × flow_c × flow_graph
  flow_node_populate_dimensions : flow_c → flow_graph → Nat → Bool → Bool × flow_c × flow_graph
  flow_node_pre_optimize_flatten : flow_c → flow_graph → Nat → Bool × flow_c × flow_graph
  flow_node_post_optimize_flatten : flow_c → flow_graph → Nat → Bool × flow_c × flow_graph
  flow_node_execute : flow_c → flow_job → flow_graph → Nat → Bool × flow_c × flow_job × flow_graph
  flow_graph_validate : flow_c → flow_graph → Bool × flow_c
  flow_graph_get_edge_count :
    flow_c → flow_graph → Nat → Bool → flow_edgetype → Bool → Bool → Int
  flow_graph_walk : {J D : Type} → flow_c → J → flow_graph → flow_graph_visitor J D → D →
    Bool × flow_c × J × flow_graph × D
  flow_graph_walk_dependency_wise : {J D : Type} → flow_c → J → flow_graph →
    flow_graph_visitor J D → D → Bool × flow_c × J × flow_graph × D

/-- Modelled from the spec: the enum value `flow_codec_type_null` is not in job.c.
The spec's data model says a `codec_id` of 0 means unresolved, and `codec_select`
answers a codec id or null. -/
def flow_codec_type_null : Int := 0

/-! ## Job creation and recording flags -/

def flow_job_configure_recording (c : flow_c) (job : flow_job) (record_graph_versions : Bool)
    (record_frame_images : Bool) (render_last_graph : Bool) (render_graph_versions : Bool)
    (render_animated_graph : Bool) : Bool × flow_c × flow_job :=
  let job1 := { job with record_frame_images := record_frame_images }
  let job2 := { job1 with record_graph_versions := record_graph_versions }
  let job3 := { job2 with render_last_graph := render_last_graph }
  let job4 := { job3 with render_graph_versions := render_graph_versions && record_graph_versions }
  let job5 := { job4 with
    render_animated_graph := render_animated_graph && job4.render_graph_versions }
  (true, c, job5)

/-! ## Codec registry -/

/-- The `while (current != NULL)` scan of `flow_job_get_codec_instance`, started at the
binding in position `pos` with `chain` the rest of the list from there. -/
def flow_job_get_codec_instance_from (by_placeholder_id : Int) :
    List flow_codec_instance → Nat → Option Nat
  | [], _ => none
  | current :: next, pos =>
    if current.graph_placeholder_id = by_placeholder_id then some pos
    else flow_job_get_codec_instance_from by_placeholder_id next (pos + 1)

/-- The function `flow_job_get_codec_instance`: a pointer to the first binding in the
chain whose placeholder id matches, or null. -/
def flow_job_get_codec_instance (job : flow_job) (by_placeholder_id : Int) : Option Nat :=
  flow_job_get_codec_instance_from by_placeholder_id job.codecs 0

/-- The function `flow_job_get_io`: the `io` pointer of the binding found, or null (with
a frame added to the call stack). -/
def flow_job_get_io (c : flow_c) (job : flow_job) (placeholder_id : Int) :
    Option Nat × flow_c :=
  match flow_job_get_codec_instance job placeholder_id with
  | none => (none, FLOW_add_to_callstack c "flow_job_get_io")
  | some codec =>
    match job.codecs[codec]? with
    | some b => (b.io, c)
    | none => (none, c)

/-- Modelled from the spec: the C library's `%02x` conversion of one byte, two lower
case hexadecimal digits. -/
def format_02x (byte : Nat) : String :=
  String.mk ["0123456789abcdef".toList.getD (byte / 16 % 16) '0',
    "0123456789abcdef".toList.getD (byte % 16) '0']

/-- The `uint8_t buffer[8]` of `flow_job_add_io` after the read stored `data` in it. -/
def flow_job_add_io_buffer (data : List Nat) : List Nat :=
  (List.range 8).map fun i => data.getD i 0 % 256

/-- The message of the `Not_implemented` error of `flow_job_add_io`. -/
def flow_job_add_io_unrecognized (buffer : List Nat) : String :=
  "Unrecognized leading byte sequence " ++
    format_02x (buffer.getD 0 0) ++ format_02x (buffer.getD 1 0) ++
    format_02x (buffer.getD 2 0) ++ format_02x (buffer.getD 3 0) ++
    format_02x (buffer.getD 4 0) ++ format_02x (buffer.getD 5 0) ++
    format_02x (buffer.getD 6 0) ++ format_02x (buffer.getD 7 0)

/-- The tail insertion of `flow_job_add_io`: `r` becomes head and tail of an empty chain,
and otherwise the successor of the tail. -/
def flow_job_add_io_link (codecs : List flow_codec_instance) (r : flow_codec_instance) :
    List flow_codec_instance :=
  match codecs with
  | [] => [r]
  | head :: next => (head :: next) ++ [r]

/-- The function `flow_job_add_io`. `io` is the pointer stored in the binding and
`io_object` the endpoint it points to (only used when the direction is not
`FLOW_OUTPUT`). The new binding `r` is linked at the tail before anything can
fail; `r->codec_id` and `r->codec_state` are then written in place. -/
def flow_job_add_io {σ : Type} (E : Externals) (c : flow_c) (job : flow_job) (io : Option Nat)
    (io_object : flow_io σ) (placeholder_id : Int) (direction : FLOW_DIRECTION) :
    Bool × flow_c × flow_job × flow_io σ :=
  if E.FLOW_malloc_owned c job = false then
    (false, FLOW_error c flow_status.Out_of_memory "flow_job_add_io", job, io_object)
  else
    let r : flow_codec_instance :=
      { graph_placeholder_id := placeholder_id, io := io, codec_id := 0, codec_state := none,
        direction := direction }
    let job1 : flow_job := { job with codecs := flow_job_add_io_link job.codecs r }
    if direction = FLOW_DIRECTION.FLOW_OUTPUT then
      (true, c, job1, io_object)
    else
      match io_object.read_func c io_object.user_data 8 with
      | (bytes_read, data, c1, user_data1) =>
        let io1 : flow_io σ := { io_object with user_data := user_data1 }
        let buffer := flow_job_add_io_buffer data
        if bytes_read ≠ 8 then
          (false, FLOW_error_msg c1 flow_status.IO_error "flow_job_add_io"
            "Failed to read first 8 bytes of file", job1, io1)
        else
          match io1.seek_function c1 user_data1 0 with
          | (seek_ok, c2, user_data2) =>
            let io2 : flow_io σ := { io1 with user_data := user_data2 }
            if seek_ok = false then
              (false, FLOW_error_msg c2 flow_status.IO_error "flow_job_add_io"
                "Failed to seek to byte 0 in file", job1, io2)
            else
              let ctype := E.flow_job_codec_select c2 job1 buffer bytes_read
              if ctype = flow_codec_type_null then
                (false, FLOW_error_msg c2 flow_status.Not_implemented "flow_job_add_io"
                  (flow_job_add_io_unrecognized buffer), job1, io2)
              else
                let r1 : flow_codec_instance := { r with codec_id := ctype }
                let job2 : flow_job := { job with codecs := job.codecs ++ [r1] }
                match E.flow_job_initialize_codec c2 job2 r1 with
                | (init_ok, c3, codec_state) =>
                  let job3 : flow_job :=
                    { job with codecs := job.codecs ++ [{ r1 with codec_state := codec_state }] }
                  if init_ok = false then
                    (false, FLOW_add_to_callstack c3 "flow_job_add_io", job3, io2)
                  else
                    (true, c3, job3, io2)

/-- The values `flow_job_add_io` computes on its way, named for the statements below:
what the read of the first 8 bytes answers. -/
abbrev flow_job_add_io_read {σ : Type} (c : flow_c) (io_object : flow_io σ) :
    Int × List Nat × flow_c × σ :=
  io_object.read_func c io_object.user_data 8

/-- What the seek back to offset 0 answers, run after the read. -/
abbrev flow_job_add_io_seek {σ : Type} (c : flow_c) (io_object : flow_io σ) : Bool × flow_c × σ :=
  io_object.seek_function (flow_job_add_io_read c io_object).2.2.1
    (flow_job_add_io_read c io_object).2.2.2 0

/-- The binding as `flow_job_add_io` links it at the tail, codec still unresolved. -/
abbrev flow_job_add_io_binding (io : Option Nat) (placeholder_id : Int)
    (direction : FLOW_DIRECTION) : flow_codec_instance :=
  { graph_placeholder_id := placeholder_id, io := io, codec_id := 0, codec_state := none,
    direction := direction }

/-- What `flow_job_codec_select` answers for the 8 bytes read, called after the seek. -/
abbrev flow_job_add_io_ctype {σ : Type} (E : Externals) (c : flow_c) (job : flow_job)
    (io : Option Nat) (io_object : flow_io σ) (placeholder_id : Int)
    (direction : FLOW_DIRECTION) : Int :=
  E.flow_job_codec_select (flow_job_add_io_seek c io_object).2.1
    { job with codecs := job.codecs ++ [flow_job_add_io_binding io placeholder_id direction] }
    (flow_job_add_io_buffer (flow_job_add_io_read c io_object).2.1) 8

/-- What `flow_job_initialize_codec` answers for the binding with its codec id set. -/
abbrev flow_job_add_io_init {σ : Type} (E : Externals) (c : flow_c) (job : flow_job)
    (io : Option Nat) (io_object : flow_io σ) (placeholder_id : Int)
    (direction : FLOW_DIRECTION) : Bool × flow_c × Option Nat :=
  E.flow_job_initialize_codec (flow_job_add_io_seek c io_object).2.1
    { job with codecs := job.codecs ++
        [{ flow_job_add_io_binding io placeholder_id direction with
           codec_id := flow_job_add_io_ctype E c job io io_object placeholder_id direction }] }
    { flow_job_add_io_binding io placeholder_id direction with
      codec_id := flow_job_add_io_ctype E c job io io_object placeholder_id direction }

/-! ## Recording hook and linker -/

/-- The call `flow_job_notify_graph_changed(c, job, g)`: the external hook answers the
success bit, the context and the new `next_graph_version`. -/
def flow_job_notify_graph_changed (E : Externals) (c : flow_c) (job : flow_job)
    (g : Option flow_graph) : Bool × flow_c × flow_job :=
  match E.flow_job_notify_graph_changed c job g with
  | (ok, c1, version) => (ok, c1, { job with next_graph_version := version })

/-- The message of the `Graph_invalid` error of `flow_job_link_codecs`. -/
def flow_job_link_codecs_message (placeholder_id : Int) (i : Nat) : String :=
  "No matching codec or io found for placeholder id " ++ toString placeholder_id ++
    " (node #" ++ toString i ++ ")."

/-- The body of the `for` loop of `flow_job_link_codecs` at node `i`. When the lookup
finds nothing the error is recorded and the loop goes on: the source has no
`return` after `FLOW_error_msg`. -/
def flow_job_link_codecs_node (job : flow_job) (s : flow_c × flow_graph) (i : Nat) :
    flow_c × flow_graph :=
  let c := s.1
  let g := s.2
  if (g.nodes i).type = flow_ntype.decoder ∨ (g.nodes i).type = flow_ntype.encoder then
    let info := g.info_bytes (g.nodes i).info_byte_index
    if info.codec = none then
      let codec := flow_job_get_codec_instance job info.placeholder_id
      let g1 : flow_graph :=
        { g with info_bytes := (Function.update g.info_bytes (g.nodes i).info_byte_index
            { info with codec := codec }) }
      if codec = none then
        (FLOW_error_msg c flow_status.Graph_invalid "flow_job_link_codecs"
          (flow_job_link_codecs_message info.placeholder_id i), g1)
      else (c, g1)
    else (c, g)
  else (c, g)

/-- Offset `k` of the info buffer holds the info record of a decoder or encoder node
with id below `n`. -/
def flow_graph.codec_info_at (g : flow_graph) (n k : Nat) : Prop :=
  ∃ i, i < n ∧ ((g.nodes i).type = flow_ntype.decoder ∨ (g.nodes i).type = flow_ntype.encoder) ∧
    (g.nodes i).info_byte_index = k

/-- The function `flow_job_link_codecs`. `graph_ref = none` is the null handle,
`some none` a handle that holds the null graph. The last component is the graph at
the handle afterwards. -/
def flow_job_link_codecs (E : Externals) (c : flow_c) (job : flow_job)
    (graph_ref : Option (Option flow_graph)) : Bool × flow_c × flow_job × Option flow_graph :=
  match graph_ref with
  | none => (false, FLOW_error c flow_status.Null_argument "flow_job_link_codecs", job, none)
  | some none => (false, FLOW_error c flow_status.Null_argument "flow_job_link_codecs", job, none)
  | some (some graph) =>
    match flow_job_notify_graph_changed E c job (some graph) with
    | (false, c1, job1) => (false, FLOW_error_return c1 "flow_job_link_codecs", job1, some graph)
    | (true, c1, job1) =>
      let s := (List.range graph.next_node_id).foldl (flow_job_link_codecs_node job1) (c1, graph)
      (true, s.1, job1, some s.2)

/-! ## Dimensions -/

/-- The call `flow_get_high_precision_ticks()`, a `uint64_t` reading of the clock. -/
def flow_get_high_precision_ticks (c : flow_c) : Nat := c.ticks % 2 ^ 64

/-- The statement `g->nodes[node_id].ticks_elapsed += later - now` in 64-bit unsigned
arithmetic. -/
def flow_node_add_ticks (g : flow_graph) (node_id : Nat) (now later : Nat) : flow_graph :=
  let n := g.nodes node_id
  { g with nodes := (Function.update g.nodes node_id
      { n with ticks_elapsed := (n.ticks_elapsed + (later + 2 ^ 64 - now)) % 2 ^ 64 }) }

def flow_job_populate_dimensions_for_node (E : Externals) (c : flow_c) (g : flow_graph)
    (node_id : Nat) (force_estimate : Bool) : Bool × flow_c × flow_graph :=
  let now := flow_get_high_precision_ticks c
  match E.flow_node_populate_dimensions c g node_id force_estimate with
  | (false, c1, g1) => (false, FLOW_error_return c1 "flow_job_populate_dimensions_for_node", g1)
  | (true, c1, g1) => (true, c1, flow_node_add_ticks g1 node_id now (flow_get_high_precision_ticks c1))

def flow_node_has_dimensions (g : flow_graph) (node_id : Nat) : Bool :=
  decide ((g.nodes node_id).result_width > 0)

def flow_node_inputs_have_dimensions (g : flow_graph) (node_id : Nat) : Bool :=
  (List.range g.next_edge_id).all fun i =>
    if (g.edges i).type ≠ flow_edgetype.null ∧ (g.edges i).«to» = node_id then
      flow_node_has_dimensions g (g.edges i).«from»
    else true

/-- The visitor `node_visitor_dimensions`; `custom_data` is the `force_estimate` flag. The
answer of the notify hook is dropped, as in the source. -/
def node_visitor_dimensions (E : Externals) : flow_graph_visitor flow_job Bool :=
  fun c job graph node_id quit skip_outbound_paths custom_data =>
    let outbound_edges :=
      E.flow_graph_get_edge_count c graph node_id false flow_edgetype.null false true
    if outbound_edges = 0 then
      ⟨true, c, job, graph, quit, skip_outbound_paths, custom_data⟩
    else if flow_node_has_dimensions graph node_id = false then
      match E.flow_node_update_state c graph node_id with
      | (false, c1, g1) =>
        ⟨false, FLOW_error_return c1 "node_visitor_dimensions", job, g1, quit,
          skip_outbound_paths, custom_data⟩
      | (true, c1, g1) =>
        let populated :=
          if (g1.nodes node_id).state &&& E.flow_node_state_InputDimensionsKnown > 0 then
            flow_job_populate_dimensions_for_node E c1 g1 node_id custom_data
          else (true, c1, g1)
        match populated with
        | (false, c2, g2) =>
          ⟨false, FLOW_error_return c2 "node_visitor_dimensions", job, g2, quit,
            skip_outbound_paths, custom_data⟩
        | (true, c2, g2) =>
          if flow_node_has_dimensions g2 node_id = false then
            ⟨true, c2, job, g2, quit, true, custom_data⟩
          else
            match flow_job_notify_graph_changed E c2 job (some g2) with
            | (_, c3, job3) => ⟨true, c3, job3, g2, quit, skip_outbound_paths, custom_data⟩
    else
      ⟨true, c, job, graph, quit, skip_outbound_paths, custom_data⟩

/-- The middle step of `node_visitor_dimensions`, named for the statements below: what the
visitor has after `flow_node_update_state` left context `c1` and graph `g1`, the node's
`populate_dimensions` being asked only when `InputDimensionsKnown` is set. -/
abbrev node_visitor_dimensions_populated (E : Externals) (c1 : flow_c) (g1 : flow_graph)
    (node_id : Nat) (force_estimate : Bool) : Bool × flow_c × flow_graph :=
  if (g1.nodes node_id).state &&& E.flow_node_state_InputDimensionsKnown > 0 then
    flow_job_populate_dimensions_for_node E c1 g1 node_id force_estimate
  else (true, c1, g1)

def flow_job_populate_dimensions_where_certain (E : Externals) (c : flow_c) (job : flow_job)
    (graph : flow_graph) : Bool × flow_c × flow_job × flow_graph :=
  match E.flow_graph_walk_dependency_wise c job graph (node_visitor_dimensions E) false with
  | (false, c1, job1, g1, _) =>
    (false, FLOW_error_return c1 "flow_job_populate_dimensions_where_certain", job1, g1)
  | (true, c1, job1, g1, _) => (true, c1, job1, g1)

def flow_job_force_populate_dimensions (E : Externals) (c : flow_c) (job : flow_job)
    (graph : flow_graph) : Bool × flow_c × flow_job × flow_graph :=
  match E.flow_graph_walk c job graph (node_visitor_dimensions E) true with
  | (false, c1, job1, g1, _) =>
    (false, FLOW_error_return c1 "flow_job_force_populate_dimensions", job1, g1)
  | (true, c1, job1, g1, _) => (true, c1, job1, g1)

/-! ## Flatten and optimize -/

/-- The visitor `node_visitor_flatten` (pre-optimize); `custom_data` is the caller's
`re_walk` cell. -/
def node_visitor_flatten (E : Externals) {J : Type} : flow_graph_visitor J Bool :=
  fun c job graph node_id quit skip_outbound_paths custom_data =>
    match E.flow_node_update_state c graph node_id with
    | (false, c1, g1) =>
      ⟨false, FLOW_error_return c1 "node_visitor_flatten", job, g1, quit, skip_outbound_paths,
        custom_data⟩
    | (true, c1, g1) =>
      if (g1.nodes node_id).state = E.flow_node_state_ReadyForPreOptimizeFlatten then
        match E.flow_node_pre_optimize_flatten c1 g1 node_id with
        | (false, c2, g2) =>
          ⟨false, FLOW_error_return c2 "node_visitor_flatten", job, g2, quit,
            skip_outbound_paths, custom_data⟩
        | (true, c2, g2) => ⟨true, c2, job, g2, true, skip_outbound_paths, true⟩
      else if (g1.nodes node_id).state &&& E.flow_node_state_InputDimensionsKnown = 0 then
        ⟨true, c1, job, g1, quit, true, custom_data⟩
      else
        ⟨true, c1, job, g1, quit, skip_outbound_paths, custom_data⟩

/-- The `do .. while (re_walk)` loop of `flow_graph_pre_optimize_flatten`; the walker gets
the null job. -/
def flow_graph_pre_optimize_flatten_walks (E : Externals) :
    Nat → flow_c → flow_graph → Option (Bool × flow_c × flow_graph)
  | 0, _, _ => none
  | fuel + 1, c, graph =>
    match E.flow_graph_walk_dependency_wise c () graph (node_visitor_flatten E) false with
    | (false, c1, _, g1, _) =>
      some (false, FLOW_error_return c1 "flow_graph_pre_optimize_flatten", g1)
    | (true, c1, _, g1, re_walk) =>
      if re_walk then flow_graph_pre_optimize_flatten_walks E fuel c1 g1
      else some (true, c1, g1)

def flow_graph_pre_optimize_flatten (E : Externals) (fuel : Nat) (c : flow_c)
    (graph_ref : Option flow_graph) : Option (Bool × flow_c × Option flow_graph) :=
  match graph_ref with
  | none => some (false, FLOW_error c flow_status.Null_argument "flow_graph_pre_optimize_flatten",
      none)
  | some graph =>
    match flow_graph_pre_optimize_flatten_walks E fuel c graph with
    | none => none
    | some (ok, c1, g1) => some (ok, c1, some g1)

/-- The visitor `node_visitor_post_optimize_flatten`. -/
def node_visitor_post_optimize_flatten (E : Externals) {J : Type} : flow_graph_visitor J Bool :=
  fun c job graph node_id quit skip_outbound_paths custom_data =>
    match E.flow_node_update_state c graph node_id with
    | (false, c1, g1) =>
      ⟨false, FLOW_error_return c1 "node_visitor_post_optimize_flatten", job, g1, quit,
        skip_outbound_paths, custom_data⟩
    | (true, c1, g1) =>
      if (g1.nodes node_id).state = E.flow_node_state_ReadyForPostOptimizeFlatten then
        match E.flow_node_post_optimize_flatten c1 g1 node_id with
        | (false, c2, g2) =>
          ⟨false, FLOW_error_return c2 "node_visitor_post_optimize_flatten", job, g2, quit,
            skip_outbound_paths, custom_data⟩
        | (true, c2, g2) =>
          match E.flow_graph_validate c2 g2 with
          | (false, c3) =>
            ⟨false, FLOW_error_return c3 "node_visitor_post_optimize_flatten", job, g2, quit,
              skip_outbound_paths, custom_data⟩
          | (true, c3) => ⟨true, c3, job, g2, true, skip_outbound_paths, true⟩
      else if (g1.nodes node_id).state &&& E.flow_node_state_InputDimensionsKnown = 0 then
        ⟨true, c1, job, g1, quit, true, custom_data⟩
      else
        ⟨true, c1, job, g1, quit, skip_outbound_paths, custom_data⟩

def flow_graph_post_optimize_flatten_walks (E : Externals) :
    Nat → flow_c → flow_job → flow_graph → Option (Bool × flow_c × flow_job × flow_graph)
  | 0, _, _, _ => none
  | fuel + 1, c, job, graph =>
    match E.flow_graph_walk c job graph (node_visitor_post_optimize_flatten E) false with
    | (false, c1, job1, g1, _) =>
      some (false, FLOW_error_return c1 "flow_graph_post_optimize_flatten", job1, g1)
    | (true, c1, job1, g1, re_walk) =>
      if re_walk then flow_graph_post_optimize_flatten_walks E fuel c1 job1 g1
      else some (true, c1, job1, g1)

def flow_graph_post_optimize_flatten (E : Externals) (fuel : Nat) (c : flow_c) (job : flow_job)
    (graph_ref : Option flow_graph) : Option (Bool × flow_c × flow_job × Option flow_graph) :=
  match graph_ref with
  | none => some (false,
      FLOW_error c flow_status.Null_argument "flow_graph_post_optimize_flatten", job, none)
  | some graph =>
    match flow_graph_post_optimize_flatten_walks E fuel c job graph with
    | none => none
    | some (ok, c1, job1, g1) => some (ok, c1, job1, some g1)

/-- The visitor `node_visitor_optimize`. -/
def node_visitor_optimize (E : Externals) {J : Type} : flow_graph_visitor J Bool :=
  fun c job graph node_id quit skip_outbound_paths custom_data =>
    let node := graph.nodes node_id
    if node.state = E.flow_node_state_ReadyForOptimize then
      ⟨true, c, job,
        { graph with nodes := (Function.update graph.nodes node_id
            { node with state := node.state ||| E.flow_node_state_Optimized }) },
        quit, skip_outbound_paths, custom_data⟩
    else
      ⟨true, c, job, graph, quit, skip_outbound_paths, custom_data⟩

def flow_graph_optimize_walks (E : Externals) :
    Nat → flow_c → flow_job → flow_graph → Option (Bool × flow_c × flow_job × flow_graph)
  | 0, _, _, _ => none
  | fuel + 1, c, job, graph =>
    match E.flow_graph_walk c job graph (node_visitor_optimize E) false with
    | (false, c1, job1, g1, _) => some (false, FLOW_error_return c1 "flow_graph_optimize", job1, g1)
    | (true, c1, job1, g1, re_walk) =>
      if re_walk then flow_graph_optimize_walks E fuel c1 job1 g1
      else some (true, c1, job1, g1)

def flow_graph_optimize (E : Externals) (fuel : Nat) (c : flow_c) (job : flow_job)
    (graph_ref : Option flow_graph) : Option (Bool × flow_c × flow_job × Option flow_graph) :=
  match graph_ref with
  | none => some (false, FLOW_error c flow_status.Null_argument "flow_graph_optimize", job, none)
  | some graph =>
    match flow_graph_optimize_walks E fuel c job graph with
    | none => none
    | some (ok, c1, job1, g1) => some (ok, c1, job1, some g1)

/-! ## Execution of nodes -/

def flow_job_node_is_executed (E : Externals) (g : flow_graph) (node_id : Nat) : Bool :=
  decide ((g.nodes node_id).state &&& E.flow_node_state_Executed > 0)

def flow_job_graph_fully_executed (E : Externals) (g : flow_graph) : Bool :=
  (List.range g.next_node_id).all fun i =>
    if (g.nodes i).type ≠ flow_ntype.Null then flow_job_node_is_executed E g i else true

/-- The visitor `node_visitor_execute`. The answers of the two notify hooks are dropped,
as in the source. -/
def node_visitor_execute (E : Externals) {D : Type} : flow_graph_visitor flow_job D :=
  fun c job graph node_id quit skip_outbound_paths custom_data =>
    match E.flow_node_update_state c graph node_id with
    | (false, c1, g1) =>
      ⟨false, FLOW_error_return c1 "node_visitor_execute", job, g1, quit, skip_outbound_paths,
        custom_data⟩
    | (true, c1, g1) =>
      let ran : Bool × flow_c × flow_job × flow_graph :=
        if flow_job_node_is_executed E g1 node_id = false ∧
            (g1.nodes node_id).state = E.flow_node_state_ReadyForExecution then
          let now := flow_get_high_precision_ticks c1
          match E.flow_node_execute c1 job g1 node_id with
          | (false, c2, job2, g2) => (false, FLOW_error_return c2 "node_visitor_execute", job2, g2)
          | (true, c2, job2, g2) =>
            let g3 := flow_node_add_ticks g2 node_id now (flow_get_high_precision_ticks c2)
            let n := g3.nodes node_id
            let g4 : flow_graph :=
              { g3 with nodes := (Function.update g3.nodes node_id
                  { n with state := n.state ||| E.flow_node_state_Executed }) }
            match E.flow_job_notify_node_complete c2 job2 g4 node_id with
            | (_, c5, job5) => (true, c5, job5, g4)
        else (true, c1, job, g1)
      match ran with
      | (false, c2, job2, g2) => ⟨false, c2, job2, g2, quit, skip_outbound_paths, custom_data⟩
      | (true, c2, job2, g2) =>
        if flow_job_node_is_executed E g2 node_id = false then
          ⟨true, c2, job2, g2, quit, true, custom_data⟩
        else
          match flow_job_notify_graph_changed E c2 job2 (some g2) with
          | (_, c3, job3) => ⟨true, c3, job3, g2, quit, skip_outbound_paths, custom_data⟩

def flow_job_execute_where_certain (E : Externals) (c : flow_c) (job : flow_job)
    (g : Option flow_graph) : Bool × flow_c × flow_job × Option flow_graph :=
  match g with
  | none => (false, FLOW_error c flow_status.Null_argument "flow_job_execute_where_certain", job,
      none)
  | some graph =>
    match E.flow_graph_walk_dependency_wise c job graph (node_visitor_execute E) () with
    | (false, c1, job1, g1, _) =>
      (false, FLOW_error_return c1 "flow_job_execute_where_certain", job1, some g1)
    | (true, c1, job1, g1, _) => (true, c1, job1, some g1)

/-! ## The orchestrator -/

/-- The callees of `flow_job_execute`, as recorded in the call trace. -/
inductive flow_call where
  | notify_graph_changed
  | link_codecs
  | populate_dimensions_where_certain
  | pre_optimize_flatten
  | optimize
  | post_optimize_flatten
  | execute_where_certain
  | render_graph_to_png
  deriving DecidableEq, Repr

/-- The state of a run of `flow_job_execute` inside its loop: context, job, the graph
at the handle, the local `passes`, and the trace of the calls made so far. `passes` is
an `int32_t` that is only incremented while below the `int32_t` pass limit, so it never
wraps. -/
structure flow_job_execute_state where
  c : flow_c
  job : flow_job
  graph : flow_graph
  passes : Nat
  calls : List flow_call

/-- What `flow_job_execute` leaves behind: the returned bit, context, job, the graph at
the handle, the value of `passes` at the return, the trace of the calls it made. -/
structure flow_job_execute_result where
  ok : Bool
  c : flow_c
  job : flow_job
  graph : Option flow_graph
  passes : Nat
  calls : List flow_call

/-- One guarded call of the loop body, `if (!callee(c, job, graph_ref)) FLOW_error_return(c)`,
before the guard: the callee run on the graph at the handle. -/
def flow_job_execute_callee (E : Externals) (fuel : Nat) (call : flow_call) (c : flow_c)
    (job : flow_job) (graph : flow_graph) : Option (Bool × flow_c × flow_job × Option flow_graph) :=
  match call with
  | flow_call.notify_graph_changed =>
    match flow_job_notify_graph_changed E c job (some graph) with
    | (ok, c1, job1) => some (ok, c1, job1, some graph)
  | flow_call.link_codecs => some (flow_job_link_codecs E c job (some (some graph)))
  | flow_call.populate_dimensions_where_certain =>
    match flow_job_populate_dimensions_where_certain E c job graph with
    | (ok, c1, job1, g1) => some (ok, c1, job1, some g1)
  | flow_call.pre_optimize_flatten =>
    match flow_graph_pre_optimize_flatten E fuel c (some graph) with
    | none => none
    | some (ok, c1, g1) => some (ok, c1, job, g1)
  | flow_call.optimize => flow_graph_optimize E fuel c job (some graph)
  | flow_call.post_optimize_flatten => flow_graph_post_optimize_flatten E fuel c job (some graph)
  | flow_call.execute_where_certain => some (flow_job_execute_where_certain E c job (some graph))
  | flow_call.render_graph_to_png =>
    match E.flow_job_render_graph_to_png c job graph (job.next_graph_version - 1) with
    | (ok, c1) => some (ok, c1, job, some graph)

/-- A run of guarded calls in source order. The first callee that answers false ends the
run with `FLOW_error_return`; `none` when a callee runs out of fuel or leaves the
null graph at the handle (the next statement would dereference it). -/
def flow_job_execute_calls (E : Externals) (fuel : Nat) :
    List flow_call → flow_job_execute_state → Option (Bool × flow_job_execute_state)
  | [], s => some (true, s)
  | call :: rest, s =>
    match flow_job_execute_callee E fuel call s.c s.job s.graph with
    | none => none
    | some (_, _, _, none) => none
    | some (false, c1, job1, some g1) =>
      some (false, { c := FLOW_error_return c1 "flow_job_execute", job := job1, graph := g1,
                     passes := s.passes, calls := s.calls ++ [call] })
    | some (true, c1, job1, some g1) =>
      flow_job_execute_calls E fuel rest
        { c := c1, job := job1, graph := g1, passes := s.passes, calls := s.calls ++ [call] }

/-- The guarded calls of the loop body up to `passes++`, in source order. -/
def flow_job_execute_pass_calls : List flow_call :=
  [flow_call.populate_dimensions_where_certain, flow_call.notify_graph_changed,
   flow_call.pre_optimize_flatten, flow_call.notify_graph_changed,
   flow_call.populate_dimensions_where_certain, flow_call.notify_graph_changed,
   flow_call.optimize, flow_call.notify_graph_changed,
   flow_call.populate_dimensions_where_certain, flow_call.notify_graph_changed,
   flow_call.post_optimize_flatten, flow_call.notify_graph_changed,
   flow_call.populate_dimensions_where_certain, flow_call.notify_graph_changed,
   flow_call.execute_where_certain]

/-- The body of the `while` loop of `flow_job_execute` after the pass-limit test: the
fifteen guarded calls, `passes++`, and the closing notify. -/
def flow_job_execute_pass (E : Externals) (fuel : Nat) (s : flow_job_execute_state) :
    Option (Bool × flow_job_execute_state) :=
  match flow_job_execute_calls E fuel flow_job_execute_pass_calls s with
  | none => none
  | some (false, s1) => some (false, s1)
  | some (true, s1) =>
    flow_job_execute_calls E fuel [flow_call.notify_graph_changed]
      { s1 with passes := s1.passes + 1 }

/-- The `while (!flow_job_graph_fully_executed(..))` loop of `flow_job_execute`, at most
`n` iterations of it (`none` when more would be needed). -/
def flow_job_execute_loop (E : Externals) (fuel : Nat) :
    Nat → flow_job_execute_state → Option (Bool × flow_job_execute_state)
  | n, s =>
    if flow_job_graph_fully_executed E s.graph then some (true, s)
    else if (s.passes : Int) ≥ s.job.max_calc_flatten_execute_passes then
      some (false, { s with c := FLOW_error s.c flow_status.Maximum_graph_passes_exceeded
                                   "flow_job_execute" })
    else
      match n with
      | 0 => none
      | m + 1 =>
        match flow_job_execute_pass E fuel s with
        | none => none
        | some (false, s1) => some (false, s1)
        | some (true, s1) => flow_job_execute_loop E fuel m s1

/-- The tail of `flow_job_execute` after the loop: render the last graph version when
`next_graph_version > 0 && render_last_graph`. -/
def flow_job_execute_render (E : Externals) (s : flow_job_execute_state) :
    flow_job_execute_result :=
  if s.job.next_graph_version > 0 ∧ s.job.render_last_graph = true then
    match E.flow_job_render_graph_to_png s.c s.job s.graph (s.job.next_graph_version - 1) with
    | (false, c1) =>
      { ok := false, c := FLOW_error_return c1 "flow_job_execute", job := s.job,
        graph := some s.graph, passes := s.passes,
        calls := s.calls ++ [flow_call.render_graph_to_png] }
    | (true, c1) =>
      { ok := true, c := c1, job := s.job, graph := some s.graph, passes := s.passes,
        calls := s.calls ++ [flow_call.render_graph_to_png] }
  else
    { ok := true, c := s.c, job := s.job, graph := some s.graph, passes := s.passes,
      calls := s.calls }

/-- The state in which `flow_job_execute` enters its loop: after the notify hook and the
linker both succeeded at entry. -/
def flow_job_execute_entry (c : flow_c) (job : flow_job) (graph : flow_graph) :
    flow_job_execute_state :=
  { c := c, job := job, graph := graph, passes := 0,
    calls := [flow_call.notify_graph_changed, flow_call.link_codecs] }

/-- The function `flow_job_execute` on the graph held by the handle `graph_ref` (`none`: the
handle holds the null graph). `fuel` bounds the iterations of the pass loop and the
walks of each flatten and optimize driver; the answer is `none` when it runs out. -/
def flow_job_execute (E : Externals) (fuel : Nat) (c : flow_c) (job : flow_job)
    (graph_ref : Option flow_graph) : Option flow_job_execute_result :=
  match flow_job_notify_graph_changed E c job graph_ref with
  | (false, c1, job1) =>
    some { ok := false, c := FLOW_error_return c1 "flow_job_execute", job := job1,
           graph := graph_ref, passes := 0, calls := [flow_call.notify_graph_changed] }
  | (true, c1, job1) =>
    match flow_job_link_codecs E c1 job1 (some graph_ref) with
    | (false, c2, job2, g2) =>
      some { ok := false, c := FLOW_error_return c2 "flow_job_execute", job := job2, graph := g2,
             passes := 0, calls := [flow_call.notify_graph_changed, flow_call.link_codecs] }
    | (true, _, _, none) => none
    | (true, c2, job2, some g2) =>
      match flow_job_execute_loop E fuel fuel (flow_job_execute_entry c2 job2 g2) with
      | none => none
      | some (false, s) =>
        some { ok := false, c := s.c, job := s.job, graph := some s.graph, passes := s.passes,
               calls := s.calls }
      | some (true, s) => some (flow_job_execute_render E s)

/-- The state after `k` iterations of the loop body when each of them succeeded (the
loop condition and the pass limit are not looked at); `none` when one of them fails
or runs out of fuel. -/
def flow_job_execute_after (E : Externals) (fuel : Nat) :
    Nat → flow_job_execute_state → Option flow_job_execute_state
  | 0, s => some s
  | k + 1, s =>
    match flow_job_execute_after E fuel k s with
    | none => none
    | some s1 =>
      match flow_job_execute_pass E fuel s1 with
      | some (true, s2) => some s2
      | _ => none

/-! ## The contract of the walkers, and the order on flag sets -/

/-- Modelled from the spec: the graph walkers are not in job.c. A walk calls the visitor on
nodes of the walker's choice, each call on the job, the graph and the `custom_data` the
call before left, with `quit` cleared and `skip_outbound_paths` as the walker likes; a
visitor that fails, or that sets `quit`, ends the walk at once, and the walker may also
give up by itself. `flow_graph_walk_run visitor job g d T r` says that a walk started on
`job`, `g`, `d` made the visitor calls `T` (context, job, graph, node id,
`skip_outbound_paths`, `custom_data` of each call) and left `r`: the returned bit, job,
graph and `custom_data`. -/
inductive flow_graph_walk_run {J D : Type} (visitor : flow_graph_visitor J D) :
    J → flow_graph → D → List (flow_c × J × flow_graph × Nat × Bool × D) →
      Bool × J × flow_graph × D → Prop
  | done (job : J) (g : flow_graph) (d : D) :
    flow_graph_walk_run visitor job g d [] (true, job, g, d)
  | aborted (job : J) (g : flow_graph) (d : D) :
    flow_graph_walk_run visitor job g d [] (false, job, g, d)
  | failed (c : flow_c) (job : J) (g : flow_graph) (node_id : Nat) (skip : Bool) (d : D) :
    (visitor c job g node_id false skip d).ok = false →
    flow_graph_walk_run visitor job g d [(c, job, g, node_id, skip, d)]
      (false, (visitor c job g node_id false skip d).job,
        (visitor c job g node_id false skip d).graph,
        (visitor c job g node_id false skip d).custom_data)
  | quit (c : flow_c) (job : J) (g : flow_graph) (node_id : Nat) (skip : Bool) (d : D) :
    (visitor c job g node_id false skip d).ok = true →
    (visitor c job g node_id false skip d).quit = true →
    flow_graph_walk_run visitor job g d [(c, job, g, node_id, skip, d)]
      (true, (visitor c job g node_id false skip d).job,
        (visitor c job g node_id false skip d).graph,
        (visitor c job g node_id false skip d).custom_data)
  | next (c : flow_c) (job : J) (g : flow_graph) (node_id : Nat) (skip : Bool) (d : D)
      (T : List (flow_c × J × flow_graph × Nat × Bool × D)) (r : Bool × J × flow_graph × D) :
    (visitor c job g node_id false skip d).ok = true →
    (visitor c job g node_id false skip d).quit = false →
    flow_graph_walk_run visitor (visitor c job g node_id false skip d).job
      (visitor c job g node_id false skip d).graph
      (visitor c job g node_id false skip d).custom_data T r →
    flow_graph_walk_run visitor job g d ((c, job, g, node_id, skip, d) :: T) r

/-- Modelled from the spec: a walker keeps its contract when every walk it makes, with
any visitor, is a run as above that ends in what the walker hands back. -/
def flow_graph_walker_runs
    (walk : {J D : Type} → flow_c → J → flow_graph → flow_graph_visitor J D → D →
      Bool × flow_c × J × flow_graph × D) : Prop :=
  ∀ (J D : Type) (c : flow_c) (job : J) (g : flow_graph) (visitor : flow_graph_visitor J D)
    (d : D),
    ∃ T, flow_graph_walk_run visitor job g d T
      ((walk c job g visitor d).1, (walk c job g visitor d).2.2)

/-- Modelled from the spec: a walker whose walks are runs as above, each call of the visitor
being for a node `n` of the graph `g` it is made on with `K g n`. -/
def flow_graph_walker_visits (K : flow_graph → Nat → Prop)
    (walk : {J D : Type} → flow_c → J → flow_graph → flow_graph_visitor J D → D →
      Bool × flow_c × J × flow_graph × D) : Prop :=
  ∀ (J D : Type) (c : flow_c) (job : J) (g : flow_graph) (visitor : flow_graph_visitor J D)
    (d : D),
    ∃ T, flow_graph_walk_run visitor job g d T
        ((walk c job g visitor d).1, (walk c job g visitor d).2.2) ∧
      ∀ call ∈ T, K call.2.2.1 call.2.2.2.1

/-- Modelled from the spec: a walker visits the nodes of the graph. Every walk it makes is
a run as above in which each call of the visitor is for a node id below the `next_node_id`
of the graph the call is made on. -/
def flow_graph_walker_visits_table
    (walk : {J D : Type} → flow_c → J → flow_graph → flow_graph_visitor J D → D →
      Bool × flow_c × J × flow_graph × D) : Prop :=
  flow_graph_walker_visits (fun g n => n < g.next_node_id) walk

/-- The flag set `a` is contained in the flag set `b`. -/
def flow_node_state_le (a b : Nat) : Prop := a &&& b = a

/-- Every node of `g1` (an id below its `next_node_id`) is a node of `g2` and has in `g2`
at least the flags it has in `g1`. Nothing is said of the nodes `g2` has beyond those of
`g1`: a rewrite may create nodes, in whatever state. -/
def flow_graph_states_le (g1 g2 : flow_graph) : Prop :=
  g1.next_node_id ≤ g2.next_node_id ∧
  ∀ i, i < g1.next_node_id → flow_node_state_le (g1.nodes i).state (g2.nodes i).state

/-- From `g1` to `g2` no node lost a flag and no node gained Executed: every node of `g2`
with Executed is a node of `g1` that had it (so a node created meanwhile is not
executed). -/
def flow_graph_states_grow (E : Externals) (g1 g2 : flow_graph) : Prop :=
  flow_graph_states_le g1 g2 ∧
  ∀ i, i < g2.next_node_id → flow_job_node_is_executed E g2 i = true →
    i < g1.next_node_id ∧ flow_job_node_is_executed E g1 i = true

/-- Every node of `g` with the Executed flag has all the flags of `ReadyForExecution`. -/
def flow_graph_executed_ready (E : Externals) (g : flow_graph) : Prop :=
  ∀ i, i < g.next_node_id → flow_job_node_is_executed E g i = true →
    flow_node_state_le E.flow_node_state_ReadyForExecution (g.nodes i).state

/-- Whether a call of `node_visitor_flatten` reaches `flow_node_pre_optimize_flatten`:
`flow_node_update_state` succeeded and left the node's state equal to
`ReadyForPreOptimizeFlatten`. -/
def node_visitor_flatten_rewrites (E : Externals) (c : flow_c) (graph : flow_graph)
    (node_id : Nat) : Bool :=
  match E.flow_node_update_state c graph node_id with
  | (ok, _, g1) =>
    ok && decide ((g1.nodes node_id).state = E.flow_node_state_ReadyForPreOptimizeFlatten)

/-- Whether a call of `node_visitor_post_optimize_flatten` reaches
`flow_node_post_optimize_flatten`. -/
def node_visitor_post_optimize_flatten_rewrites (E : Externals) (c : flow_c)
    (graph : flow_graph) (node_id : Nat) : Bool :=
  match E.flow_node_update_state c graph node_id with
  | (ok, _, g1) =>
    ok && decide ((g1.nodes node_id).state = E.flow_node_state_ReadyForPostOptimizeFlatten)

/-- The number of calls of a walk that reach the rewrite. -/
def flow_graph_walk_rewrites {J D : Type} (rewrites : flow_c → flow_graph → Nat → Bool)
    (T : List (flow_c × J × flow_graph × Nat × Bool × D)) : Nat :=
  T.countP fun call => rewrites call.1 call.2.2.1 call.2.2.2.1

/-! ## A small node library and walker, used to run the engine on concrete graphs -/

namespace Sample

/-- A walk in id order over the live nodes: tombstones are skipped, a failing visitor
or `quit` ends the walk. On graphs whose edges go from lower to higher ids this is
a dependency-wise walk. -/
def walk_by_id {J D : Type} (visitor : flow_graph_visitor J D) :
    Nat → Nat → flow_c → J → flow_graph → D → Bool × flow_c × J × flow_graph × D
  | 0, _, c, job, g, d => (true, c, job, g, d)
  | fuel + 1, i, c, job, g, d =>
    if g.next_node_id ≤ i then (true, c, job, g, d)
    else if (g.nodes i).type = flow_ntype.Null then walk_by_id visitor fuel (i + 1) c job g d
    else
      let r := visitor c job g i false false d
      if r.ok = false then (false, r.c, r.job, r.graph, r.custom_data)
      else if r.quit then (true, r.c, r.job, r.graph, r.custom_data)
      else walk_by_id visitor fuel (i + 1) r.c r.job r.graph r.custom_data

/-- The number of live edges leaving a node. -/
def outbound_edge_count (g : flow_graph) (node_id : Nat) : Nat :=
  (List.range g.next_edge_id).countP fun i =>
    decide ((g.edges i).type ≠ flow_edgetype.null ∧ (g.edges i).«from» = node_id)

/-- Set flag bits on one node. -/
def set_flags (g : flow_graph) (node_id : Nat) (flags : Nat) : flow_graph :=
  let n := g.nodes node_id
  { g with nodes := (Function.update g.nodes node_id { n with state := n.state ||| flags }) }

/-- Flags recomputed from local data: bit 1 when every input has dimensions, bit 2
when the node has dimensions or nothing leaves it. -/
def update_state (c : flow_c) (g : flow_graph) (node_id : Nat) : Bool × flow_c × flow_graph :=
  (true, c,
    set_flags g node_id
      ((if flow_node_inputs_have_dimensions g node_id then 1 else 0) |||
       (if flow_node_has_dimensions g node_id ∨ outbound_edge_count g node_id = 0 then 2 else 0)))

/-- Dimensions of a node: kind `other 0` never learns them, every other kind is 1 x 1. -/
def populate_dimensions (c : flow_c) (g : flow_graph) (node_id : Nat) (_force_estimate : Bool) :
    Bool × flow_c × flow_graph :=
  let n := g.nodes node_id
  if n.type = flow_ntype.other 0 then (true, c, g)
  else
    (true, c, { g with nodes :=
      (Function.update g.nodes node_id { n with result_width := 1, result_height := 1 }) })

/-- The hook that bumps `next_graph_version` at every call and always succeeds. -/
def notify_bump (c : flow_c) (job : flow_job) (_g : Option flow_graph) : Bool × flow_c × Int :=
  (true, c, job.next_graph_version + 1)

/-- A codec module that knows one signature, the eight bytes of a PNG file. -/
def codec_select (_c : flow_c) (_job : flow_job) (buffer : List Nat) (_length : Int) : Int :=
  if buffer = [137, 80, 78, 71, 13, 10, 26, 10] then 1 else flow_codec_type_null

/-- A complete set of collaborators: flags 1, 2, 4, 8, 16, 32 for input dimensions,
outbound dimensions, pre-flattened, optimized, post-flattened, executed, each gate the
conjunction of the flags before its stage; rewrites that only set their stage flag;
node execution, validation, rendering and allocation that always succeed. -/
def externals : Externals where
  flow_node_state_InputDimensionsKnown := 1
  flow_node_state_ReadyForPreOptimizeFlatten := 3
  flow_node_state_ReadyForOptimize := 7
  flow_node_state_Optimized := 8
  flow_node_state_ReadyForPostOptimizeFlatten := 15
  flow_node_state_ReadyForExecution := 31
  flow_node_state_Executed := 32
  FLOW_malloc_owned := fun _ _ => true
  flow_job_codec_select := codec_select
  flow_job_initialize_codec := fun c _ _ => (true, c, some 1)
  flow_job_notify_graph_changed := notify_bump
  flow_job_notify_node_complete := fun c job _ _ => (true, c, job)
  flow_job_render_graph_to_png := fun c _ _ _ => (true, c)
  flow_node_update_state := update_state
  flow_node_populate_dimensions := populate_dimensions
  flow_node_pre_optimize_flatten := fun c g node_id => (true, c, set_flags g node_id 4)
  flow_node_post_optimize_flatten := fun c g node_id => (true, c, set_flags g node_id 16)
  flow_node_execute := fun c job g _ => (true, c, job, g)
  flow_graph_validate := fun c _ => (true, c)
  flow_graph_get_edge_count := fun _ g node_id _ _ _ _ => (outbound_edge_count g node_id : Int)
  flow_graph_walk := fun c job g visitor d => walk_by_id visitor g.next_node_id 0 c job g d
  flow_graph_walk_dependency_wise :=
    fun c job g visitor d => walk_by_id visitor g.next_node_id 0 c job g d

/-- An in-memory endpoint over `bytes`; its state is the read cursor. A read hands out
the bytes from the cursor on and advances it, a seek inside the data sets it. -/
def memory_io (bytes : List Nat) : flow_io Nat where
  user_data := 0
  read_func := fun c cursor n =>
    (((bytes.drop cursor).take n).length, (bytes.drop cursor).take n, c,
      cursor + ((bytes.drop cursor).take n).length)
  seek_function := fun c cursor offset =>
    if 0 ≤ offset ∧ offset ≤ bytes.length then (true, c, offset.toNat) else (false, c, cursor)

/-- The first bytes of a PNG file. -/
def png_bytes : List Nat := [137, 80, 78, 71, 13, 10, 26, 10, 0, 0, 0, 13]

/-- Bytes no codec recognizes. -/
def unknown_bytes : List Nat := [0xDE, 0xAD, 0xBE, 0xEF, 0x00, 0x01, 0x02, 0x03]

def context : flow_c := { errors := [], callstack := [], ticks := 0 }

/-- A job as `flow_job_create` leaves it, with the given pass limit and bindings. -/
def job (max_passes : Int) (codecs : List flow_codec_instance) : flow_job :=
  { debug_job_id := 0, next_graph_version := 0, max_calc_flatten_execute_passes := max_passes,
    record_graph_versions := false, record_frame_images := false, render_last_graph := false,
    render_graph_versions := false, render_animated_graph := false, codecs := codecs }

def node (type : flow_ntype) (state : Nat) (info_byte_index : Nat) : flow_node :=
  { type := type, state := state, result_width := 0, result_height := 0,
    info_byte_index := info_byte_index, ticks_elapsed := 0 }

/-- A graph from its node list, its edges `(from, to)` and the codec info records stored
at offsets 0, 1, 2, .. of the info buffer. -/
def graph (nodes : List flow_node) (edges : List (Nat × Nat))
    (infos : List flow_nodeinfo_codec) : flow_graph :=
  { nodes := fun i => nodes.getD i (node flow_ntype.Null 0 0),
    next_node_id := nodes.length,
    edges := fun i =>
      match edges[i]? with
      | some e => { type := flow_edgetype.other 1, «from» := e.1, «to» := e.2 }
      | none => { type := flow_edgetype.null, «from» := 0, «to» := 0 },
    next_edge_id := edges.length,
    info_bytes := fun i => infos.getD i { placeholder_id := 0, codec := none } }

/-- A job with one output registered under placeholder id 99. -/
def encoder_job : flow_job :=
  job 6 [{ graph_placeholder_id := 99, io := some 2, codec_id := 0, codec_state := none,
           direction := FLOW_DIRECTION.FLOW_OUTPUT }]

/-- A graph of one encoder node that refers to placeholder id 99, not linked yet. -/
def encoder_graph : flow_graph :=
  graph [node flow_ntype.encoder 0 0] [] [{ placeholder_id := 99, codec := none }]

/-- A graph of one decoder node that refers to placeholder id 7, not linked yet. -/
def dangling_graph : flow_graph :=
  graph [node flow_ntype.decoder 0 0] [] [{ placeholder_id := 7, codec := none }]

/-- Two operation nodes joined by an edge, nothing computed yet. -/
def chain_graph : flow_graph :=
  graph [node (flow_ntype.other 1) 0 0, node (flow_ntype.other 1) 0 0] [(0, 1)] []

/-- As `chain_graph`, with a first node of the kind that never learns its dimensions. -/
def stuck_graph : flow_graph :=
  graph [node (flow_ntype.other 0) 0 0, node (flow_ntype.other 1) 0 0] [(0, 1)] []

/-- One operation node that has been executed (all six flags set). -/
def done_graph : flow_graph := graph [node (flow_ntype.other 1) 63 0] [] []

/-- A single tombstone. -/
def null_graph : flow_graph := graph [node flow_ntype.Null 0 0] [] []

/-- What the linker leaves of `stuck_graph` when `flow_job_execute` runs it at entry with a
pass limit of 2 (after the first notify bumped the version to 1). -/
def stuck_linked : Bool × flow_c × flow_job × Option flow_graph :=
  flow_job_link_codecs externals context { job 2 [] with next_graph_version := 1 }
    (some (some stuck_graph))

/-- The state in which that run enters its loop. -/
def stuck_entry : flow_job_execute_state :=
  flow_job_execute_entry stuck_linked.2.1 stuck_linked.2.2.1
    (stuck_linked.2.2.2.getD stuck_graph)

/-- A notify hook that fails (a snapshot that cannot be written). -/
def notify_failing (c : flow_c) (job : flow_job) (_g : Option flow_graph) : Bool × flow_c × Int :=
  (false, c, job.next_graph_version)

/-- The collaborators of `externals`, with the failing notify hook. -/
def failing_externals : Externals :=
  { externals with flow_job_notify_graph_changed := notify_failing }

/-- An in-memory endpoint whose cursor stands at `cursor`. -/
def memory_io_at (bytes : List Nat) (cursor : Nat) : flow_io Nat :=
  { memory_io bytes with user_data := cursor }

/-- One operation node with nothing leaving or entering it, nothing computed yet. -/
def single_graph : flow_graph := graph [node (flow_ntype.other 1) 0 0] [] []

/-- A notify hook that cannot snapshot a partly executed graph: it fails, and records an
error, when some live node is executed and some live node is not. -/
def notify_partial (c : flow_c) (job : flow_job) (g : Option flow_graph) : Bool × flow_c × Int :=
  match g with
  | none => (true, c, job.next_graph_version + 1)
  | some graph =>
    if ((List.range graph.next_node_id).any fun i =>
          decide ((graph.nodes i).type ≠ flow_ntype.Null ∧ (graph.nodes i).state &&& 32 > 0)) ∧
       ((List.range graph.next_node_id).any fun i =>
          decide ((graph.nodes i).type ≠ flow_ntype.Null ∧ (graph.nodes i).state &&& 32 = 0)) then
      (false, FLOW_error c (flow_status.Other_error 1) "flow_job_notify_graph_changed",
        job.next_graph_version)
    else (true, c, job.next_graph_version + 1)

/-- The collaborators of `externals`, with hooks that fail inside the walks: the notify hook
above, and a node-complete hook that always fails and records an error. -/
def failing_hooks_externals : Externals :=
  { externals with
    flow_job_notify_graph_changed := notify_partial
    flow_job_notify_node_complete := fun c job _ _ =>
      (false, FLOW_error c (flow_status.Other_error 2) "flow_job_notify_node_complete", job) }

/-- A rewrite that creates a node. A node of kind `other 2` is replaced: it becomes a
tombstone, a node of kind `other 1` in the blank state is created at slot `next_node_id`,
and the edges of the old node are moved to the new one. A node of any other kind only
gets the flag 4. -/
def expand (c : flow_c) (g : flow_graph) (node_id : Nat) : Bool × flow_c × flow_graph :=
  let n := g.nodes node_id
  if n.type = flow_ntype.other 2 then
    (true, c,
      { g with
        nodes := (Function.update
          (Function.update g.nodes node_id { n with type := flow_ntype.Null })
          g.next_node_id (node (flow_ntype.other 1) 0 0))
        next_node_id := g.next_node_id + 1
        edges := fun k =>
          { type := (g.edges k).type
            «from» := if (g.edges k).«from» = node_id then g.next_node_id else (g.edges k).«from»
            «to» := if (g.edges k).«to» = node_id then g.next_node_id else (g.edges k).«to» } })
  else (true, c, set_flags g node_id 4)

/-- The collaborators of `externals`, with the pre-optimize rewrite that creates nodes. -/
def expanding_externals : Externals :=
  { externals with flow_node_pre_optimize_flatten := expand }

/-- An operation node that feeds a node of the kind `expand` replaces. -/
def expandable_graph : flow_graph :=
  graph [node (flow_ntype.other 1) 0 0, node (flow_ntype.other 2) 0 0] [(0, 1)] []

end Sample

/-! ## Lemmas on the registry -/

section Registry

/-- What the scan of the chain answers: the first position whose binding matches, and
nothing when no binding matches. -/
theorem get_codec_instance_from_spec (p : Int) :
    ∀ (chain : List flow_codec_instance) (pos : Nat),
      match flow_job_get_codec_instance_from p chain pos with
      | some i => ∃ j b, i = pos + j ∧ chain[j]? = some b ∧ b.graph_placeholder_id = p ∧
          ∀ j', j' < j → ∀ b', chain[j']? = some b' → b'.graph_placeholder_id ≠ p
      | none => ∀ b ∈ chain, b.graph_placeholder_id ≠ p := by
  intro chain
  induction chain with
  | nil => intro pos; simp [flow_job_get_codec_instance_from]
  | cons head rest ih =>
    intro pos
    by_cases hp : head.graph_placeholder_id = p
    · simp only [flow_job_get_codec_instance_from, hp, if_true]
      exact ⟨0, head, rfl, List.getElem?_cons_zero, hp,
        fun j' hj' => absurd hj' (Nat.not_lt_zero _)⟩
    · simp only [flow_job_get_codec_instance_from, hp, if_false]
      have h := ih (pos + 1)
      cases hres : flow_job_get_codec_instance_from p rest (pos + 1) with
      | none =>
        rw [hres] at h
        intro b hb
        rcases List.mem_cons.mp hb with rfl | hb
        · exact hp
        · exact h b hb
      | some i =>
        rw [hres] at h
        obtain ⟨j, b, hi, hget, hb, hmin⟩ := h
        refine ⟨j + 1, b, by omega, by simpa using hget, hb, ?_⟩
        intro j' hj' b' hget'
        cases j' with
        | zero =>
          simp at hget'
          subst hget'
          exact hp
        | succ j'' =>
          exact hmin j'' (by omega) b' (by simpa using hget')

/-- A scan that finds nothing in `chain` finds the appended binding exactly when it
matches. -/
theorem get_codec_instance_from_append_fresh (p : Int) (r : flow_codec_instance) :
    ∀ (chain : List flow_codec_instance) (pos : Nat),
      (∀ b ∈ chain, b.graph_placeholder_id ≠ p) →
      flow_job_get_codec_instance_from p (chain ++ [r]) pos =
        if r.graph_placeholder_id = p then some (pos + chain.length) else none := by
  intro chain
  induction chain with
  | nil => intro pos _; simp [flow_job_get_codec_instance_from]
  | cons head rest ih =>
    intro pos h
    have hhead : head.graph_placeholder_id ≠ p := h head (List.mem_cons_self _ _)
    have hrest : ∀ b ∈ rest, b.graph_placeholder_id ≠ p :=
      fun b hb => h b (List.mem_cons_of_mem _ hb)
    simp only [List.cons_append, flow_job_get_codec_instance_from, if_neg hhead, List.append_eq,
      ih (pos + 1) hrest, List.length_cons]
    by_cases hrp : r.graph_placeholder_id = p
    · simp only [hrp, if_true, Option.some.injEq]; omega
    · simp only [hrp, if_false]

/-- Appending a binding with another id does not change what a scan answers. -/
theorem get_codec_instance_from_append_other (q : Int) (r : flow_codec_instance)
    (hr : r.graph_placeholder_id ≠ q) :
    ∀ (chain : List flow_codec_instance) (pos : Nat),
      flow_job_get_codec_instance_from q (chain ++ [r]) pos =
        flow_job_get_codec_instance_from q chain pos := by
  intro chain
  induction chain with
  | nil => intro pos; simp [flow_job_get_codec_instance_from, hr]
  | cons head rest ih =>
    intro pos
    simp only [List.cons_append, flow_job_get_codec_instance_from, List.append_eq, ih (pos + 1)]

/-- The two branches of the tail insertion of `flow_job_add_io` are one append. -/
theorem add_io_chain (chain : List flow_codec_instance) (r : flow_codec_instance) :
    flow_job_add_io_link chain r = chain ++ [r] := by
  cases chain <;> rfl

end Registry

/-! ## Lemmas on `flow_job_add_io` -/

section AddIo

variable {σ : Type} (E : Externals) (c : flow_c) (job : flow_job) (io : Option Nat)
  (io_object : flow_io σ) (placeholder_id : Int)

theorem add_io_buffer_eq (data : List Nat) : flow_job_add_io_buffer data =
    [data.getD 0 0 % 256, data.getD 1 0 % 256, data.getD 2 0 % 256, data.getD 3 0 % 256,
     data.getD 4 0 % 256, data.getD 5 0 % 256, data.getD 6 0 % 256, data.getD 7 0 % 256] := by
  rfl

/-- The message of the unknown-signature error is the fixed text followed by the eight
buffer bytes in hexadecimal, in order. -/
theorem add_io_unrecognized_eq (data : List Nat) :
    flow_job_add_io_unrecognized (flow_job_add_io_buffer data) =
      "Unrecognized leading byte sequence " ++
        String.join ((flow_job_add_io_buffer data).map format_02x) := by
  rw [add_io_buffer_eq]
  simp only [flow_job_add_io_unrecognized, List.map, String.join, List.foldl, List.getD_cons_zero,
    List.getD_cons_succ, String.append_assoc, String.empty_append]

theorem add_io_output (halloc : E.FLOW_malloc_owned c job = true) :
    flow_job_add_io E c job io io_object placeholder_id FLOW_DIRECTION.FLOW_OUTPUT =
      (true, c,
        { job with codecs := job.codecs ++
            [flow_job_add_io_binding io placeholder_id FLOW_DIRECTION.FLOW_OUTPUT] },
        io_object) := by
  simp [flow_job_add_io, add_io_chain, halloc]

theorem add_io_short_read (halloc : E.FLOW_malloc_owned c job = true)
    (hread : (flow_job_add_io_read c io_object).1 ≠ 8) :
    flow_job_add_io E c job io io_object placeholder_id FLOW_DIRECTION.FLOW_INPUT =
      (false,
        FLOW_error_msg (flow_job_add_io_read c io_object).2.2.1 flow_status.IO_error
          "flow_job_add_io" "Failed to read first 8 bytes of file",
        { job with codecs := job.codecs ++
            [flow_job_add_io_binding io placeholder_id FLOW_DIRECTION.FLOW_INPUT] },
        { io_object with user_data := (flow_job_add_io_read c io_object).2.2.2 }) := by
  simp [flow_job_add_io, add_io_chain, halloc, hread]

theorem add_io_seek_failed (halloc : E.FLOW_malloc_owned c job = true)
    (hread : (flow_job_add_io_read c io_object).1 = 8)
    (hseek : (flow_job_add_io_seek c io_object).1 = false) :
    flow_job_add_io E c job io io_object placeholder_id FLOW_DIRECTION.FLOW_INPUT =
      (false,
        FLOW_error_msg (flow_job_add_io_seek c io_object).2.1 flow_status.IO_error
          "flow_job_add_io" "Failed to seek to byte 0 in file",
        { job with codecs := job.codecs ++
            [flow_job_add_io_binding io placeholder_id FLOW_DIRECTION.FLOW_INPUT] },
        { io_object with user_data := (flow_job_add_io_seek c io_object).2.2 }) := by
  simp [flow_job_add_io, add_io_chain, halloc, hread, hseek]

theorem add_io_unknown_signature (halloc : E.FLOW_malloc_owned c job = true)
    (hread : (flow_job_add_io_read c io_object).1 = 8)
    (hseek : (flow_job_add_io_seek c io_object).1 = true)
    (hsel : flow_job_add_io_ctype E c job io io_object placeholder_id FLOW_DIRECTION.FLOW_INPUT =
      flow_codec_type_null) :
    flow_job_add_io E c job io io_object placeholder_id FLOW_DIRECTION.FLOW_INPUT =
      (false,
        FLOW_error_msg (flow_job_add_io_seek c io_object).2.1 flow_status.Not_implemented
          "flow_job_add_io"
          (flow_job_add_io_unrecognized
            (flow_job_add_io_buffer (flow_job_add_io_read c io_object).2.1)),
        { job with codecs := job.codecs ++
            [flow_job_add_io_binding io placeholder_id FLOW_DIRECTION.FLOW_INPUT] },
        { io_object with user_data := (flow_job_add_io_seek c io_object).2.2 }) := by
  simp [flow_job_add_io, add_io_chain, halloc, hread, hseek, hsel]

theorem add_io_sniffed (halloc : E.FLOW_malloc_owned c job = true)
    (hread : (flow_job_add_io_read c io_object).1 = 8)
    (hseek : (flow_job_add_io_seek c io_object).1 = true)
    (hsel : flow_job_add_io_ctype E c job io io_object placeholder_id FLOW_DIRECTION.FLOW_INPUT ≠
      flow_codec_type_null) :
    flow_job_add_io E c job io io_object placeholder_id FLOW_DIRECTION.FLOW_INPUT =
      ((flow_job_add_io_init E c job io io_object placeholder_id FLOW_DIRECTION.FLOW_INPUT).1,
        if (flow_job_add_io_init E c job io io_object placeholder_id FLOW_DIRECTION.FLOW_INPUT).1
            = false then
          FLOW_add_to_callstack
            (flow_job_add_io_init E c job io io_object placeholder_id
              FLOW_DIRECTION.FLOW_INPUT).2.1 "flow_job_add_io"
        else
          (flow_job_add_io_init E c job io io_object placeholder_id FLOW_DIRECTION.FLOW_INPUT).2.1,
        { job with codecs := job.codecs ++
            [{ flow_job_add_io_binding io placeholder_id FLOW_DIRECTION.FLOW_INPUT with
               codec_id := flow_job_add_io_ctype E c job io io_object placeholder_id
                 FLOW_DIRECTION.FLOW_INPUT,
               codec_state := (flow_job_add_io_init E c job io io_object placeholder_id
                 FLOW_DIRECTION.FLOW_INPUT).2.2 }] },
        { io_object with user_data := (flow_job_add_io_seek c io_object).2.2 }) := by
  simp only [flow_job_add_io, add_io_chain, halloc, hread]
  simp [hseek, hsel]
  cases h : (flow_job_add_io_init E c job io io_object placeholder_id FLOW_DIRECTION.FLOW_INPUT).1
  all_goals simp_all

end AddIo

/-! ## Lemmas on the linker -/

section Link

theorem link_node_frame (job : flow_job) (s : flow_c × flow_graph) (i : Nat) :
    (flow_job_link_codecs_node job s i).2.nodes = s.2.nodes ∧
    (flow_job_link_codecs_node job s i).2.next_node_id = s.2.next_node_id ∧
    (flow_job_link_codecs_node job s i).2.edges = s.2.edges ∧
    (flow_job_link_codecs_node job s i).2.next_edge_id = s.2.next_edge_id := by
  unfold flow_job_link_codecs_node
  simp only
  split
  · split
    · split <;> exact ⟨rfl, rfl, rfl, rfl⟩
    · exact ⟨rfl, rfl, rfl, rfl⟩
  · exact ⟨rfl, rfl, rfl, rfl⟩

/-- The info buffer after one step of the linker loop. -/
theorem link_node_info (job : flow_job) (s : flow_c × flow_graph) (i k : Nat) :
    (flow_job_link_codecs_node job s i).2.info_bytes k =
      if ((s.2.nodes i).type = flow_ntype.decoder ∨ (s.2.nodes i).type = flow_ntype.encoder) ∧
          (s.2.info_bytes (s.2.nodes i).info_byte_index).codec = none ∧
          k = (s.2.nodes i).info_byte_index then
        { s.2.info_bytes k with
          codec := flow_job_get_codec_instance job (s.2.info_bytes k).placeholder_id }
      else s.2.info_bytes k := by
  unfold flow_job_link_codecs_node
  simp only
  by_cases hty : (s.2.nodes i).type = flow_ntype.decoder ∨ (s.2.nodes i).type = flow_ntype.encoder
  · by_cases hnull : (s.2.info_bytes (s.2.nodes i).info_byte_index).codec = none
    · by_cases hk : k = (s.2.nodes i).info_byte_index
      · subst hk
        simp only [hty, hnull, if_true, and_self]
        split <;> simp [Function.update_same]
      · simp only [hty, hnull, if_true, hk, and_false, if_false]
        split <;> simp [Function.update_noteq hk]
    · simp [hty, hnull]
  · simp [hty]

theorem codec_info_at_succ (g : flow_graph) (n k : Nat) :
    g.codec_info_at (n + 1) k ↔
      g.codec_info_at n k ∨
        (((g.nodes n).type = flow_ntype.decoder ∨ (g.nodes n).type = flow_ntype.encoder) ∧
          (g.nodes n).info_byte_index = k) := by
  constructor
  · rintro ⟨i, hi, hty, hk⟩
    rcases Nat.lt_succ_iff_lt_or_eq.mp hi with hlt | heq
    · exact Or.inl ⟨i, hlt, hty, hk⟩
    · subst heq; exact Or.inr ⟨hty, hk⟩
  · rintro (⟨i, hi, hty, hk⟩ | ⟨hty, hk⟩)
    · exact ⟨i, Nat.lt_succ_of_lt hi, hty, hk⟩
    · exact ⟨n, Nat.lt_succ_self n, hty, hk⟩

/-- The linker loop in closed form: after the nodes below `n` the node and edge tables
are as before, and the info record at offset `k` has its codec resolved exactly when
it was null and `k` is the info offset of a decoder or encoder node below `n`. -/
theorem link_fold (job : flow_job) (c : flow_c) (g : flow_graph) (n : Nat) :
    ((List.range n).foldl (flow_job_link_codecs_node job) (c, g)).2.nodes = g.nodes ∧
    ((List.range n).foldl (flow_job_link_codecs_node job) (c, g)).2.next_node_id
      = g.next_node_id ∧
    ((List.range n).foldl (flow_job_link_codecs_node job) (c, g)).2.edges = g.edges ∧
    ((List.range n).foldl (flow_job_link_codecs_node job) (c, g)).2.next_edge_id
      = g.next_edge_id ∧
    ∀ k,
      ((g.info_bytes k).codec = none ∧ g.codec_info_at n k →
        ((List.range n).foldl (flow_job_link_codecs_node job) (c, g)).2.info_bytes k =
          { g.info_bytes k with
            codec := flow_job_get_codec_instance job (g.info_bytes k).placeholder_id }) ∧
      (¬((g.info_bytes k).codec = none ∧ g.codec_info_at n k) →
        ((List.range n).foldl (flow_job_link_codecs_node job) (c, g)).2.info_bytes k =
          g.info_bytes k) := by
  induction n with
  | zero =>
    refine ⟨rfl, rfl, rfl, rfl, fun k => ⟨?_, fun _ => rfl⟩⟩
    rintro ⟨_, i, hi, _⟩
    exact absurd hi (Nat.not_lt_zero i)
  | succ n ih =>
    obtain ⟨hn, hnn, he, hne, hinfo⟩ := ih
    rw [List.range_succ, List.foldl_append, List.foldl_cons, List.foldl_nil]
    obtain ⟨fn, fnn, fe, fne⟩ :=
      link_node_frame job ((List.range n).foldl (flow_job_link_codecs_node job) (c, g)) n
    refine ⟨fn.trans hn, fnn.trans hnn, fe.trans he, fne.trans hne, fun k => ?_⟩
    rw [link_node_info, hn]
    by_cases horig : (g.info_bytes k).codec = none
    · by_cases hold : g.codec_info_at n k
      · -- already resolved by an earlier node
        have hk := (hinfo k).1 ⟨horig, hold⟩
        have hnew : g.codec_info_at (n + 1) k := (codec_info_at_succ g n k).mpr (Or.inl hold)
        refine ⟨fun _ => ?_, fun hneg => absurd ⟨horig, hnew⟩ hneg⟩
        split
        · rw [hk]
        · exact hk
      · have hk := (hinfo k).2 (fun h => hold h.2)
        by_cases hnow : ((g.nodes n).type = flow_ntype.decoder ∨
            (g.nodes n).type = flow_ntype.encoder) ∧ (g.nodes n).info_byte_index = k
        · have hnew : g.codec_info_at (n + 1) k := (codec_info_at_succ g n k).mpr (Or.inr hnow)
          refine ⟨fun _ => ?_, fun hneg => absurd ⟨horig, hnew⟩ hneg⟩
          obtain ⟨hty, hidx⟩ := hnow
          rw [hidx, hk, if_pos ⟨hty, horig, rfl⟩]
        · have hnew : ¬ g.codec_info_at (n + 1) k := by
            rw [codec_info_at_succ]
            exact fun h => h.elim hold hnow
          refine ⟨fun h => absurd h.2 hnew, fun _ => ?_⟩
          rw [if_neg, hk]
          rintro ⟨hty, _, hidx⟩
          exact hnow ⟨hty, hidx.symm⟩
    · have hk := (hinfo k).2 (fun h => horig h.1)
      refine ⟨fun h => absurd h.1 horig, fun _ => ?_⟩
      rw [if_neg, hk]
      rintro ⟨_, hnull, hidx⟩
      rw [← hidx, hk] at hnull
      exact horig hnull

theorem flow_graph_eq (a b : flow_graph) (h1 : a.nodes = b.nodes)
    (h2 : a.next_node_id = b.next_node_id) (h3 : a.edges = b.edges)
    (h4 : a.next_edge_id = b.next_edge_id) (h5 : a.info_bytes = b.info_bytes) : a = b := by
  cases a; cases b; simp_all

theorem get_codec_instance_congr (j1 j2 : flow_job) (h : j1.codecs = j2.codecs) (p : Int) :
    flow_job_get_codec_instance j1 p = flow_job_get_codec_instance j2 p := by
  unfold flow_job_get_codec_instance; rw [h]

theorem notify_codecs (E : Externals) (c : flow_c) (job : flow_job) (g : Option flow_graph) :
    (flow_job_notify_graph_changed E c job g).2.2.codecs = job.codecs ∧
    (flow_job_notify_graph_changed E c job g).2.2.max_calc_flatten_execute_passes =
      job.max_calc_flatten_execute_passes ∧
    (flow_job_notify_graph_changed E c job g).2.2.render_last_graph = job.render_last_graph := by
  unfold flow_job_notify_graph_changed
  exact ⟨rfl, rfl, rfl⟩

/-- A successful call of the linker, taken apart: the notify hook succeeded and the
result is the loop run on its answer. -/
theorem link_codecs_success (E : Externals) (c : flow_c) (job : flow_job) (g : flow_graph)
    (c' : flow_c) (job' : flow_job) (g' : flow_graph)
    (h : flow_job_link_codecs E c job (some (some g)) = (true, c', job', some g')) :
    (flow_job_notify_graph_changed E c job (some g)).1 = true ∧
    job' = (flow_job_notify_graph_changed E c job (some g)).2.2 ∧
    c' = ((List.range g.next_node_id).foldl (flow_job_link_codecs_node job')
      ((flow_job_notify_graph_changed E c job (some g)).2.1, g)).1 ∧
    g' = ((List.range g.next_node_id).foldl (flow_job_link_codecs_node job')
      ((flow_job_notify_graph_changed E c job (some g)).2.1, g)).2 := by
  unfold flow_job_link_codecs at h
  simp only at h
  split at h
  · simp at h
  · rename_i c1 job1 hn
    simp only [Prod.mk.injEq, true_and, Option.some.injEq] at h
    obtain ⟨hc, hj, hg⟩ := h
    rw [hn]
    subst hj
    exact ⟨rfl, rfl, hc.symm, hg.symm⟩

end Link

/-! ## The claims on the linker -/

/-- C6. A call of `flow_job_link_codecs` that returns true resolves exactly the unlinked
codec nodes: the binding list and the node and edge tables are as before; the info record
of every decoder or encoder node below `next_node_id` whose codec pointer was null now
points to what `flow_job_get_codec_instance` answers for its placeholder id; the info
record of a decoder or encoder node whose codec pointer was not null is unchanged; and
the info buffer is unchanged at every offset that is not the info offset of a decoder or
encoder node. -/
theorem flow_job_link_codecs_resolves (E : Externals) (c : flow_c) (job : flow_job)
    (g : flow_graph) (c' : flow_c) (job' : flow_job) (g' : flow_graph)
    (h : flow_job_link_codecs E c job (some (some g)) = (true, c', job', some g')) :
    job'.codecs = job.codecs ∧ g'.nodes = g.nodes ∧ g'.next_node_id = g.next_node_id ∧
    g'.edges = g.edges ∧ g'.next_edge_id = g.next_edge_id ∧
    (∀ i, i < g.next_node_id →
      ((g.nodes i).type = flow_ntype.decoder ∨ (g.nodes i).type = flow_ntype.encoder) →
      (g.info_bytes (g.nodes i).info_byte_index).codec = none →
      g'.info_bytes (g.nodes i).info_byte_index =
        { placeholder_id := (g.info_bytes (g.nodes i).info_byte_index).placeholder_id,
          codec := flow_job_get_codec_instance job
            (g.info_bytes (g.nodes i).info_byte_index).placeholder_id }) ∧
    (∀ i, i < g.next_node_id →
      ((g.nodes i).type = flow_ntype.decoder ∨ (g.nodes i).type = flow_ntype.encoder) →
      (g.info_bytes (g.nodes i).info_byte_index).codec ≠ none →
      g'.info_bytes (g.nodes i).info_byte_index = g.info_bytes (g.nodes i).info_byte_index) ∧
    (∀ k, ¬ g.codec_info_at g.next_node_id k → g'.info_bytes k = g.info_bytes k) := by
  obtain ⟨_, hj, _, hg⟩ := link_codecs_success E c job g c' job' g' h
  have hcodecs : job'.codecs = job.codecs := by rw [hj]; exact (notify_codecs E c job (some g)).1
  obtain ⟨hn, hnn, he, hne, hinfo⟩ :=
    link_fold job' (flow_job_notify_graph_changed E c job (some g)).2.1 g g.next_node_id
  rw [← hg] at hn hnn he hne hinfo
  refine ⟨hcodecs, hn, hnn, he, hne, ?_, ?_, ?_⟩
  · intro i hi hty hnull
    rw [(hinfo _).1 ⟨hnull, i, hi, hty, rfl⟩,
      get_codec_instance_congr job' job hcodecs]
  · intro i _ _ hnn
    exact (hinfo _).2 (fun h => hnn h.1)
  · intro k hk
    exact (hinfo k).2 (fun h => hk h.2)

/-- C6, at a concrete input: an encoder node that refers to placeholder 99 with a null
codec is linked to the output binding registered under 99 (the first binding). -/
theorem flow_job_link_codecs_resolves_witness :
    (flow_job_link_codecs Sample.externals Sample.context Sample.encoder_job
      (some (some Sample.encoder_graph))).1 = true ∧
    ∃ g', (flow_job_link_codecs Sample.externals Sample.context Sample.encoder_job
        (some (some Sample.encoder_graph))).2.2.2 = some g' ∧
      g'.info_bytes 0 = { placeholder_id := 99, codec := some 0 } := by
  have h1 : (flow_job_link_codecs Sample.externals Sample.context Sample.encoder_job
      (some (some Sample.encoder_graph))).1 = true := by decide!
  have hs : (flow_job_link_codecs Sample.externals Sample.context Sample.encoder_job
      (some (some Sample.encoder_graph))).2.2.2.isSome = true := by decide!
  obtain ⟨g', hg'⟩ := Option.isSome_iff_exists.mp hs
  have h := flow_job_link_codecs_resolves Sample.externals Sample.context Sample.encoder_job
    Sample.encoder_graph _ _ g' (Prod.ext h1 (Prod.ext rfl (Prod.ext rfl hg')))
  exact ⟨h1, g', hg', h.2.2.2.2.2.1 0 (by decide) (Or.inr rfl) rfl⟩

/-- C7. Linking is idempotent: after a call of `flow_job_link_codecs` that returned true, a
second call on what the first left (context, job, graph) leaves the graph, so every
node's codec link, and the job's binding list exactly as they were. -/
theorem flow_job_link_codecs_idempotent (E : Externals) (c : flow_c) (job : flow_job)
    (g : flow_graph) (c1 : flow_c) (job1 : flow_job) (g1 : flow_graph)
    (h : flow_job_link_codecs E c job (some (some g)) = (true, c1, job1, some g1)) :
    (flow_job_link_codecs E c1 job1 (some (some g1))).2.2.2 = some g1 ∧
    (flow_job_link_codecs E c1 job1 (some (some g1))).2.2.1.codecs = job1.codecs := by
  obtain ⟨_, hj, _, hg⟩ := link_codecs_success E c job g c1 job1 g1 h
  have hcodecs : job1.codecs = job.codecs := by rw [hj]; exact (notify_codecs E c job (some g)).1
  obtain ⟨hn, hnn, _, _, hinfo⟩ :=
    link_fold job1 (flow_job_notify_graph_changed E c job (some g)).2.1 g g.next_node_id
  rw [← hg] at hn hnn hinfo
  have hc2 := (notify_codecs E c1 job1 (some g1)).1
  unfold flow_job_link_codecs
  simp only
  cases hnot : flow_job_notify_graph_changed E c1 job1 (some g1) with
  | mk ok rest =>
    obtain ⟨c2, job2⟩ := rest
    rw [hnot] at hc2
    simp only at hc2
    cases ok with
    | false => exact ⟨rfl, hc2⟩
    | true =>
      refine ⟨?_, hc2⟩
      simp only [Option.some.injEq]
      obtain ⟨sn, snn, se, sne, sinfo⟩ := link_fold job2 c2 g1 g1.next_node_id
      refine flow_graph_eq _ _ sn snn se sne (funext fun k => ?_)
      by_cases hcond : (g1.info_bytes k).codec = none ∧ g1.codec_info_at g1.next_node_id k
      · rw [(sinfo k).1 hcond]
        obtain ⟨hnull, hat⟩ := hcond
        have hat' : g.codec_info_at g.next_node_id k := by
          obtain ⟨i, hi, hty, hk⟩ := hat
          rw [hn] at hty hk
          rw [hnn] at hi
          exact ⟨i, hi, hty, hk⟩
        by_cases horig : (g.info_bytes k).codec = none
        · have hk := (hinfo k).1 ⟨horig, hat'⟩
          rw [hk] at hnull ⊢
          simp only at hnull ⊢
          rw [get_codec_instance_congr job2 job1 hc2, hnull]
        · have hk := (hinfo k).2 (fun h => horig h.1)
          rw [hk] at hnull
          exact absurd hnull horig
      · exact (sinfo k).2 hcond

/-- C7, at a concrete input: the encoder graph linked against the job with output 99. -/
theorem flow_job_link_codecs_idempotent_witness :
    (flow_job_link_codecs Sample.externals Sample.context Sample.encoder_job
      (some (some Sample.encoder_graph))).1 = true ∧
    ∃ c1 job1 g1,
      flow_job_link_codecs Sample.externals Sample.context Sample.encoder_job
        (some (some Sample.encoder_graph)) = (true, c1, job1, some g1) ∧
      (flow_job_link_codecs Sample.externals c1 job1 (some (some g1))).2.2.2 = some g1 ∧
      (flow_job_link_codecs Sample.externals c1 job1 (some (some g1))).2.2.1.codecs
        = job1.codecs := by
  have h1 : (flow_job_link_codecs Sample.externals Sample.context Sample.encoder_job
      (some (some Sample.encoder_graph))).1 = true := by decide!
  have hs : (flow_job_link_codecs Sample.externals Sample.context Sample.encoder_job
      (some (some Sample.encoder_graph))).2.2.2.isSome = true := by decide!
  obtain ⟨g1, hg1⟩ := Option.isSome_iff_exists.mp hs
  have heq : flow_job_link_codecs Sample.externals Sample.context Sample.encoder_job
      (some (some Sample.encoder_graph)) = (true, _, _, some g1) :=
    Prod.ext h1 (Prod.ext rfl (Prod.ext rfl hg1))
  exact ⟨h1, _, _, g1, heq,
    flow_job_link_codecs_idempotent Sample.externals Sample.context Sample.encoder_job
      Sample.encoder_graph _ _ g1 heq⟩

/-! ## The claims on the registry -/

/-- C8. Error mapping of `flow_job_add_io` for direction Input when the allocation
succeeds. A read that reports any count other than 8 fails the call with `IO_error`; a
read of 8 followed by a failed seek to 0 fails it with `IO_error`; after a read of 8 and
a successful seek, the call raises `Not_implemented` when `flow_job_codec_select` answers
the null codec, with a message that ends in the eight buffer bytes in two-digit
hexadecimal, in order, and raises no error of its own when the answer is another codec
(its result is then that of `flow_job_initialize_codec`). -/
theorem flow_job_add_io_input_errors {σ : Type} (E : Externals) (c : flow_c) (job : flow_job)
    (io : Option Nat) (io_object : flow_io σ) (placeholder_id : Int)
    (halloc : E.FLOW_malloc_owned c job = true) :
    ((flow_job_add_io_read c io_object).1 ≠ 8 →
      flow_job_add_io E c job io io_object placeholder_id FLOW_DIRECTION.FLOW_INPUT =
        (false,
          FLOW_error_msg (flow_job_add_io_read c io_object).2.2.1 flow_status.IO_error
            "flow_job_add_io" "Failed to read first 8 bytes of file",
          { job with codecs := job.codecs ++
              [flow_job_add_io_binding io placeholder_id FLOW_DIRECTION.FLOW_INPUT] },
          { io_object with user_data := (flow_job_add_io_read c io_object).2.2.2 })) ∧
    ((flow_job_add_io_read c io_object).1 = 8 → (flow_job_add_io_seek c io_object).1 = false →
      flow_job_add_io E c job io io_object placeholder_id FLOW_DIRECTION.FLOW_INPUT =
        (false,
          FLOW_error_msg (flow_job_add_io_seek c io_object).2.1 flow_status.IO_error
            "flow_job_add_io" "Failed to seek to byte 0 in file",
          { job with codecs := job.codecs ++
              [flow_job_add_io_binding io placeholder_id FLOW_DIRECTION.FLOW_INPUT] },
          { io_object with user_data := (flow_job_add_io_seek c io_object).2.2 })) ∧
    ((flow_job_add_io_read c io_object).1 = 8 → (flow_job_add_io_seek c io_object).1 = true →
      flow_job_add_io_ctype E c job io io_object placeholder_id FLOW_DIRECTION.FLOW_INPUT
        = flow_codec_type_null →
      flow_job_add_io E c job io io_object placeholder_id FLOW_DIRECTION.FLOW_INPUT =
        (false,
          FLOW_error_msg (flow_job_add_io_seek c io_object).2.1 flow_status.Not_implemented
            "flow_job_add_io"
            ("Unrecognized leading byte sequence " ++
              String.join ((flow_job_add_io_buffer (flow_job_add_io_read c io_object).2.1).map
                format_02x)),
          { job with codecs := job.codecs ++
              [flow_job_add_io_binding io placeholder_id FLOW_DIRECTION.FLOW_INPUT] },
          { io_object with user_data := (flow_job_add_io_seek c io_object).2.2 })) ∧
    ((flow_job_add_io_read c io_object).1 = 8 → (flow_job_add_io_seek c io_object).1 = true →
      flow_job_add_io_ctype E c job io io_object placeholder_id FLOW_DIRECTION.FLOW_INPUT
        ≠ flow_codec_type_null →
      (flow_job_add_io E c job io io_object placeholder_id FLOW_DIRECTION.FLOW_INPUT).1 =
        (flow_job_add_io_init E c job io io_object placeholder_id FLOW_DIRECTION.FLOW_INPUT).1 ∧
      (flow_job_add_io E c job io io_object placeholder_id FLOW_DIRECTION.FLOW_INPUT).2.1.errors =
        (flow_job_add_io_init E c job io io_object placeholder_id
          FLOW_DIRECTION.FLOW_INPUT).2.1.errors) := by
  refine ⟨fun hread => add_io_short_read E c job io io_object placeholder_id halloc hread,
    fun hread hseek => add_io_seek_failed E c job io io_object placeholder_id halloc hread hseek,
    fun hread hseek hsel => ?_, fun hread hseek hsel => ?_⟩
  · rw [add_io_unknown_signature E c job io io_object placeholder_id halloc hread hseek hsel,
      add_io_unrecognized_eq]
  · rw [add_io_sniffed E c job io io_object placeholder_id halloc hread hseek hsel]
    refine ⟨rfl, ?_⟩
    simp only
    split <;> rfl

/-- C8, at a concrete input: an input whose first 8 bytes are DE AD BE EF 00 01 02 03 is
refused with `Not_implemented` and a message that holds those octets. -/
theorem flow_job_add_io_input_errors_witness :
    Sample.externals.FLOW_malloc_owned Sample.context (Sample.job 6 []) = true ∧
    (flow_job_add_io Sample.externals Sample.context (Sample.job 6 []) (some 1)
      (Sample.memory_io Sample.unknown_bytes) 7 FLOW_DIRECTION.FLOW_INPUT).1 = false ∧
    (flow_job_add_io Sample.externals Sample.context (Sample.job 6 []) (some 1)
      (Sample.memory_io Sample.unknown_bytes) 7 FLOW_DIRECTION.FLOW_INPUT).2.1.errors =
      [{ status := flow_status.Not_implemented,
         message := "Unrecognized leading byte sequence deadbeef00010203" }] := by
  have h := (flow_job_add_io_input_errors Sample.externals Sample.context (Sample.job 6 [])
    (some 1) (Sample.memory_io Sample.unknown_bytes) 7 rfl).2.2.1 (by decide!) (by decide!)
    (by decide!)
  rw [h]
  exact ⟨rfl, rfl, by decide!⟩

/-- A successful `flow_job_add_io` appended exactly one binding, with the id, endpoint
and direction given. -/
theorem add_io_success_appends {σ : Type} (E : Externals) (c : flow_c) (job : flow_job)
    (io : Option Nat) (io_object : flow_io σ) (placeholder_id : Int) (direction : FLOW_DIRECTION)
    (c' : flow_c) (job' : flow_job) (io' : flow_io σ)
    (h : flow_job_add_io E c job io io_object placeholder_id direction = (true, c', job', io')) :
    ∃ b : flow_codec_instance,
      job'.codecs = job.codecs ++ [b] ∧ b.graph_placeholder_id = placeholder_id ∧ b.io = io ∧
      b.direction = direction := by
  unfold flow_job_add_io at h
  simp only [add_io_chain] at h
  split at h
  · simp at h
  · split at h
    · simp only [Prod.mk.injEq, true_and] at h
      obtain ⟨_, hj, _⟩ := h
      subst hj
      exact ⟨_, rfl, rfl, rfl, rfl⟩
    · split at h
      · simp at h
      · split at h
        · simp at h
        · split at h
          · simp at h
          · split at h
            · simp at h
            · simp only [Prod.mk.injEq, true_and] at h
              obtain ⟨_, hj, _⟩ := h
              subst hj
              exact ⟨_, rfl, rfl, rfl, rfl⟩

/-- C9. Lookup by placeholder id answers the first registered match. For every job and
id, `flow_job_get_codec_instance` answers the earliest binding of the chain whose
placeholder id is the one asked for, whatever its direction, and null exactly when no
binding has that id; `flow_job_get_io` answers that binding's `io`, or null. Hence after
a successful `flow_job_add_io` under an id `p` that no binding had, `flow_job_get_io` of
`p` answers the endpoint just registered and the lookups of every other id answer what
they answered before. -/
theorem flow_job_get_codec_instance_first_match {σ : Type} (E : Externals) (c : flow_c)
    (job : flow_job) (io : Option Nat) (io_object : flow_io σ) (p : Int)
    (direction : FLOW_DIRECTION) (c' : flow_c) (job' : flow_job) (io' : flow_io σ)
    (hadd : flow_job_add_io E c job io io_object p direction = (true, c', job', io'))
    (hfresh : ∀ b ∈ job.codecs, b.graph_placeholder_id ≠ p) :
    (∀ (J : flow_job) (q : Int),
      (flow_job_get_codec_instance J q = none ↔ ∀ b ∈ J.codecs, b.graph_placeholder_id ≠ q) ∧
      (flow_job_get_codec_instance J q = none →
        ∀ cx, flow_job_get_io cx J q = (none, FLOW_add_to_callstack cx "flow_job_get_io")) ∧
      (∀ i, flow_job_get_codec_instance J q = some i →
        ∃ b, J.codecs[i]? = some b ∧ b.graph_placeholder_id = q ∧
          (∀ j, j < i → ∀ b', J.codecs[j]? = some b' → b'.graph_placeholder_id ≠ q) ∧
          ∀ cx, flow_job_get_io cx J q = (b.io, cx))) ∧
    flow_job_get_codec_instance job' p = some job.codecs.length ∧
    (∀ cx, flow_job_get_io cx job' p = (io, cx)) ∧
    (∀ q, q ≠ p →
      flow_job_get_codec_instance job' q = flow_job_get_codec_instance job q ∧
      ∀ cx, flow_job_get_io cx job' q = flow_job_get_io cx job q) := by
  have hgen : ∀ (J : flow_job) (q : Int),
      (flow_job_get_codec_instance J q = none ↔ ∀ b ∈ J.codecs, b.graph_placeholder_id ≠ q) ∧
      (flow_job_get_codec_instance J q = none →
        ∀ cx, flow_job_get_io cx J q = (none, FLOW_add_to_callstack cx "flow_job_get_io")) ∧
      (∀ i, flow_job_get_codec_instance J q = some i →
        ∃ b, J.codecs[i]? = some b ∧ b.graph_placeholder_id = q ∧
          (∀ j, j < i → ∀ b', J.codecs[j]? = some b' → b'.graph_placeholder_id ≠ q) ∧
          ∀ cx, flow_job_get_io cx J q = (b.io, cx)) := by
    intro J q
    have hspec := get_codec_instance_from_spec q J.codecs 0
    refine ⟨?_, ?_, ?_⟩
    · constructor
      · intro hnone
        unfold flow_job_get_codec_instance at hnone
        rw [hnone] at hspec
        exact hspec
      · intro hall
        cases hres : flow_job_get_codec_instance J q with
        | none => rfl
        | some i =>
          unfold flow_job_get_codec_instance at hres
          rw [hres] at hspec
          obtain ⟨j, b, _, hget, hb, _⟩ := hspec
          exact absurd hb (hall b (List.getElem?_mem hget))
    · intro hnone cx
      simp [flow_job_get_io, hnone]
    · intro i hres
      have hres' := hres
      unfold flow_job_get_codec_instance at hres'
      rw [hres'] at hspec
      obtain ⟨j, b, hi, hget, hb, hmin⟩ := hspec
      have hij : i = j := by omega
      subst hij
      refine ⟨b, hget, hb, hmin, fun cx => ?_⟩
      simp [flow_job_get_io, hres, hget]
  obtain ⟨b, hcodecs, hbid, hbio, _⟩ :=
    add_io_success_appends E c job io io_object p direction c' job' io' hadd
  have hfound : flow_job_get_codec_instance job' p = some job.codecs.length := by
    unfold flow_job_get_codec_instance
    rw [hcodecs, get_codec_instance_from_append_fresh p b job.codecs 0 hfresh, if_pos hbid,
      Nat.zero_add]
  refine ⟨hgen, hfound, ?_, ?_⟩
  · intro cx
    simp [flow_job_get_io, hfound, hcodecs, hbio]
  · intro q hq
    have hsame : flow_job_get_codec_instance job' q = flow_job_get_codec_instance job q := by
      unfold flow_job_get_codec_instance
      rw [hcodecs, get_codec_instance_from_append_other q b (by rw [hbid]; exact hq.symm)]
    refine ⟨hsame, fun cx => ?_⟩
    cases hres : flow_job_get_codec_instance job q with
    | none => simp [flow_job_get_io, hsame, hres]
    | some i =>
      obtain ⟨b0, hget, _, _, _⟩ := (hgen job q).2.2 i hres
      have hlt : i < job.codecs.length := by
        by_contra hge
        rw [List.getElem?_eq_none (by omega)] at hget
        cases hget
      have hget' : job'.codecs[i]? = some b0 := by
        rw [hcodecs, List.getElem?_append_left hlt]; exact hget
      simp [flow_job_get_io, hsame, hres, hget, hget']

/-- C9, at a concrete input: a PNG input registered under id 3 on a job that holds an
output under id 99. -/
theorem flow_job_get_codec_instance_first_match_witness :
    (flow_job_add_io Sample.externals Sample.context Sample.encoder_job (some 5)
      (Sample.memory_io Sample.png_bytes) 3 FLOW_DIRECTION.FLOW_INPUT).1 = true ∧
    (∀ b ∈ Sample.encoder_job.codecs, b.graph_placeholder_id ≠ 3) ∧
    flow_job_get_io Sample.context
      (flow_job_add_io Sample.externals Sample.context Sample.encoder_job (some 5)
        (Sample.memory_io Sample.png_bytes) 3 FLOW_DIRECTION.FLOW_INPUT).2.2.1 3
      = (some 5, Sample.context) ∧
    flow_job_get_codec_instance
      (flow_job_add_io Sample.externals Sample.context Sample.encoder_job (some 5)
        (Sample.memory_io Sample.png_bytes) 3 FLOW_DIRECTION.FLOW_INPUT).2.2.1 99
      = flow_job_get_codec_instance Sample.encoder_job 99 := by
  have h1 : (flow_job_add_io Sample.externals Sample.context Sample.encoder_job (some 5)
      (Sample.memory_io Sample.png_bytes) 3 FLOW_DIRECTION.FLOW_INPUT).1 = true := by decide!
  have hfresh : ∀ b ∈ Sample.encoder_job.codecs, b.graph_placeholder_id ≠ 3 := by decide!
  have h := flow_job_get_codec_instance_first_match Sample.externals Sample.context
    Sample.encoder_job (some 5) (Sample.memory_io Sample.png_bytes) 3 FLOW_DIRECTION.FLOW_INPUT
    _ _ _ (Prod.ext h1 rfl) hfresh
  exact ⟨h1, hfresh, h.2.2.1 Sample.context, (h.2.2.2 99 (by decide)).1⟩

/-- C10. Codec id after a successful registration: whenever `flow_job_add_io` returns true
it appended one binding at the tail of the chain; for direction Input its `codec_id` is the
codec id `flow_job_codec_select` answered, which is not the null codec 0; for direction
Output its `codec_id` is 0 and its `codec_state` null, and the context and the endpoint
are returned as they were given (no read, seek or sniff happened). -/
theorem flow_job_add_io_codec_id {σ : Type} (E : Externals) (c : flow_c) (job : flow_job)
    (io : Option Nat) (io_object : flow_io σ) (placeholder_id : Int) (direction : FLOW_DIRECTION)
    (c' : flow_c) (job' : flow_job) (io' : flow_io σ)
    (h : flow_job_add_io E c job io io_object placeholder_id direction = (true, c', job', io')) :
    ∃ b : flow_codec_instance,
      job'.codecs = job.codecs ++ [b] ∧ b.graph_placeholder_id = placeholder_id ∧ b.io = io ∧
      b.direction = direction ∧
      (direction = FLOW_DIRECTION.FLOW_INPUT →
        b.codec_id = flow_job_add_io_ctype E c job io io_object placeholder_id direction ∧
        b.codec_id ≠ 0) ∧
      (direction = FLOW_DIRECTION.FLOW_OUTPUT →
        b.codec_id = 0 ∧ b.codec_state = none ∧ c' = c ∧ io' = io_object) := by
  unfold flow_job_add_io at h
  simp only [add_io_chain] at h
  split at h
  · simp at h
  · split at h
    · rename_i hdir
      simp only [Prod.mk.injEq, true_and] at h
      obtain ⟨hc, hj, hio⟩ := h
      subst hj
      refine ⟨_, rfl, rfl, rfl, rfl, ?_, ?_⟩
      · intro hd; rw [hdir] at hd; cases hd
      · intro _; exact ⟨rfl, rfl, hc.symm, hio.symm⟩
    · rename_i hdir
      have hin : direction = FLOW_DIRECTION.FLOW_INPUT := by
        cases direction
        · rfl
        · exact absurd rfl hdir
      split at h
      · simp at h
      · rename_i hread
        have hread8 : (io_object.read_func c io_object.user_data 8).1 = 8 := not_not.mp hread
        split at h
        · simp at h
        · split at h
          · simp at h
          · rename_i hsel
            split at h
            · simp at h
            · simp only [Prod.mk.injEq, true_and] at h
              obtain ⟨_, hj, _⟩ := h
              subst hj
              rw [hread8] at hsel
              refine ⟨_, rfl, rfl, rfl, rfl, ?_, ?_⟩
              · intro _
                refine ⟨?_, ?_⟩
                · simp [hread8]
                · simpa [flow_codec_type_null, hread8] using hsel
              · intro hd; rw [hin] at hd; cases hd

/-- C10, at a concrete input: a PNG input registered on an empty job gets codec id 1. -/
theorem flow_job_add_io_codec_id_witness :
    (flow_job_add_io Sample.externals Sample.context (Sample.job 6 []) (some 1)
      (Sample.memory_io Sample.png_bytes) 5 FLOW_DIRECTION.FLOW_INPUT).1 = true ∧
    ∃ b : flow_codec_instance,
      (flow_job_add_io Sample.externals Sample.context (Sample.job 6 []) (some 1)
        (Sample.memory_io Sample.png_bytes) 5 FLOW_DIRECTION.FLOW_INPUT).2.2.1.codecs = [b] ∧
      b.codec_id = 1 ∧ b.codec_id ≠ 0 := by
  have h1 : (flow_job_add_io Sample.externals Sample.context (Sample.job 6 []) (some 1)
      (Sample.memory_io Sample.png_bytes) 5 FLOW_DIRECTION.FLOW_INPUT).1 = true := by decide!
  obtain ⟨b, hb, _, _, _, hin, _⟩ := flow_job_add_io_codec_id Sample.externals Sample.context
    (Sample.job 6 []) (some 1) (Sample.memory_io Sample.png_bytes) 5 FLOW_DIRECTION.FLOW_INPUT
    _ _ _ (Prod.ext h1 rfl)
  refine ⟨h1, b, hb, ?_, (hin rfl).2⟩
  rw [(hin rfl).1]
  decide!

/-! ## Lemmas on the orchestrator -/

theorem fully_executed_iff (E : Externals) (g : flow_graph) :
    flow_job_graph_fully_executed E g = true ↔
      ∀ i, i < g.next_node_id → (g.nodes i).type ≠ flow_ntype.Null →
        (g.nodes i).state &&& E.flow_node_state_Executed > 0 := by
  unfold flow_job_graph_fully_executed flow_job_node_is_executed
  simp only [List.all_eq_true, List.mem_range]
  constructor
  · intro h i hi hty
    have := h i hi
    rw [if_pos hty] at this
    exact of_decide_eq_true this
  · intro h i hi
    split
    · rename_i hty
      exact decide_eq_true (h i hi hty)
    · rfl

/-- The loop of `flow_job_execute` returns true only through its exit test. -/
theorem execute_loop_success (E : Externals) (fuel : Nat) :
    ∀ (n : Nat) (s s' : flow_job_execute_state),
      flow_job_execute_loop E fuel n s = some (true, s') →
      flow_job_graph_fully_executed E s'.graph = true := by
  intro n
  induction n with
  | zero =>
    intro s s' h
    unfold flow_job_execute_loop at h
    split at h
    · rename_i hf
      simp only [Option.some.injEq, Prod.mk.injEq, true_and] at h
      rw [← h]; exact hf
    · split at h
      · simp at h
      · simp at h
  | succ m ih =>
    intro s s' h
    unfold flow_job_execute_loop at h
    split at h
    · rename_i hf
      simp only [Option.some.injEq, Prod.mk.injEq, true_and] at h
      rw [← h]; exact hf
    · split at h
      · simp at h
      · simp only at h
        split at h
        · simp at h
        · simp at h
        · exact ih _ _ h

/-- A run of guarded calls that succeeds leaves `passes` alone and adds the calls to the
trace. -/
theorem execute_calls_trace (E : Externals) (fuel : Nat) :
    ∀ (calls : List flow_call) (s s' : flow_job_execute_state),
      flow_job_execute_calls E fuel calls s = some (true, s') →
      s'.passes = s.passes ∧ s'.calls = s.calls ++ calls := by
  intro calls
  induction calls with
  | nil =>
    intro s s' h
    simp only [flow_job_execute_calls, Option.some.injEq, Prod.mk.injEq, true_and] at h
    subst h
    simp
  | cons call rest ih =>
    intro s s' h
    unfold flow_job_execute_calls at h
    split at h
    · simp at h
    · simp at h
    · simp at h
    · obtain ⟨hp, hc⟩ := ih _ _ h
      simp only at hp hc
      exact ⟨hp, by rw [hc]; simp⟩

/-- A successful iteration of the loop body adds one to `passes` and the sixteen calls of
the phase sequence to the trace. -/
theorem execute_pass_trace (E : Externals) (fuel : Nat) (s s' : flow_job_execute_state)
    (h : flow_job_execute_pass E fuel s = some (true, s')) :
    s'.passes = s.passes + 1 ∧
    s'.calls = s.calls ++ (flow_job_execute_pass_calls ++ [flow_call.notify_graph_changed]) := by
  unfold flow_job_execute_pass at h
  split at h
  · simp at h
  · simp at h
  · rename_i s1 h1
    obtain ⟨hp1, hc1⟩ := execute_calls_trace E fuel _ _ _ h1
    obtain ⟨hp2, hc2⟩ := execute_calls_trace E fuel _ _ _ h
    simp only at hp2 hc2
    exact ⟨by rw [hp2, hp1], by rw [hc2, hc1]; simp⟩

theorem execute_after_succ (E : Externals) (fuel : Nat) (k : Nat)
    (s0 s' : flow_job_execute_state)
    (h : flow_job_execute_after E fuel (k + 1) s0 = some s') :
    ∃ sk, flow_job_execute_after E fuel k s0 = some sk ∧
      flow_job_execute_pass E fuel sk = some (true, s') := by
  rw [flow_job_execute_after] at h
  split at h
  · simp at h
  · rename_i sk hk
    refine ⟨sk, hk, ?_⟩
    split at h
    · rename_i s2 h2
      simp only [Option.some.injEq] at h
      rw [h2, h]
    · simp at h

/-- After `k` successful iterations `passes` has grown by `k` and the trace by `k` copies
of the phase sequence. -/
theorem execute_after_trace (E : Externals) (fuel : Nat) (s0 : flow_job_execute_state) :
    ∀ (k : Nat) (s : flow_job_execute_state),
      flow_job_execute_after E fuel k s0 = some s →
      s.passes = s0.passes + k ∧
      s.calls = s0.calls ++
        (List.replicate k
          (flow_job_execute_pass_calls ++ [flow_call.notify_graph_changed])).flatten := by
  intro k
  induction k with
  | zero =>
    intro s h
    simp only [flow_job_execute_after, Option.some.injEq] at h
    subst h
    simp
  | succ k ih =>
    intro s h
    obtain ⟨sk, hk, hpass⟩ := execute_after_succ E fuel k s0 s h
    obtain ⟨hp, hc⟩ := ih sk hk
    obtain ⟨hp', hc'⟩ := execute_pass_trace E fuel sk s hpass
    refine ⟨by rw [hp', hp]; omega, ?_⟩
    rw [hc', hc, List.replicate_succ', List.flatten_append]
    simp

/-- The loop on a run that stays unfinished: started after `j` iterations with room for the
remaining ones, it performs them all and stops at the pass limit. -/
theorem execute_loop_stuck (E : Externals) (fuel : Nat) (limit : Int)
    (s0 : flow_job_execute_state) (hs0 : s0.passes = 0)
    (hstuck : ∀ k, k ≤ limit.toNat →
      ∃ s, flow_job_execute_after E fuel k s0 = some s ∧
        flow_job_graph_fully_executed E s.graph = false ∧
        s.job.max_calc_flatten_execute_passes = limit) :
    ∀ (d j : Nat) (sj : flow_job_execute_state), j + d = limit.toNat →
      flow_job_execute_after E fuel j s0 = some sj →
      ∀ n, d ≤ n →
        ∃ s, flow_job_execute_after E fuel limit.toNat s0 = some s ∧
          flow_job_execute_loop E fuel n sj =
            some (false, { s with c := FLOW_error s.c flow_status.Maximum_graph_passes_exceeded
                                         "flow_job_execute" }) := by
  intro d
  induction d with
  | zero =>
    intro j sj hj hsj n _
    have hjl : j = limit.toNat := by omega
    subst hjl
    obtain ⟨s, hs, hnot, hmax⟩ := hstuck limit.toNat (Nat.le_refl _)
    rw [hsj] at hs
    simp only [Option.some.injEq] at hs
    subst hs
    have hp := (execute_after_trace E fuel s0 _ _ hsj).1
    refine ⟨sj, hsj, ?_⟩
    unfold flow_job_execute_loop
    rw [if_neg (by rw [hnot]; simp), if_pos]
    rw [hmax, hp, hs0]
    omega
  | succ d ih =>
    intro j sj hj hsj n hn
    obtain ⟨s, hs, hnot, hmax⟩ := hstuck j (by omega)
    rw [hsj] at hs
    simp only [Option.some.injEq] at hs
    subst hs
    have hp := (execute_after_trace E fuel s0 _ _ hsj).1
    obtain ⟨s1, hs1, _, _⟩ := hstuck (j + 1) (by omega)
    obtain ⟨sk, hk, hpass⟩ := execute_after_succ E fuel j s0 s1 hs1
    rw [hsj] at hk
    simp only [Option.some.injEq] at hk
    subst hk
    obtain ⟨m, rfl⟩ : ∃ m, n = m + 1 := ⟨n - 1, by omega⟩
    obtain ⟨sl, hsl, hloop⟩ := ih (j + 1) s1 (by omega) hs1 m (by omega)
    refine ⟨sl, hsl, ?_⟩
    unfold flow_job_execute_loop
    rw [if_neg (by rw [hnot]; simp), if_neg]
    · simp only [hpass]
      exact hloop
    · rw [hmax, hp, hs0]
      omega

/-- The loop leaves at once when the graph is fully executed. -/
theorem execute_loop_exit (E : Externals) (fuel n : Nat) (s : flow_job_execute_state)
    (h : flow_job_graph_fully_executed E s.graph = true) :
    flow_job_execute_loop E fuel n s = some (true, s) := by
  unfold flow_job_execute_loop
  rw [if_pos h]

/-- The tail of `flow_job_execute` keeps job, graph and `passes`, and adds at most the
render call to the trace. -/
theorem execute_render_frame (E : Externals) (s : flow_job_execute_state) :
    (flow_job_execute_render E s).graph = some s.graph ∧
    (flow_job_execute_render E s).job = s.job ∧
    (flow_job_execute_render E s).passes = s.passes ∧
    ((flow_job_execute_render E s).calls = s.calls ∨
      (flow_job_execute_render E s).calls = s.calls ++ [flow_call.render_graph_to_png]) ∧
    ((∀ cx jx gx v, (E.flow_job_render_graph_to_png cx jx gx v).1 = true) →
      (flow_job_execute_render E s).ok = true) := by
  unfold flow_job_execute_render
  split
  · split
    · rename_i c1 hr
      refine ⟨rfl, rfl, rfl, Or.inr rfl, fun hall => ?_⟩
      have := hall s.c s.job s.graph (s.job.next_graph_version - 1)
      rw [hr] at this
      cases this
    · exact ⟨rfl, rfl, rfl, Or.inr rfl, fun _ => rfl⟩
  · exact ⟨rfl, rfl, rfl, Or.inl rfl, fun _ => rfl⟩

/-- The linker returns true on every graph once its notify hook succeeded: the lookup
failure of a dangling placeholder is recorded in the context and not returned. -/
theorem link_codecs_of_notify (E : Externals) (c : flow_c) (job : flow_job) (g : flow_graph)
    (h : (flow_job_notify_graph_changed E c job (some g)).1 = true) :
    flow_job_link_codecs E c job (some (some g)) =
      (true,
        ((List.range g.next_node_id).foldl
          (flow_job_link_codecs_node (flow_job_notify_graph_changed E c job (some g)).2.2)
          ((flow_job_notify_graph_changed E c job (some g)).2.1, g)).1,
        (flow_job_notify_graph_changed E c job (some g)).2.2,
        some ((List.range g.next_node_id).foldl
          (flow_job_link_codecs_node (flow_job_notify_graph_changed E c job (some g)).2.2)
          ((flow_job_notify_graph_changed E c job (some g)).2.1, g)).2) := by
  unfold flow_job_link_codecs
  simp only
  cases hn : flow_job_notify_graph_changed E c job (some g) with
  | mk ok rest =>
    obtain ⟨c1, job1⟩ := rest
    rw [hn] at h
    simp only at h
    subst h
    rfl

/-- Whether a graph is fully executed depends on its node table only. -/
theorem fully_executed_congr (E : Externals) (g g' : flow_graph) (hn : g'.nodes = g.nodes)
    (hnn : g'.next_node_id = g.next_node_id) :
    flow_job_graph_fully_executed E g' = flow_job_graph_fully_executed E g := by
  unfold flow_job_graph_fully_executed flow_job_node_is_executed
  rw [hn, hnn]

/-- A run of `flow_job_execute` on a graph that is fully executed at entry: no iteration,
no phase, the node table untouched; the returned bit is that of the hooks. -/
theorem execute_no_pass (E : Externals) (fuel : Nat) (c : flow_c) (job : flow_job)
    (g : flow_graph) (hfull : flow_job_graph_fully_executed E g = true) :
    ∃ r g', flow_job_execute E fuel c job (some g) = some r ∧ r.passes = 0 ∧
      r.graph = some g' ∧ g'.nodes = g.nodes ∧ g'.next_node_id = g.next_node_id ∧
      (r.calls = [flow_call.notify_graph_changed] ∨
        r.calls = [flow_call.notify_graph_changed, flow_call.link_codecs] ∨
        r.calls = [flow_call.notify_graph_changed, flow_call.link_codecs,
          flow_call.render_graph_to_png]) ∧
      ((∀ cx jx gx, (E.flow_job_notify_graph_changed cx jx gx).1 = true) →
        (∀ cx jx gx v, (E.flow_job_render_graph_to_png cx jx gx v).1 = true) →
        r.ok = true ∧
        (r.calls = [flow_call.notify_graph_changed, flow_call.link_codecs] ∨
          r.calls = [flow_call.notify_graph_changed, flow_call.link_codecs,
            flow_call.render_graph_to_png]) ∧
        r.job.next_graph_version =
          (E.flow_job_notify_graph_changed
            (E.flow_job_notify_graph_changed c job (some g)).2.1
            { job with next_graph_version :=
                (E.flow_job_notify_graph_changed c job (some g)).2.2 }
            (some g)).2.2) := by
  unfold flow_job_execute
  cases hn : flow_job_notify_graph_changed E c job (some g) with
  | mk ok1 rest =>
    obtain ⟨c1, job1⟩ := rest
    have hn' : E.flow_job_notify_graph_changed c job (some g) = (ok1, c1, job1.next_graph_version)
        ∧ job1 = { job with next_graph_version := job1.next_graph_version } := by
      unfold flow_job_notify_graph_changed at hn
      simp only [Prod.mk.injEq] at hn
      obtain ⟨h1, h2, h3⟩ := hn
      subst h3
      exact ⟨Prod.ext h1 (Prod.ext h2 rfl), rfl⟩
    cases ok1 with
    | false =>
      refine ⟨_, g, rfl, rfl, rfl, rfl, rfl, Or.inl rfl, fun hall _ => ?_⟩
      have := hall c job (some g)
      rw [hn'.1] at this
      cases this
    | true =>
      simp only
      cases hn2 : flow_job_notify_graph_changed E c1 job1 (some g) with
      | mk ok2 rest2 =>
        obtain ⟨c2, job2⟩ := rest2
        cases ok2 with
        | false =>
          have hl : flow_job_link_codecs E c1 job1 (some (some g)) =
              (false, FLOW_error_return c2 "flow_job_link_codecs", job2, some g) := by
            unfold flow_job_link_codecs
            simp only [hn2]
          rw [hl]
          refine ⟨_, g, rfl, rfl, rfl, rfl, rfl, Or.inr (Or.inl rfl), fun hall _ => ?_⟩
          have := hall c1 job1 (some g)
          unfold flow_job_notify_graph_changed at hn2
          simp only [Prod.mk.injEq] at hn2
          rw [hn2.1] at this
          cases this
        | true =>
          have hl := link_codecs_of_notify E c1 job1 g (by rw [hn2])
          rw [hn2] at hl
          simp only at hl
          rw [hl]
          simp only
          obtain ⟨fn, fnn, _, _, _⟩ := link_fold job2 c2 g g.next_node_id
          have hfull2 := (fully_executed_congr E g _ fn fnn).trans hfull
          rw [execute_loop_exit E fuel fuel _ hfull2]
          simp only
          obtain ⟨rg, rj, rp, rc, rok⟩ := execute_render_frame E
            (flow_job_execute_entry
              ((List.range g.next_node_id).foldl (flow_job_link_codecs_node job2) (c2, g)).1 job2
              ((List.range g.next_node_id).foldl (flow_job_link_codecs_node job2) (c2, g)).2)
          refine ⟨_, _, rfl, rp, rg, fn, fnn, ?_, fun _ hrender => ⟨rok hrender, rc, ?_⟩⟩
          · rcases rc with rc | rc
            · exact Or.inr (Or.inl rc)
            · exact Or.inr (Or.inr rc)
          · rw [rj]
            simp only [flow_job_execute_entry]
            unfold flow_job_notify_graph_changed at hn2
            simp only [Prod.mk.injEq] at hn2
            rw [← hn2.2.2, hn'.1]
            simp only
            rw [← hn'.2]

/-! ## The claims on the orchestrator -/

/-- C1. If `flow_job_execute` returns true, the graph left at the handle is fully executed:
every node with id below `next_node_id` whose type is not Null has the Executed flag set.
(The final render reads the graph and cannot change it.) -/
theorem flow_job_execute_success_fully_executed (E : Externals) (fuel : Nat) (c : flow_c)
    (job : flow_job) (graph_ref : Option flow_graph) (r : flow_job_execute_result)
    (h : flow_job_execute E fuel c job graph_ref = some r) (hok : r.ok = true) :
    ∃ g, r.graph = some g ∧ flow_job_graph_fully_executed E g = true ∧
      ∀ i, i < g.next_node_id → (g.nodes i).type ≠ flow_ntype.Null →
        (g.nodes i).state &&& E.flow_node_state_Executed > 0 := by
  unfold flow_job_execute at h
  split at h
  · simp only [Option.some.injEq] at h
    rw [← h] at hok
    cases hok
  · split at h
    · simp only [Option.some.injEq] at h
      rw [← h] at hok
      cases hok
    · simp at h
    · split at h
      · simp at h
      · simp only [Option.some.injEq] at h
        rw [← h] at hok
        cases hok
      · rename_i s hloop
        simp only [Option.some.injEq] at h
        have hfull := execute_loop_success E fuel _ _ _ hloop
        refine ⟨s.graph, ?_, hfull, (fully_executed_iff E s.graph).mp hfull⟩
        rw [← h]
        exact (execute_render_frame E s).1

/-- C1, at a concrete input: two operation nodes joined by an edge are driven to
completion in one pass. -/
theorem flow_job_execute_success_fully_executed_witness :
    ∃ r, flow_job_execute Sample.externals 5 Sample.context (Sample.job 6 [])
        (some Sample.chain_graph) = some r ∧ r.ok = true ∧ r.passes = 1 ∧
      ∃ g, r.graph = some g ∧ flow_job_graph_fully_executed Sample.externals g = true ∧
        ∀ i, i < g.next_node_id → (g.nodes i).type ≠ flow_ntype.Null →
          (g.nodes i).state &&& Sample.externals.flow_node_state_Executed > 0 := by
  have hs : (flow_job_execute Sample.externals 5 Sample.context (Sample.job 6 [])
      (some Sample.chain_graph)).isSome = true := by decide!
  obtain ⟨r, hr⟩ := Option.isSome_iff_exists.mp hs
  have hval : (flow_job_execute Sample.externals 5 Sample.context (Sample.job 6 [])
      (some Sample.chain_graph)).map (fun x => (x.ok, x.passes)) = some (true, 1) := by decide!
  rw [hr] at hval
  simp only [Option.map_some', Option.some.injEq, Prod.mk.injEq] at hval
  exact ⟨r, hr, hval.1, hval.2,
    flow_job_execute_success_fully_executed Sample.externals 5 Sample.context (Sample.job 6 [])
      (some Sample.chain_graph) r hr hval.1⟩

/-- C2. The pass limit. Let the notify hook and the linker succeed at entry, and let the
run stay unfinished: the graph is not fully executed at entry nor after any of the first
`max_passes` iterations, each of which succeeds in all its phases and leaves the pass
limit as it was. Then `flow_job_execute` performs exactly `max_passes` iterations of the
phase sequence (none when the limit is negative) and returns false, the error raised being
`Maximum_graph_passes_exceeded`. -/
theorem flow_job_execute_pass_limit (E : Externals) (fuel : Nat) (c : flow_c) (job : flow_job)
    (graph_ref : Option flow_graph) (c1 c2 : flow_c) (job1 job2 : flow_job) (g2 : flow_graph)
    (hnotify : flow_job_notify_graph_changed E c job graph_ref = (true, c1, job1))
    (hlink : flow_job_link_codecs E c1 job1 (some graph_ref) = (true, c2, job2, some g2))
    (hfuel : job.max_calc_flatten_execute_passes.toNat ≤ fuel)
    (hstuck : ∀ k, k ≤ job.max_calc_flatten_execute_passes.toNat →
      ∃ s, flow_job_execute_after E fuel k (flow_job_execute_entry c2 job2 g2) = some s ∧
        flow_job_graph_fully_executed E s.graph = false ∧
        s.job.max_calc_flatten_execute_passes = job.max_calc_flatten_execute_passes) :
    ∃ r s, flow_job_execute E fuel c job graph_ref = some r ∧
      flow_job_execute_after E fuel job.max_calc_flatten_execute_passes.toNat
        (flow_job_execute_entry c2 job2 g2) = some s ∧
      r.ok = false ∧
      r.passes = job.max_calc_flatten_execute_passes.toNat ∧
      r.calls = [flow_call.notify_graph_changed, flow_call.link_codecs] ++
        (List.replicate job.max_calc_flatten_execute_passes.toNat
          (flow_job_execute_pass_calls ++ [flow_call.notify_graph_changed])).flatten ∧
      r.graph = some s.graph ∧
      r.c = FLOW_error s.c flow_status.Maximum_graph_passes_exceeded "flow_job_execute" ∧
      r.c.last_error = some { status := flow_status.Maximum_graph_passes_exceeded, message := "" }
    := by
  obtain ⟨s, hs, hloop⟩ := execute_loop_stuck E fuel job.max_calc_flatten_execute_passes
    (flow_job_execute_entry c2 job2 g2) rfl hstuck job.max_calc_flatten_execute_passes.toNat 0
    (flow_job_execute_entry c2 job2 g2) (by omega) rfl fuel hfuel
  obtain ⟨hp, hc⟩ := execute_after_trace E fuel _ _ _ hs
  refine ⟨{ ok := false,
             c := FLOW_error s.c flow_status.Maximum_graph_passes_exceeded "flow_job_execute",
             job := s.job, graph := some s.graph, passes := s.passes, calls := s.calls },
    s, ?_, hs, ?_⟩
  · unfold flow_job_execute
    simp only [hnotify, hlink, hloop]
  · refine ⟨rfl, ?_, ?_, rfl, rfl, ?_⟩
    · simp only [hp, flow_job_execute_entry]; omega
    · simp only [hc, flow_job_execute_entry]
    · simp [flow_c.last_error, FLOW_error]

/-- C2, at a concrete input: a node that never learns its dimensions, feeding a second
node, under a pass limit of 2. -/
theorem flow_job_execute_pass_limit_witness :
    ∃ r, flow_job_execute Sample.externals 5 Sample.context (Sample.job 2 [])
        (some Sample.stuck_graph) = some r ∧
      r.ok = false ∧ r.passes = 2 ∧
      r.c.last_error =
        some { status := flow_status.Maximum_graph_passes_exceeded, message := "" } := by
  have hn : flow_job_notify_graph_changed Sample.externals Sample.context (Sample.job 2 [])
      (some Sample.stuck_graph) =
      (true, Sample.context, { Sample.job 2 [] with next_graph_version := 1 }) := by decide!
  have hl1 : Sample.stuck_linked.1 = true := by decide!
  have hl2 : Sample.stuck_linked.2.2.2 =
      some (Sample.stuck_linked.2.2.2.getD Sample.stuck_graph) := by
    have hsome : Sample.stuck_linked.2.2.2.isSome = true := by decide!
    obtain ⟨g, hg⟩ := Option.isSome_iff_exists.mp hsome
    rw [hg]; rfl
  have hlink : flow_job_link_codecs Sample.externals Sample.context
      { Sample.job 2 [] with next_graph_version := 1 } (some (some Sample.stuck_graph)) =
      (true, Sample.stuck_linked.2.1, Sample.stuck_linked.2.2.1,
        some (Sample.stuck_linked.2.2.2.getD Sample.stuck_graph)) :=
    Prod.ext hl1 (Prod.ext rfl (Prod.ext rfl hl2))
  have hstuck : ∀ k, k ≤ (Sample.job 2 []).max_calc_flatten_execute_passes.toNat →
      ∃ s, flow_job_execute_after Sample.externals 5 k
          (flow_job_execute_entry Sample.stuck_linked.2.1 Sample.stuck_linked.2.2.1
            (Sample.stuck_linked.2.2.2.getD Sample.stuck_graph)) = some s ∧
        flow_job_graph_fully_executed Sample.externals s.graph = false ∧
        s.job.max_calc_flatten_execute_passes =
          (Sample.job 2 []).max_calc_flatten_execute_passes := by
    intro k hk
    have hk2 : k ≤ 2 := hk
    have hall : ∀ j, j ≤ 2 →
        ((flow_job_execute_after Sample.externals 5 j Sample.stuck_entry).map fun s =>
          (flow_job_graph_fully_executed Sample.externals s.graph,
            s.job.max_calc_flatten_execute_passes)) = some (false, 2) := by decide!
    have hj := hall k hk2
    cases hs : flow_job_execute_after Sample.externals 5 k Sample.stuck_entry with
    | none => rw [hs] at hj; cases hj
    | some s =>
      rw [hs] at hj
      simp only [Option.map_some', Option.some.injEq, Prod.mk.injEq] at hj
      exact ⟨s, hs, hj.1, hj.2⟩
  obtain ⟨r, _, hr, _, hok, hp, _, _, _, herr⟩ :=
    flow_job_execute_pass_limit Sample.externals 5 Sample.context (Sample.job 2 [])
      (some Sample.stuck_graph) _ _ _ _ _ hn hlink (by decide) hstuck
  exact ⟨r, hr, hok, hp, herr⟩

/-- C3, the code at a dangling placeholder: a decoder node refers to placeholder id 7 and
the job has no binding. `flow_job_link_codecs` records `Graph_invalid` with a message that
names the placeholder id and the node, and returns true; `flow_job_execute` goes on into
its loop and, with the sample node library, returns true after one pass. -/
theorem flow_job_execute_dangling_placeholder :
    (flow_job_link_codecs Sample.externals Sample.context (Sample.job 6 [])
      (some (some Sample.dangling_graph))).1 = true ∧
    (flow_job_link_codecs Sample.externals Sample.context (Sample.job 6 [])
      (some (some Sample.dangling_graph))).2.1.errors =
      [{ status := flow_status.Graph_invalid,
         message := "No matching codec or io found for placeholder id 7 (node #0)." }] ∧
    (flow_job_execute Sample.externals 5 Sample.context (Sample.job 6 [])
      (some Sample.dangling_graph)).map (fun r => (r.ok, r.passes, r.c.errors)) =
      some (true, 1,
        [{ status := flow_status.Graph_invalid,
           message := "No matching codec or io found for placeholder id 7 (node #0)." }]) := by
  decide!

/-- C4 as stated fails: on a graph of one executed node, a notify hook that fails makes
`flow_job_execute` return false at its first statement. -/
theorem flow_job_execute_idempotent_hook_fails :
    flow_job_graph_fully_executed Sample.failing_externals Sample.done_graph = true ∧
    (flow_job_execute Sample.failing_externals 5 Sample.context (Sample.job 6 [])
      (some Sample.done_graph)).map (fun r => (r.ok, r.passes, r.calls)) =
      some (false, 0, [flow_call.notify_graph_changed]) := by
  decide!

/-- C4 as amended. On a graph that is already fully executed `flow_job_execute` performs
zero iterations of its loop: the calls it makes are the notify hook, the linker and at
most the final render, so none of the five phases runs, and the node table, with every
node's state, is as it was. It returns true provided the notify hook and the renderer do
not fail. -/
theorem flow_job_execute_idempotent (E : Externals) (fuel : Nat) (c : flow_c) (job : flow_job)
    (g : flow_graph) (hfull : flow_job_graph_fully_executed E g = true) :
    ∃ r g', flow_job_execute E fuel c job (some g) = some r ∧ r.passes = 0 ∧
      (∀ call ∈ r.calls, call = flow_call.notify_graph_changed ∨ call = flow_call.link_codecs ∨
        call = flow_call.render_graph_to_png) ∧
      r.graph = some g' ∧ g'.nodes = g.nodes ∧ g'.next_node_id = g.next_node_id ∧
      ((∀ cx jx gx, (E.flow_job_notify_graph_changed cx jx gx).1 = true) →
        (∀ cx jx gx v, (E.flow_job_render_graph_to_png cx jx gx v).1 = true) →
        r.ok = true) := by
  obtain ⟨r, g', hr, hp, hg, hn, hnn, hcalls, hhooks⟩ := execute_no_pass E fuel c job g hfull
  refine ⟨r, g', hr, hp, ?_, hg, hn, hnn, fun h1 h2 => (hhooks h1 h2).1⟩
  intro call hcall
  rcases hcalls with h | h | h <;> rw [h] at hcall <;> simp at hcall
  · exact Or.inl hcall
  · rcases hcall with h | h
    · exact Or.inl h
    · exact Or.inr (Or.inl h)
  · rcases hcall with h | h | h
    · exact Or.inl h
    · exact Or.inr (Or.inl h)
    · exact Or.inr (Or.inr h)

/-- C4 as amended, at a concrete input: a graph of one executed node, with no fuel at
all and hooks that succeed. -/
theorem flow_job_execute_idempotent_witness :
    flow_job_graph_fully_executed Sample.externals Sample.done_graph = true ∧
    ∃ r, flow_job_execute Sample.externals 0 Sample.context (Sample.job 6 [])
        (some Sample.done_graph) = some r ∧ r.ok = true ∧ r.passes = 0 := by
  have hfull : flow_job_graph_fully_executed Sample.externals Sample.done_graph = true := by
    decide!
  obtain ⟨r, _, hr, hp, _, _, _, _, hok⟩ :=
    flow_job_execute_idempotent Sample.externals 0 Sample.context (Sample.job 6 [])
      Sample.done_graph hfull
  exact ⟨hfull, r, hr, hok (fun _ _ _ => rfl) (fun _ _ _ _ => rfl), hp⟩

/-- C5 as stated fails: with the hook that bumps `next_graph_version` at every call, a run
on a graph of one Null node returns true after 0 passes and leaves the version at 2, not
at the 0 it was before the call. -/
theorem flow_job_execute_null_graph_version_changes :
    (flow_job_execute Sample.externals 5 Sample.context (Sample.job 6 [])
      (some Sample.null_graph)).map (fun r => (r.ok, r.passes, r.job.next_graph_version)) =
      some (true, 0, 2) ∧
    (Sample.job 6 []).next_graph_version = 0 ∧
    ¬ ((flow_job_execute Sample.externals 5 Sample.context (Sample.job 6 [])
      (some Sample.null_graph)).map (fun r => r.job.next_graph_version) =
      some (Sample.job 6 []).next_graph_version) := by
  decide!

/-- C5 as amended. On a graph that consists of a single node of type Null, with a notify
hook that succeeds and bumps `next_graph_version` at every call and a renderer that does
not fail, `flow_job_execute` returns true after 0 passes and `next_graph_version` is its
value before the call plus 2: the hook runs once at the entry of `flow_job_execute` and
once at the entry of `flow_job_link_codecs`. -/
theorem flow_job_execute_null_graph (E : Externals) (fuel : Nat) (c : flow_c) (job : flow_job)
    (g : flow_graph) (hcount : g.next_node_id = 1)
    (hnull : (g.nodes 0).type = flow_ntype.Null)
    (hbump : ∀ cx jx gx, (E.flow_job_notify_graph_changed cx jx gx).1 = true ∧
      (E.flow_job_notify_graph_changed cx jx gx).2.2 = jx.next_graph_version + 1)
    (hrender : ∀ cx jx gx v, (E.flow_job_render_graph_to_png cx jx gx v).1 = true) :
    ∃ r, flow_job_execute E fuel c job (some g) = some r ∧ r.ok = true ∧ r.passes = 0 ∧
      r.job.next_graph_version = job.next_graph_version + 2 ∧
      (r.calls = [flow_call.notify_graph_changed, flow_call.link_codecs] ∨
        r.calls = [flow_call.notify_graph_changed, flow_call.link_codecs,
          flow_call.render_graph_to_png]) := by
  have hfull : flow_job_graph_fully_executed E g = true := by
    rw [fully_executed_iff]
    intro i hi hty
    have hi0 : i = 0 := by omega
    subst hi0
    exact absurd hnull hty
  obtain ⟨r, _, hr, hp, _, _, _, _, hhooks⟩ := execute_no_pass E fuel c job g hfull
  obtain ⟨hok, hcalls, hversion⟩ := hhooks (fun cx jx gx => (hbump cx jx gx).1) hrender
  refine ⟨r, hr, hok, hp, ?_, hcalls⟩
  rw [hversion, (hbump _ _ _).2]
  simp only
  rw [(hbump _ _ _).2]
  omega

/-- C5 as amended, at a concrete input: the single tombstone under the bumping hook. -/
theorem flow_job_execute_null_graph_witness :
    ∃ r, flow_job_execute Sample.externals 5 Sample.context (Sample.job 6 [])
        (some Sample.null_graph) = some r ∧ r.ok = true ∧ r.passes = 0 ∧
      r.job.next_graph_version = (Sample.job 6 []).next_graph_version + 2 := by
  obtain ⟨r, hr, hok, hp, hv, _⟩ :=
    flow_job_execute_null_graph Sample.externals 5 Sample.context (Sample.job 6 [])
      Sample.null_graph rfl rfl (fun _ _ _ => ⟨rfl, rfl⟩) (fun _ _ _ _ => rfl)
  exact ⟨r, hr, hok, hp, hv⟩

/-! ## The claims on registration and recording -/

/-- C12. For every combination of the five boolean arguments `flow_job_configure_recording`
returns true and leaves a job in which `render_graph_versions` implies
`record_graph_versions` and `render_animated_graph` implies `render_graph_versions`:
`record_graph_versions`, `record_frame_images` and `render_last_graph` are the arguments,
`render_graph_versions` is its argument and the `record_graph_versions` argument, and
`render_animated_graph` is its argument and the stored `render_graph_versions`. Nothing
else of the job, and nothing of the context, changes. -/
theorem flow_job_configure_recording_flags (c : flow_c) (job : flow_job)
    (record_graph_versions record_frame_images render_last_graph render_graph_versions
      render_animated_graph : Bool) :
    (flow_job_configure_recording c job record_graph_versions record_frame_images
      render_last_graph render_graph_versions render_animated_graph).1 = true ∧
    (flow_job_configure_recording c job record_graph_versions record_frame_images
      render_last_graph render_graph_versions render_animated_graph).2.1 = c ∧
    (flow_job_configure_recording c job record_graph_versions record_frame_images
      render_last_graph render_graph_versions render_animated_graph).2.2 =
      { job with
        record_graph_versions := record_graph_versions
        record_frame_images := record_frame_images
        render_last_graph := render_last_graph
        render_graph_versions := render_graph_versions && record_graph_versions
        render_animated_graph :=
          render_animated_graph && (render_graph_versions && record_graph_versions) } ∧
    ((flow_job_configure_recording c job record_graph_versions record_frame_images
        render_last_graph render_graph_versions render_animated_graph).2.2.render_animated_graph =
      (render_animated_graph &&
        (flow_job_configure_recording c job record_graph_versions record_frame_images
          render_last_graph render_graph_versions
          render_animated_graph).2.2.render_graph_versions)) ∧
    ((flow_job_configure_recording c job record_graph_versions record_frame_images
        render_last_graph render_graph_versions render_animated_graph).2.2.render_graph_versions
        = true →
      (flow_job_configure_recording c job record_graph_versions record_frame_images
        render_last_graph render_graph_versions render_animated_graph).2.2.record_graph_versions
        = true) ∧
    ((flow_job_configure_recording c job record_graph_versions record_frame_images
        render_last_graph render_graph_versions render_animated_graph).2.2.render_animated_graph
        = true →
      (flow_job_configure_recording c job record_graph_versions record_frame_images
        render_last_graph render_graph_versions render_animated_graph).2.2.render_graph_versions
        = true) := by
  refine ⟨rfl, rfl, rfl, rfl, ?_, ?_⟩
  · simp only [flow_job_configure_recording, Bool.and_eq_true]
    exact fun h => h.2
  · simp only [flow_job_configure_recording, Bool.and_eq_true]
    exact fun h => h.2

/-- C11 as stated fails: an endpoint registered as an Output is neither read nor sought, so
a cursor that stood at offset 5 before a successful `flow_job_add_io` stands there after
it. -/
theorem flow_job_add_io_output_cursor_stays :
    (flow_job_add_io Sample.externals Sample.context (Sample.job 6 []) (some 1)
      (Sample.memory_io_at Sample.png_bytes 5) 5 FLOW_DIRECTION.FLOW_OUTPUT).1 = true ∧
    (flow_job_add_io Sample.externals Sample.context (Sample.job 6 []) (some 1)
      (Sample.memory_io_at Sample.png_bytes 5) 5 FLOW_DIRECTION.FLOW_OUTPUT).2.2.2.user_data = 5 ∧
    ¬ (flow_job_add_io Sample.externals Sample.context (Sample.job 6 []) (some 1)
      (Sample.memory_io_at Sample.png_bytes 5) 5 FLOW_DIRECTION.FLOW_OUTPUT).2.2.2.user_data
        = 0 := by
  decide!

/-- C11 as amended. Let `cursor` read the cursor off an endpoint's state, a read advance it
by the count it reports, and a successful seek to 0 set it to 0. After a successful
`flow_job_add_io` for direction Input the cursor is at offset 0, having stood 8 bytes
past its start after the sniffing read; for direction Output the endpoint is returned
as it was given, its cursor where it was. -/
theorem flow_job_add_io_rewinds {σ : Type} (cursor : σ → Nat) (E : Externals) (c : flow_c)
    (job : flow_job) (io : Option Nat) (io_object : flow_io σ) (placeholder_id : Int)
    (direction : FLOW_DIRECTION) (c' : flow_c) (job' : flow_job) (io' : flow_io σ)
    (hread : ∀ cx u n, cursor (io_object.read_func cx u n).2.2.2 =
      cursor u + (io_object.read_func cx u n).1.toNat)
    (hseek : ∀ cx u, (io_object.seek_function cx u 0).1 = true →
      cursor (io_object.seek_function cx u 0).2.2 = 0)
    (h : flow_job_add_io E c job io io_object placeholder_id direction = (true, c', job', io')) :
    (direction = FLOW_DIRECTION.FLOW_INPUT →
      cursor (flow_job_add_io_read c io_object).2.2.2 = cursor io_object.user_data + 8 ∧
      io'.user_data = (flow_job_add_io_seek c io_object).2.2 ∧
      cursor io'.user_data = 0) ∧
    (direction = FLOW_DIRECTION.FLOW_OUTPUT → io' = io_object) := by
  unfold flow_job_add_io at h
  simp only [add_io_chain] at h
  split at h
  · simp at h
  · split at h
    · rename_i hdir
      simp only [Prod.mk.injEq, true_and] at h
      refine ⟨fun hd => ?_, fun _ => h.2.2.symm⟩
      rw [hdir] at hd; cases hd
    · rename_i hdir
      refine ⟨fun _ => ?_, fun hd => absurd hd hdir⟩
      split at h
      · simp at h
      · rename_i hread8
        have hread8' : (io_object.read_func c io_object.user_data 8).1 = 8 := not_not.mp hread8
        split at h
        · simp at h
        · rename_i hseekok
          have hseekok' : (io_object.seek_function
              (io_object.read_func c io_object.user_data 8).2.2.1
              (io_object.read_func c io_object.user_data 8).2.2.2 0).1 = true := by
            cases hs : (io_object.seek_function
              (io_object.read_func c io_object.user_data 8).2.2.1
              (io_object.read_func c io_object.user_data 8).2.2.2 0).1
            · exact absurd hs hseekok
            · rfl
          split at h
          · simp at h
          · split at h
            · simp at h
            · simp only [Prod.mk.injEq, true_and] at h
              obtain ⟨_, _, hio⟩ := h
              subst hio
              refine ⟨?_, rfl, hseek _ _ hseekok'⟩
              rw [hread, hread8']
              rfl

/-- C11 as amended, at a concrete input: a PNG input over an in-memory endpoint. -/
theorem flow_job_add_io_rewinds_witness :
    (flow_job_add_io Sample.externals Sample.context (Sample.job 6 []) (some 1)
      (Sample.memory_io Sample.png_bytes) 5 FLOW_DIRECTION.FLOW_INPUT).1 = true ∧
    (flow_job_add_io_read Sample.context (Sample.memory_io Sample.png_bytes)).2.2.2 = 8 ∧
    (flow_job_add_io Sample.externals Sample.context (Sample.job 6 []) (some 1)
      (Sample.memory_io Sample.png_bytes) 5 FLOW_DIRECTION.FLOW_INPUT).2.2.2.user_data = 0 := by
  have h1 : (flow_job_add_io Sample.externals Sample.context (Sample.job 6 []) (some 1)
      (Sample.memory_io Sample.png_bytes) 5 FLOW_DIRECTION.FLOW_INPUT).1 = true := by decide!
  have h := (flow_job_add_io_rewinds (fun cursor : Nat => cursor) Sample.externals Sample.context
    (Sample.job 6 []) (some 1) (Sample.memory_io Sample.png_bytes) 5 FLOW_DIRECTION.FLOW_INPUT
    _ _ _ (fun cx u n => by simp [Sample.memory_io]; omega)
    (fun cx u _ => by simp [Sample.memory_io]) (Prod.ext h1 rfl)).1 rfl
  exact ⟨h1, h.1, h.2.2⟩

/-- C20. Registration is not atomic on failure. When `flow_job_add_io` fails for an Input
after its allocation succeeded, the job is as before except that the new binding is
appended at the tail of the chain, with the placeholder id, endpoint and direction given;
its `codec_id` is 0 and its `codec_state` null after a short read, a failed seek or an
unrecognized signature, and its `codec_id` is the sniffed codec when the codec
initialization failed. On a job with no earlier binding of that id a later
`flow_job_get_codec_instance` answers the failed binding, not null, and `flow_job_get_io`
its endpoint. -/
theorem flow_job_add_io_failure_keeps_binding {σ : Type} (E : Externals) (c : flow_c)
    (job : flow_job) (io : Option Nat) (io_object : flow_io σ) (placeholder_id : Int)
    (halloc : E.FLOW_malloc_owned c job = true)
    (hfail : (flow_job_add_io E c job io io_object placeholder_id
      FLOW_DIRECTION.FLOW_INPUT).1 = false) :
    ∃ b : flow_codec_instance,
      (flow_job_add_io E c job io io_object placeholder_id FLOW_DIRECTION.FLOW_INPUT).2.2.1 =
        { job with codecs := job.codecs ++ [b] } ∧
      b.graph_placeholder_id = placeholder_id ∧ b.io = io ∧
      b.direction = FLOW_DIRECTION.FLOW_INPUT ∧
      ((flow_job_add_io_read c io_object).1 ≠ 8 ∨ (flow_job_add_io_seek c io_object).1 = false ∨
          flow_job_add_io_ctype E c job io io_object placeholder_id FLOW_DIRECTION.FLOW_INPUT
            = flow_codec_type_null →
        b.codec_id = 0 ∧ b.codec_state = none) ∧
      ((flow_job_add_io_read c io_object).1 = 8 → (flow_job_add_io_seek c io_object).1 = true →
          flow_job_add_io_ctype E c job io io_object placeholder_id FLOW_DIRECTION.FLOW_INPUT
            ≠ flow_codec_type_null →
        (flow_job_add_io_init E c job io io_object placeholder_id
          FLOW_DIRECTION.FLOW_INPUT).1 = false ∧
        b.codec_id = flow_job_add_io_ctype E c job io io_object placeholder_id
          FLOW_DIRECTION.FLOW_INPUT) ∧
      ((∀ b0 ∈ job.codecs, b0.graph_placeholder_id ≠ placeholder_id) →
        flow_job_get_codec_instance
          (flow_job_add_io E c job io io_object placeholder_id FLOW_DIRECTION.FLOW_INPUT).2.2.1
          placeholder_id = some job.codecs.length ∧
        ∀ cx, flow_job_get_io cx
          (flow_job_add_io E c job io io_object placeholder_id FLOW_DIRECTION.FLOW_INPUT).2.2.1
          placeholder_id = (io, cx)) := by
  have hlookup : ∀ b : flow_codec_instance, b.graph_placeholder_id = placeholder_id → b.io = io →
      (∀ b0 ∈ job.codecs, b0.graph_placeholder_id ≠ placeholder_id) →
      flow_job_get_codec_instance { job with codecs := job.codecs ++ [b] } placeholder_id
        = some job.codecs.length ∧
      ∀ cx, flow_job_get_io cx { job with codecs := job.codecs ++ [b] } placeholder_id
        = (io, cx) := by
    intro b hb hio hfresh
    have hfound : flow_job_get_codec_instance { job with codecs := job.codecs ++ [b] }
        placeholder_id = some job.codecs.length := by
      unfold flow_job_get_codec_instance
      simp only
      rw [get_codec_instance_from_append_fresh placeholder_id b job.codecs 0 hfresh, if_pos hb,
        Nat.zero_add]
    refine ⟨hfound, fun cx => ?_⟩
    simp [flow_job_get_io, hfound, hio]
  by_cases hread : (flow_job_add_io_read c io_object).1 = 8
  · by_cases hseek : (flow_job_add_io_seek c io_object).1 = true
    · by_cases hsel : flow_job_add_io_ctype E c job io io_object placeholder_id
          FLOW_DIRECTION.FLOW_INPUT = flow_codec_type_null
      · rw [add_io_unknown_signature E c job io io_object placeholder_id halloc hread hseek hsel]
        exact ⟨_, rfl, rfl, rfl, rfl, fun _ => ⟨rfl, rfl⟩, fun _ _ h => absurd hsel h,
          hlookup _ rfl rfl⟩
      · rw [add_io_sniffed E c job io io_object placeholder_id halloc hread hseek hsel] at hfail ⊢
        refine ⟨_, rfl, rfl, rfl, rfl, fun h => ?_, fun _ _ _ => ⟨hfail, rfl⟩, hlookup _ rfl rfl⟩
        rcases h with h | h | h
        · exact absurd hread h
        · rw [hseek] at h; cases h
        · exact absurd h hsel
    · have hseek' : (flow_job_add_io_seek c io_object).1 = false := by
        cases h : (flow_job_add_io_seek c io_object).1
        · rfl
        · exact absurd h hseek
      rw [add_io_seek_failed E c job io io_object placeholder_id halloc hread hseek']
      exact ⟨_, rfl, rfl, rfl, rfl, fun _ => ⟨rfl, rfl⟩, fun _ h => absurd h hseek,
        hlookup _ rfl rfl⟩
  · rw [add_io_short_read E c job io io_object placeholder_id halloc hread]
    exact ⟨_, rfl, rfl, rfl, rfl, fun _ => ⟨rfl, rfl⟩, fun h => absurd h hread,
      hlookup _ rfl rfl⟩

/-- C20, at a concrete input: an input with an unknown signature is refused, and the job
keeps its binding, which a lookup of placeholder 7 then finds. -/
theorem flow_job_add_io_failure_keeps_binding_witness :
    (flow_job_add_io Sample.externals Sample.context (Sample.job 6 []) (some 1)
      (Sample.memory_io Sample.unknown_bytes) 7 FLOW_DIRECTION.FLOW_INPUT).1 = false ∧
    (flow_job_add_io Sample.externals Sample.context (Sample.job 6 []) (some 1)
      (Sample.memory_io Sample.unknown_bytes) 7 FLOW_DIRECTION.FLOW_INPUT).2.2.1.codecs =
      [{ graph_placeholder_id := 7, io := some 1, codec_id := 0, codec_state := none,
         direction := FLOW_DIRECTION.FLOW_INPUT }] ∧
    flow_job_get_io Sample.context
      (flow_job_add_io Sample.externals Sample.context (Sample.job 6 []) (some 1)
        (Sample.memory_io Sample.unknown_bytes) 7 FLOW_DIRECTION.FLOW_INPUT).2.2.1 7
      = (some 1, Sample.context) := by
  have hfail : (flow_job_add_io Sample.externals Sample.context (Sample.job 6 []) (some 1)
      (Sample.memory_io Sample.unknown_bytes) 7 FLOW_DIRECTION.FLOW_INPUT).1 = false := by
    decide!
  obtain ⟨b, hjob, hid, hio, hdir, hzero, _, hfind⟩ :=
    flow_job_add_io_failure_keeps_binding Sample.externals Sample.context (Sample.job 6 [])
      (some 1) (Sample.memory_io Sample.unknown_bytes) 7 rfl hfail
  obtain ⟨hcid, hstate⟩ := hzero (Or.inr (Or.inr (by decide!)))
  refine ⟨hfail, ?_, (hfind (by decide!)).2 Sample.context⟩
  rw [hjob]
  obtain ⟨bid, bio, bcid, bstate, bdir⟩ := b
  simp only at hid hio hdir hcid hstate
  subst hid hio hdir hcid hstate
  rfl

/-! ## The claims on the visitors -/

/-- C17. The decision of the executor visitor. With `u` what `flow_node_update_state`
answers and `x` what the node's execution routine `flow_node_execute` answers on the
state `u` left: when `u` fails the visitor fails; the routine is run exactly when `u`
left the node without Executed and in state `ReadyForExecution` (otherwise the visitor's
answer does not depend on the routine, so a node that is Executed is not executed again);
when the routine fails the visitor fails; when it succeeds the node gets its ticks and the
Executed flag; and a visitor that returns true has set `skip_outbound_paths` exactly when
the node does not have the Executed flag (it leaves the flag it was handed otherwise). -/
theorem node_visitor_execute_decision (E : Externals) {D : Type} (c : flow_c) (job : flow_job)
    (graph : flow_graph) (node_id : Nat) (quit skip_outbound_paths : Bool) (custom_data : D) :
    ((E.flow_node_update_state c graph node_id).1 = false →
      node_visitor_execute E c job graph node_id quit skip_outbound_paths custom_data =
        ⟨false, FLOW_error_return (E.flow_node_update_state c graph node_id).2.1
          "node_visitor_execute", job, (E.flow_node_update_state c graph node_id).2.2, quit,
          skip_outbound_paths, custom_data⟩) ∧
    ((E.flow_node_update_state c graph node_id).1 = true →
      ¬ (flow_job_node_is_executed E (E.flow_node_update_state c graph node_id).2.2 node_id
            = false ∧
          ((E.flow_node_update_state c graph node_id).2.2.nodes node_id).state =
            E.flow_node_state_ReadyForExecution) →
      node_visitor_execute E c job graph node_id quit skip_outbound_paths custom_data =
        if flow_job_node_is_executed E (E.flow_node_update_state c graph node_id).2.2 node_id
            = false then
          ⟨true, (E.flow_node_update_state c graph node_id).2.1, job,
            (E.flow_node_update_state c graph node_id).2.2, quit, true, custom_data⟩
        else
          ⟨true,
            (flow_job_notify_graph_changed E (E.flow_node_update_state c graph node_id).2.1 job
              (some (E.flow_node_update_state c graph node_id).2.2)).2.1,
            (flow_job_notify_graph_changed E (E.flow_node_update_state c graph node_id).2.1 job
              (some (E.flow_node_update_state c graph node_id).2.2)).2.2,
            (E.flow_node_update_state c graph node_id).2.2, quit, skip_outbound_paths,
            custom_data⟩) ∧
    ((E.flow_node_update_state c graph node_id).1 = true →
      flow_job_node_is_executed E (E.flow_node_update_state c graph node_id).2.2 node_id
        = false →
      ((E.flow_node_update_state c graph node_id).2.2.nodes node_id).state =
        E.flow_node_state_ReadyForExecution →
      ((E.flow_node_execute (E.flow_node_update_state c graph node_id).2.1 job
          (E.flow_node_update_state c graph node_id).2.2 node_id).1 = false →
        node_visitor_execute E c job graph node_id quit skip_outbound_paths custom_data =
          ⟨false,
            FLOW_error_return
              (E.flow_node_execute (E.flow_node_update_state c graph node_id).2.1 job
                (E.flow_node_update_state c graph node_id).2.2 node_id).2.1
              "node_visitor_execute",
            (E.flow_node_execute (E.flow_node_update_state c graph node_id).2.1 job
              (E.flow_node_update_state c graph node_id).2.2 node_id).2.2.1,
            (E.flow_node_execute (E.flow_node_update_state c graph node_id).2.1 job
              (E.flow_node_update_state c graph node_id).2.2 node_id).2.2.2,
            quit, skip_outbound_paths, custom_data⟩) ∧
      ((E.flow_node_execute (E.flow_node_update_state c graph node_id).2.1 job
          (E.flow_node_update_state c graph node_id).2.2 node_id).1 = true →
        (node_visitor_execute E c job graph node_id quit skip_outbound_paths custom_data).ok
          = true ∧
        ((node_visitor_execute E c job graph node_id quit skip_outbound_paths
            custom_data).graph.nodes node_id).state =
          ((E.flow_node_execute (E.flow_node_update_state c graph node_id).2.1 job
            (E.flow_node_update_state c graph node_id).2.2 node_id).2.2.2.nodes node_id).state
            ||| E.flow_node_state_Executed)) ∧
    ((node_visitor_execute E c job graph node_id quit skip_outbound_paths custom_data).ok = true →
      (node_visitor_execute E c job graph node_id quit skip_outbound_paths
          custom_data).skip_outbound_paths =
        (skip_outbound_paths ||
          !(flow_job_node_is_executed E
            (node_visitor_execute E c job graph node_id quit skip_outbound_paths
              custom_data).graph node_id))) := by
  unfold node_visitor_execute
  cases hu : E.flow_node_update_state c graph node_id with
  | mk uok urest =>
    obtain ⟨c1, g1⟩ := urest
    cases uok with
    | false =>
      simp
    | true =>
      simp only [true_and, Bool.true_eq_false, false_implies, forall_const, and_imp]
      by_cases hcond : flow_job_node_is_executed E g1 node_id = false ∧
          (g1.nodes node_id).state = E.flow_node_state_ReadyForExecution
      · rw [if_pos hcond]
        cases hx : E.flow_node_execute c1 job g1 node_id with
        | mk xok xrest =>
          obtain ⟨c2, job2, g2⟩ := xrest
          cases xok with
          | false => simp [hcond]
          | true =>
            simp only [hcond, not_true_eq_false, false_implies, true_and,
              Bool.true_eq_false, forall_const]
            refine ⟨?_, ?_⟩
            · split <;> simp [flow_node_add_ticks]
            · split
              · rename_i h; simp [h]
              · rename_i h; simp [h]
      · rw [if_neg hcond]
        simp only [hcond, not_false_eq_true, forall_const]
        refine ⟨?_, ?_, ?_⟩
        · trivial
        · intro h1 h2
          exact absurd ⟨h1, h2⟩ hcond
        · split
          · rename_i h; simp [h]
          · rename_i h; simp [h]

/-- C19 as stated fails: a visited node that lacks dimensions and has no outbound edge is
left alone. `flow_node_update_state` is not called (it would set flags 1 and 2 here),
`skip_outbound_paths` is not set, and the node still lacks dimensions. -/
theorem node_visitor_dimensions_endpoint_untouched :
    flow_node_has_dimensions Sample.single_graph 0 = false ∧
    ((Sample.update_state Sample.context Sample.single_graph 0).2.2.nodes 0).state = 3 ∧
    (node_visitor_dimensions Sample.externals Sample.context (Sample.job 6 [])
      Sample.single_graph 0 false false false).ok = true ∧
    (node_visitor_dimensions Sample.externals Sample.context (Sample.job 6 [])
      Sample.single_graph 0 false false false).skip_outbound_paths = false ∧
    flow_node_has_dimensions
      (node_visitor_dimensions Sample.externals Sample.context (Sample.job 6 [])
        Sample.single_graph 0 false false false).graph 0 = false ∧
    ((node_visitor_dimensions Sample.externals Sample.context (Sample.job 6 [])
      Sample.single_graph 0 false false false).graph.nodes 0).state = 0 := by
  decide!

/-- C19 as amended. The dimension visitor leaves a node untouched when no edge leaves it or
when it already has dimensions. For a visited node with an outbound edge that lacks
dimensions, `flow_node_update_state` is called; when it fails the visitor fails; otherwise
the node's `populate_dimensions` is asked, with `force_estimate` the `custom_data` of the
walk, exactly when `InputDimensionsKnown` is then set, and its failure fails the visitor;
after that `skip_outbound_paths` is set when the node still lacks dimensions, and the
notify hook is run (its answer dropped) when the node now has them. -/
theorem node_visitor_dimensions_decision (E : Externals) (c : flow_c) (job : flow_job)
    (graph : flow_graph) (node_id : Nat) (quit skip_outbound_paths custom_data : Bool) :
    (E.flow_graph_get_edge_count c graph node_id false flow_edgetype.null false true = 0 ∨
        flow_node_has_dimensions graph node_id = true →
      node_visitor_dimensions E c job graph node_id quit skip_outbound_paths custom_data =
        ⟨true, c, job, graph, quit, skip_outbound_paths, custom_data⟩) ∧
    (E.flow_graph_get_edge_count c graph node_id false flow_edgetype.null false true ≠ 0 →
      flow_node_has_dimensions graph node_id = false →
      ((E.flow_node_update_state c graph node_id).1 = false →
        node_visitor_dimensions E c job graph node_id quit skip_outbound_paths custom_data =
          ⟨false, FLOW_error_return (E.flow_node_update_state c graph node_id).2.1
            "node_visitor_dimensions", job, (E.flow_node_update_state c graph node_id).2.2, quit,
            skip_outbound_paths, custom_data⟩) ∧
      ((E.flow_node_update_state c graph node_id).1 = true →
        ((node_visitor_dimensions_populated E (E.flow_node_update_state c graph node_id).2.1
            (E.flow_node_update_state c graph node_id).2.2 node_id custom_data).1 = false →
          node_visitor_dimensions E c job graph node_id quit skip_outbound_paths custom_data =
            ⟨false,
              FLOW_error_return
                (node_visitor_dimensions_populated E (E.flow_node_update_state c graph node_id).2.1
                  (E.flow_node_update_state c graph node_id).2.2 node_id custom_data).2.1
                "node_visitor_dimensions",
              job,
              (node_visitor_dimensions_populated E (E.flow_node_update_state c graph node_id).2.1
                (E.flow_node_update_state c graph node_id).2.2 node_id custom_data).2.2,
              quit, skip_outbound_paths, custom_data⟩) ∧
        ((node_visitor_dimensions_populated E (E.flow_node_update_state c graph node_id).2.1
            (E.flow_node_update_state c graph node_id).2.2 node_id custom_data).1 = true →
          flow_node_has_dimensions
            (node_visitor_dimensions_populated E (E.flow_node_update_state c graph node_id).2.1
              (E.flow_node_update_state c graph node_id).2.2 node_id custom_data).2.2 node_id
            = false →
          node_visitor_dimensions E c job graph node_id quit skip_outbound_paths custom_data =
            ⟨true,
              (node_visitor_dimensions_populated E (E.flow_node_update_state c graph node_id).2.1
                (E.flow_node_update_state c graph node_id).2.2 node_id custom_data).2.1,
              job,
              (node_visitor_dimensions_populated E (E.flow_node_update_state c graph node_id).2.1
                (E.flow_node_update_state c graph node_id).2.2 node_id custom_data).2.2,
              quit, true, custom_data⟩) ∧
        ((node_visitor_dimensions_populated E (E.flow_node_update_state c graph node_id).2.1
            (E.flow_node_update_state c graph node_id).2.2 node_id custom_data).1 = true →
          flow_node_has_dimensions
            (node_visitor_dimensions_populated E (E.flow_node_update_state c graph node_id).2.1
              (E.flow_node_update_state c graph node_id).2.2 node_id custom_data).2.2 node_id
            = true →
          node_visitor_dimensions E c job graph node_id quit skip_outbound_paths custom_data =
            ⟨true,
              (flow_job_notify_graph_changed E
                (node_visitor_dimensions_populated E (E.flow_node_update_state c graph node_id).2.1
                  (E.flow_node_update_state c graph node_id).2.2 node_id custom_data).2.1 job
                (some (node_visitor_dimensions_populated E
                  (E.flow_node_update_state c graph node_id).2.1
                  (E.flow_node_update_state c graph node_id).2.2 node_id custom_data).2.2)).2.1,
              (flow_job_notify_graph_changed E
                (node_visitor_dimensions_populated E (E.flow_node_update_state c graph node_id).2.1
                  (E.flow_node_update_state c graph node_id).2.2 node_id custom_data).2.1 job
                (some (node_visitor_dimensions_populated E
                  (E.flow_node_update_state c graph node_id).2.1
                  (E.flow_node_update_state c graph node_id).2.2 node_id custom_data).2.2)).2.2,
              (node_visitor_dimensions_populated E (E.flow_node_update_state c graph node_id).2.1
                (E.flow_node_update_state c graph node_id).2.2 node_id custom_data).2.2,
              quit, skip_outbound_paths, custom_data⟩))) ∧
    (∀ g, flow_job_populate_dimensions_where_certain E c job g =
      match E.flow_graph_walk_dependency_wise c job g (node_visitor_dimensions E) false with
      | (false, c1, job1, g1, _) =>
        (false, FLOW_error_return c1 "flow_job_populate_dimensions_where_certain", job1, g1)
      | (true, c1, job1, g1, _) => (true, c1, job1, g1)) := by
  refine ⟨?_, ?_, fun g => rfl⟩
  · intro h
    unfold node_visitor_dimensions
    simp only
    by_cases hout :
        E.flow_graph_get_edge_count c graph node_id false flow_edgetype.null false true = 0
    · rw [if_pos hout]
    · rw [if_neg hout]
      have hdim : flow_node_has_dimensions graph node_id = true := h.resolve_left hout
      rw [if_neg (by rw [hdim]; simp)]
  · intro hout hdim
    unfold node_visitor_dimensions
    simp only
    rw [if_neg hout, if_pos hdim]
    cases hu : E.flow_node_update_state c graph node_id with
    | mk uok urest =>
      obtain ⟨c1, g1⟩ := urest
      cases uok with
      | false => simp
      | true =>
        simp only [Bool.true_eq_false, false_implies, true_and, forall_const]
        cases hp : node_visitor_dimensions_populated E c1 g1 node_id custom_data with
        | mk pok prest =>
          obtain ⟨c2, g2⟩ := prest
          simp only [node_visitor_dimensions_populated] at hp
          simp only [hp]
          cases pok with
          | false => simp
          | true =>
            simp only [Bool.true_eq_false, false_implies, true_and, forall_const]
            by_cases hd2 : flow_node_has_dimensions g2 node_id = false
            · simp [hd2]
            · have hd2' : flow_node_has_dimensions g2 node_id = true := by
                cases h : flow_node_has_dimensions g2 node_id
                · exact absurd h hd2
                · rfl
              simp [hd2']

/-! ## The claims on failures and on the phase order -/

/-- C13, the code when a hook called from a visitor fails. With a notify hook that always
fails, `node_visitor_dimensions` returns true on a node whose dimensions became known (the
case in which it calls the hook). On two operation nodes joined by an edge, with a
node-complete hook that always fails and a notify hook that fails on a partly executed
graph, the hooks called from `node_visitor_execute` report failure three times during the
run (each failure is recorded in the context), the walk and the phase carry on, and
`flow_job_execute` returns true after one pass. -/
theorem flow_job_execute_hook_failures_dropped :
    (node_visitor_dimensions Sample.failing_externals Sample.context (Sample.job 6 [])
      Sample.chain_graph 0 false false false).ok = true ∧
    flow_node_has_dimensions
      (node_visitor_dimensions Sample.failing_externals Sample.context (Sample.job 6 [])
        Sample.chain_graph 0 false false false).graph 0 = true ∧
    (Sample.failing_hooks_externals.flow_job_notify_node_complete Sample.context
      (Sample.job 6 []) Sample.chain_graph 0).1 = false ∧
    (node_visitor_execute Sample.failing_hooks_externals Sample.context (Sample.job 6 [])
      (Sample.graph [Sample.node (flow_ntype.other 1) 31 0, Sample.node (flow_ntype.other 1) 0 0]
        [(0, 1)] []) 0 false false ()).ok = true ∧
    (node_visitor_execute Sample.failing_hooks_externals Sample.context (Sample.job 6 [])
      (Sample.graph [Sample.node (flow_ntype.other 1) 31 0, Sample.node (flow_ntype.other 1) 0 0]
        [(0, 1)] []) 0 false false ()).c.errors =
      [{ status := flow_status.Other_error 2, message := "" },
       { status := flow_status.Other_error 1, message := "" }] ∧
    (flow_job_execute Sample.failing_hooks_externals 5 Sample.context (Sample.job 6 [])
      (some Sample.chain_graph)).map (fun r => (r.ok, r.passes, r.c.errors)) =
      some (true, 1,
        [{ status := flow_status.Other_error 2, message := "" },
         { status := flow_status.Other_error 1, message := "" },
         { status := flow_status.Other_error 2, message := "" }]) := by
  decide!

/-- A run of guarded calls that succeeds: its first callee answered true and left a graph
at the handle, and the rest of the run went on from what it left. -/
theorem execute_calls_cons (E : Externals) (fuel : Nat) (call : flow_call)
    (rest : List flow_call) (s s' : flow_job_execute_state)
    (h : flow_job_execute_calls E fuel (call :: rest) s = some (true, s')) :
    ∃ c1 job1 g1,
      flow_job_execute_callee E fuel call s.c s.job s.graph = some (true, c1, job1, some g1) ∧
      flow_job_execute_calls E fuel rest
        { c := c1, job := job1, graph := g1, passes := s.passes, calls := s.calls ++ [call] } =
        some (true, s') := by
  unfold flow_job_execute_calls at h
  split at h
  · simp at h
  · simp at h
  · simp at h
  · rename_i c1 job1 g1 hc
    exact ⟨c1, job1, g1, hc, h⟩

theorem execute_callee_notify (E : Externals) (fuel : Nat) (c c1 : flow_c) (job job1 : flow_job)
    (g g1 : flow_graph)
    (h : flow_job_execute_callee E fuel flow_call.notify_graph_changed c job g =
      some (true, c1, job1, some g1)) :
    flow_job_notify_graph_changed E c job (some g) = (true, c1, job1) ∧ g = g1 := by
  simp only [flow_job_execute_callee, Option.some.injEq, Prod.mk.injEq] at h
  obtain ⟨h1, h2, h3, h4⟩ := h
  exact ⟨Prod.ext h1 (Prod.ext h2 h3), h4⟩

theorem execute_callee_dimensions (E : Externals) (fuel : Nat) (c c1 : flow_c)
    (job job1 : flow_job) (g g1 : flow_graph)
    (h : flow_job_execute_callee E fuel flow_call.populate_dimensions_where_certain c job g =
      some (true, c1, job1, some g1)) :
    flow_job_populate_dimensions_where_certain E c job g = (true, c1, job1, g1) := by
  simp only [flow_job_execute_callee, Option.some.injEq, Prod.mk.injEq] at h
  obtain ⟨h1, h2, h3, h4⟩ := h
  exact Prod.ext h1 (Prod.ext h2 (Prod.ext h3 h4))

theorem execute_callee_pre_flatten (E : Externals) (fuel : Nat) (c c1 : flow_c)
    (job job1 : flow_job) (g g1 : flow_graph)
    (h : flow_job_execute_callee E fuel flow_call.pre_optimize_flatten c job g =
      some (true, c1, job1, some g1)) :
    flow_graph_pre_optimize_flatten E fuel c (some g) = some (true, c1, some g1) ∧ job = job1 := by
  simp only [flow_job_execute_callee] at h
  split at h
  · simp at h
  · rename_i ok c2 g2 hp
    simp only [Option.some.injEq, Prod.mk.injEq] at h
    obtain ⟨h1, h2, h3, h4⟩ := h
    subst h1 h2 h3 h4
    exact ⟨hp, rfl⟩

/-- C14. An iteration of the loop of `flow_job_execute` in which no call fails has run, in
this order and each on what the one before left: populate_dimensions_where_certain,
pre_optimize_flatten, populate_dimensions_where_certain, optimize,
populate_dimensions_where_certain, post_optimize_flatten, populate_dimensions_where_certain,
execute_where_certain, with the notify hook run after each of the eight; `passes` has grown
by one and the trace by these sixteen calls. -/
theorem flow_job_execute_pass_order (E : Externals) (fuel : Nat)
    (s s' : flow_job_execute_state)
    (h : flow_job_execute_pass E fuel s = some (true, s')) :
    ∃ c1 j1 g1 c2 j2 c3 g3 c4 j4 c5 j5 g5 c6 j6 c7 j7 g7 c8 j8 c9 j9 g9 c10 j10 c11 j11 g11
        c12 j12 c13 j13 g13 c14 j14 c15 j15 g15 c16 j16,
      flow_job_populate_dimensions_where_certain E s.c s.job s.graph = (true, c1, j1, g1) ∧
      flow_job_notify_graph_changed E c1 j1 (some g1) = (true, c2, j2) ∧
      flow_graph_pre_optimize_flatten E fuel c2 (some g1) = some (true, c3, some g3) ∧
      flow_job_notify_graph_changed E c3 j2 (some g3) = (true, c4, j4) ∧
      flow_job_populate_dimensions_where_certain E c4 j4 g3 = (true, c5, j5, g5) ∧
      flow_job_notify_graph_changed E c5 j5 (some g5) = (true, c6, j6) ∧
      flow_graph_optimize E fuel c6 j6 (some g5) = some (true, c7, j7, some g7) ∧
      flow_job_notify_graph_changed E c7 j7 (some g7) = (true, c8, j8) ∧
      flow_job_populate_dimensions_where_certain E c8 j8 g7 = (true, c9, j9, g9) ∧
      flow_job_notify_graph_changed E c9 j9 (some g9) = (true, c10, j10) ∧
      flow_graph_post_optimize_flatten E fuel c10 j10 (some g9) =
        some (true, c11, j11, some g11) ∧
      flow_job_notify_graph_changed E c11 j11 (some g11) = (true, c12, j12) ∧
      flow_job_populate_dimensions_where_certain E c12 j12 g11 = (true, c13, j13, g13) ∧
      flow_job_notify_graph_changed E c13 j13 (some g13) = (true, c14, j14) ∧
      flow_job_execute_where_certain E c14 j14 (some g13) = (true, c15, j15, some g15) ∧
      flow_job_notify_graph_changed E c15 j15 (some g15) = (true, c16, j16) ∧
      s'.c = c16 ∧ s'.job = j16 ∧ s'.graph = g15 ∧ s'.passes = s.passes + 1 ∧
      s'.calls = s.calls ++
        [flow_call.populate_dimensions_where_certain, flow_call.notify_graph_changed,
         flow_call.pre_optimize_flatten, flow_call.notify_graph_changed,
         flow_call.populate_dimensions_where_certain, flow_call.notify_graph_changed,
         flow_call.optimize, flow_call.notify_graph_changed,
         flow_call.populate_dimensions_where_certain, flow_call.notify_graph_changed,
         flow_call.post_optimize_flatten, flow_call.notify_graph_changed,
         flow_call.populate_dimensions_where_certain, flow_call.notify_graph_changed,
         flow_call.execute_where_certain, flow_call.notify_graph_changed] := by
  unfold flow_job_execute_pass at h
  split at h
  · simp at h
  · simp at h
  · rename_i s1 h1
    unfold flow_job_execute_pass_calls at h1
    obtain ⟨c1, j1, g1, k1, h1⟩ := execute_calls_cons E fuel _ _ _ _ h1
    try dsimp only at k1 h1
    have e1 := execute_callee_dimensions E fuel _ _ _ _ _ _ k1
    obtain ⟨c2, j2, g2, k2, h1⟩ := execute_calls_cons E fuel _ _ _ _ h1
    try dsimp only at k2 h1
    obtain ⟨e2, rfl⟩ := execute_callee_notify E fuel _ _ _ _ _ _ k2
    obtain ⟨c3, j3, g3, k3, h1⟩ := execute_calls_cons E fuel _ _ _ _ h1
    try dsimp only at k3 h1
    obtain ⟨e3, rfl⟩ := execute_callee_pre_flatten E fuel _ _ _ _ _ _ k3
    obtain ⟨c4, j4, g4, k4, h1⟩ := execute_calls_cons E fuel _ _ _ _ h1
    try dsimp only at k4 h1
    obtain ⟨e4, rfl⟩ := execute_callee_notify E fuel _ _ _ _ _ _ k4
    obtain ⟨c5, j5, g5, k5, h1⟩ := execute_calls_cons E fuel _ _ _ _ h1
    try dsimp only at k5 h1
    have e5 := execute_callee_dimensions E fuel _ _ _ _ _ _ k5
    obtain ⟨c6, j6, g6, k6, h1⟩ := execute_calls_cons E fuel _ _ _ _ h1
    try dsimp only at k6 h1
    obtain ⟨e6, rfl⟩ := execute_callee_notify E fuel _ _ _ _ _ _ k6
    obtain ⟨c7, j7, g7, k7, h1⟩ := execute_calls_cons E fuel _ _ _ _ h1
    try dsimp only at k7 h1
    have e7 := k7
    simp only [flow_job_execute_callee, Option.some.injEq] at e7
    obtain ⟨c8, j8, g8, k8, h1⟩ := execute_calls_cons E fuel _ _ _ _ h1
    try dsimp only at k8 h1
    obtain ⟨e8, rfl⟩ := execute_callee_notify E fuel _ _ _ _ _ _ k8
    obtain ⟨c9, j9, g9, k9, h1⟩ := execute_calls_cons E fuel _ _ _ _ h1
    try dsimp only at k9 h1
    have e9 := execute_callee_dimensions E fuel _ _ _ _ _ _ k9
    obtain ⟨c10, j10, g10, k10, h1⟩ := execute_calls_cons E fuel _ _ _ _ h1
    try dsimp only at k10 h1
    obtain ⟨e10, rfl⟩ := execute_callee_notify E fuel _ _ _ _ _ _ k10
    obtain ⟨c11, j11, g11, k11, h1⟩ := execute_calls_cons E fuel _ _ _ _ h1
    try dsimp only at k11 h1
    have e11 := k11
    simp only [flow_job_execute_callee, Option.some.injEq] at e11
    obtain ⟨c12, j12, g12, k12, h1⟩ := execute_calls_cons E fuel _ _ _ _ h1
    try dsimp only at k12 h1
    obtain ⟨e12, rfl⟩ := execute_callee_notify E fuel _ _ _ _ _ _ k12
    obtain ⟨c13, j13, g13, k13, h1⟩ := execute_calls_cons E fuel _ _ _ _ h1
    try dsimp only at k13 h1
    have e13 := execute_callee_dimensions E fuel _ _ _ _ _ _ k13
    obtain ⟨c14, j14, g14, k14, h1⟩ := execute_calls_cons E fuel _ _ _ _ h1
    try dsimp only at k14 h1
    obtain ⟨e14, rfl⟩ := execute_callee_notify E fuel _ _ _ _ _ _ k14
    obtain ⟨c15, j15, g15, k15, h1⟩ := execute_calls_cons E fuel _ _ _ _ h1
    try dsimp only at k15 h1
    have e15 := k15
    simp only [flow_job_execute_callee, Option.some.injEq] at e15
    simp only [flow_job_execute_calls, Option.some.injEq, Prod.mk.injEq, true_and] at h1
    subst h1
    obtain ⟨c16, j16, g16, k16, h⟩ := execute_calls_cons E fuel _ _ _ _ h
    try dsimp only at k16 h
    obtain ⟨e16, rfl⟩ := execute_callee_notify E fuel _ _ _ _ _ _ k16
    simp only [flow_job_execute_calls, Option.some.injEq, Prod.mk.injEq, true_and] at h
    subst h
    refine ⟨c1, j1, g1, c2, j2, c3, g3, c4, j4, c5, j5, g5, c6, j6, c7, j7, g7, c8, j8,
      c9, j9, g9, c10, j10, c11, j11, g11, c12, j12, c13, j13, g13, c14, j14, c15, j15, g15,
      c16, j16, e1, e2, e3, e4, e5, e6, e7, e8, e9, e10, e11, e12, e13, e14, e15, e16,
      rfl, rfl, rfl, rfl, ?_⟩
    simp

/-- C14, at a concrete input: the first iteration on two operation nodes joined by an
edge. -/
theorem flow_job_execute_pass_order_witness :
    ∃ s', flow_job_execute_pass Sample.externals 5
        (flow_job_execute_entry Sample.context (Sample.job 6 []) Sample.chain_graph) =
        some (true, s') ∧
      s'.passes = 1 ∧ s'.calls.length = 18 ∧
      ∃ c1 j1 g1 c2 j2,
        flow_job_populate_dimensions_where_certain Sample.externals Sample.context
          (Sample.job 6 []) Sample.chain_graph = (true, c1, j1, g1) ∧
        flow_job_notify_graph_changed Sample.externals c1 j1 (some g1) = (true, c2, j2) := by
  have hv : (flow_job_execute_pass Sample.externals 5
      (flow_job_execute_entry Sample.context (Sample.job 6 []) Sample.chain_graph)).map
      (fun x => x.1) = some true := by decide!
  cases hs : flow_job_execute_pass Sample.externals 5
      (flow_job_execute_entry Sample.context (Sample.job 6 []) Sample.chain_graph) with
  | none => rw [hs] at hv; cases hv
  | some x =>
    obtain ⟨ok, s'⟩ := x
    rw [hs] at hv
    simp only [Option.map_some', Option.some.injEq] at hv
    subst hv
    obtain ⟨c1, j1, g1, c2, j2, _, _, _, _, _, _, _, _, _, _, _, _, _, _, _, _, _, _, _, _, _,
      _, _, _, _, _, _, _, _, _, _, _, _, _, e1, e2, _, _, _, _, _, _, _, _, _, _, _, _, _, _,
      _, _, _, hp, hc⟩ :=
      flow_job_execute_pass_order Sample.externals 5 _ s' hs
    refine ⟨s', rfl, hp, ?_, c1, j1, g1, c2, j2, e1, e2⟩
    rw [hc]
    rfl

/-! ## Lemmas on what the phases keep -/

section Preserve

theorem state_le_refl (a : Nat) : flow_node_state_le a a := by
  unfold flow_node_state_le
  exact Nat.and_self a

theorem state_le_trans {a b c : Nat} (h1 : flow_node_state_le a b)
    (h2 : flow_node_state_le b c) : flow_node_state_le a c := by
  unfold flow_node_state_le at *
  rw [← h1, Nat.and_assoc, h2]

theorem state_le_or (a f : Nat) : flow_node_state_le a (a ||| f) := by
  unfold flow_node_state_le
  apply Nat.eq_of_testBit_eq
  intro k
  rw [Nat.testBit_and, Nat.testBit_or]
  cases a.testBit k <;> simp

/-- Setting a flag that is disjoint from `e` does not change the flags of `e`. -/
theorem or_and_disjoint (a f e : Nat) (h : f &&& e = 0) : (a ||| f) &&& e = a &&& e := by
  apply Nat.eq_of_testBit_eq
  intro k
  have hk : (f &&& e).testBit k = false := by rw [h]; exact Nat.zero_testBit k
  rw [Nat.testBit_and] at hk
  rw [Nat.testBit_and, Nat.testBit_or, Nat.testBit_and]
  cases hf : f.testBit k <;> cases he : e.testBit k <;> simp_all

theorem states_le_refl (g : flow_graph) : flow_graph_states_le g g :=
  ⟨Nat.le_refl _, fun _ _ => state_le_refl _⟩

theorem states_le_trans {g1 g2 g3 : flow_graph} (h1 : flow_graph_states_le g1 g2)
    (h2 : flow_graph_states_le g2 g3) : flow_graph_states_le g1 g3 :=
  ⟨Nat.le_trans h1.1 h2.1,
    fun i hi => state_le_trans (h1.2 i hi) (h2.2 i (Nat.lt_of_lt_of_le hi h1.1))⟩

theorem states_grow_refl (E : Externals) (g : flow_graph) : flow_graph_states_grow E g g :=
  ⟨states_le_refl g, fun _ hi h => ⟨hi, h⟩⟩

theorem states_grow_trans (E : Externals) {g1 g2 g3 : flow_graph}
    (h1 : flow_graph_states_grow E g1 g2) (h2 : flow_graph_states_grow E g2 g3) :
    flow_graph_states_grow E g1 g3 :=
  ⟨states_le_trans h1.1 h2.1,
    fun i hi h => h1.2 i (h2.2 i hi h).1 (h2.2 i hi h).2⟩

/-- The tick counter of a node is not part of its state. -/
theorem add_ticks_state (g : flow_graph) (node_id now later : Nat) (i : Nat) :
    ((flow_node_add_ticks g node_id now later).nodes i).state = (g.nodes i).state := by
  unfold flow_node_add_ticks
  by_cases h : i = node_id
  · subst h; simp
  · simp [Function.update, h]

/-- What a walk leaves satisfies every property of graphs that each call of the visitor
keeps, the calls being for nodes that satisfy `K`. -/
theorem walk_run_preserves {J D : Type} (visitor : flow_graph_visitor J D)
    (K : flow_graph → Nat → Prop) (P : flow_graph → Prop)
    (hv : ∀ c job g node_id quit skip d, K g node_id → P g →
      P (visitor c job g node_id quit skip d).graph)
    (job : J) (g : flow_graph) (d : D) (T : List (flow_c × J × flow_graph × Nat × Bool × D))
    (r : Bool × J × flow_graph × D) (h : flow_graph_walk_run visitor job g d T r)
    (hK : ∀ call ∈ T, K call.2.2.1 call.2.2.2.1)
    (hg : P g) : P r.2.2.1 := by
  induction h with
  | done job g d => exact hg
  | aborted job g d => exact hg
  | failed c job g node_id skip d _ =>
    exact hv _ _ _ _ _ _ _ (hK _ (List.mem_singleton.mpr rfl)) hg
  | quit c job g node_id skip d _ _ =>
    exact hv _ _ _ _ _ _ _ (hK _ (List.mem_singleton.mpr rfl)) hg
  | next c job g node_id skip d T r _ _ _ ih =>
    exact ih (fun call hc => hK call (List.mem_cons_of_mem _ hc))
      (hv _ _ _ _ _ _ _ (hK _ (List.mem_cons_self _ _)) hg)

/-- A walker that keeps the contract of the walkers visits nodes, whatever is asked of
them. -/
theorem walker_runs_visits
    (walk : {J D : Type} → flow_c → J → flow_graph → flow_graph_visitor J D → D →
      Bool × flow_c × J × flow_graph × D)
    (hw : flow_graph_walker_runs walk) : flow_graph_walker_visits (fun _ _ => True) walk := by
  intro J D c job g visitor d
  obtain ⟨T, hT⟩ := hw J D c job g visitor d
  exact ⟨T, hT, fun _ _ => trivial⟩

theorem add_ticks_next (g : flow_graph) (node_id now later : Nat) :
    (flow_node_add_ticks g node_id now later).next_node_id = g.next_node_id := rfl

end Preserve
section VisitorsKeep

/-- The dimension visitor changes the graph only through `flow_node_update_state`, the
node's `populate_dimensions` and the tick counter. -/
theorem visitor_dimensions_rel (E : Externals) (Q : flow_graph → flow_graph → Prop)
    (hrefl : ∀ g, Q g g) (htrans : ∀ g1 g2 g3, Q g1 g2 → Q g2 g3 → Q g1 g3)
    (hticks : ∀ g n a b, Q g (flow_node_add_ticks g n a b))
    (hupd : ∀ c g i, Q g (E.flow_node_update_state c g i).2.2)
    (hpop : ∀ c g i f, Q g (E.flow_node_populate_dimensions c g i f).2.2)
    (c : flow_c) (job : flow_job) (g : flow_graph) (node_id : Nat) (quit skip d : Bool) :
    Q g (node_visitor_dimensions E c job g node_id quit skip d).graph := by
  unfold node_visitor_dimensions
  simp only
  split
  · exact hrefl g
  · split
    · have hu := hupd c g node_id
      cases hx : E.flow_node_update_state c g node_id with
      | mk uok urest =>
        obtain ⟨c1, g1⟩ := urest
        rw [hx] at hu
        simp only at hu
        have hp : Q g1 (node_visitor_dimensions_populated E c1 g1 node_id d).2.2 := by
          simp only [node_visitor_dimensions_populated]
          split
          · unfold flow_job_populate_dimensions_for_node
            have hp := hpop c1 g1 node_id d
            cases hy : E.flow_node_populate_dimensions c1 g1 node_id d with
            | mk pok prest =>
              obtain ⟨c2, g2⟩ := prest
              rw [hy] at hp
              simp only at hp
              cases pok with
              | false => exact hp
              | true => exact htrans _ _ _ hp (hticks _ _ _ _)
          · exact hrefl g1
        simp only [node_visitor_dimensions_populated] at hp
        cases uok with
        | false => exact hu
        | true =>
          simp only
          cases hz : (if (g1.nodes node_id).state &&& E.flow_node_state_InputDimensionsKnown > 0
              then flow_job_populate_dimensions_for_node E c1 g1 node_id d
              else (true, c1, g1)) with
          | mk pok prest =>
            obtain ⟨c2, g2⟩ := prest
            rw [hz] at hp
            simp only at hp
            have hg2 := htrans _ _ _ hu hp
            cases pok with
            | false => exact hg2
            | true =>
              simp only
              split
              · exact hg2
              · exact hg2
    · exact hrefl g

/-- The pre-optimize flatten visitor changes the graph only through
`flow_node_update_state` and the node's rewrite. -/
theorem visitor_flatten_rel (E : Externals) (Q : flow_graph → flow_graph → Prop)
    (htrans : ∀ g1 g2 g3, Q g1 g2 → Q g2 g3 → Q g1 g3)
    (hupd : ∀ c g i, Q g (E.flow_node_update_state c g i).2.2)
    (hpre : ∀ c g i, Q g (E.flow_node_pre_optimize_flatten c g i).2.2)
    {J : Type} (c : flow_c) (job : J) (g : flow_graph) (node_id : Nat) (quit skip d : Bool) :
    Q g (node_visitor_flatten E c job g node_id quit skip d).graph := by
  unfold node_visitor_flatten
  have hu := hupd c g node_id
  cases hx : E.flow_node_update_state c g node_id with
  | mk uok urest =>
    obtain ⟨c1, g1⟩ := urest
    rw [hx] at hu
    simp only at hu
    cases uok with
    | false => exact hu
    | true =>
      simp only
      split
      · have hp := hpre c1 g1 node_id
        cases hy : E.flow_node_pre_optimize_flatten c1 g1 node_id with
        | mk pok prest =>
          obtain ⟨c2, g2⟩ := prest
          rw [hy] at hp
          simp only at hp
          cases pok with
          | false => exact htrans _ _ _ hu hp
          | true => exact htrans _ _ _ hu hp
      · split
        · exact hu
        · exact hu

/-- The post-optimize flatten visitor changes the graph only through
`flow_node_update_state` and the node's rewrite. -/
theorem visitor_post_flatten_rel (E : Externals) (Q : flow_graph → flow_graph → Prop)
    (htrans : ∀ g1 g2 g3, Q g1 g2 → Q g2 g3 → Q g1 g3)
    (hupd : ∀ c g i, Q g (E.flow_node_update_state c g i).2.2)
    (hpost : ∀ c g i, Q g (E.flow_node_post_optimize_flatten c g i).2.2)
    {J : Type} (c : flow_c) (job : J) (g : flow_graph) (node_id : Nat) (quit skip d : Bool) :
    Q g (node_visitor_post_optimize_flatten E c job g node_id quit skip d).graph := by
  unfold node_visitor_post_optimize_flatten
  have hu := hupd c g node_id
  cases hx : E.flow_node_update_state c g node_id with
  | mk uok urest =>
    obtain ⟨c1, g1⟩ := urest
    rw [hx] at hu
    simp only at hu
    cases uok with
    | false => exact hu
    | true =>
      simp only
      split
      · have hp := hpost c1 g1 node_id
        cases hy : E.flow_node_post_optimize_flatten c1 g1 node_id with
        | mk pok prest =>
          obtain ⟨c2, g2⟩ := prest
          rw [hy] at hp
          simp only at hp
          cases pok with
          | false => exact htrans _ _ _ hu hp
          | true =>
            simp only
            split
            · exact htrans _ _ _ hu hp
            · exact htrans _ _ _ hu hp
      · split
        · exact hu
        · exact hu

/-- The state of node `i` after a flag was set on node `node_id`. -/
theorem set_state_at (g : flow_graph) (node_id flag i : Nat) :
    (({ g with nodes := (Function.update g.nodes node_id
        { g.nodes node_id with state := (g.nodes node_id).state ||| flag }) } :
          flow_graph).nodes i).state =
      if i = node_id then (g.nodes node_id).state ||| flag else (g.nodes i).state := by
  by_cases h : i = node_id
  · subst h; simp
  · simp [Function.update, h]

/-- The optimizer's own write, the promotion to Optimized, clears no flag. -/
theorem visitor_optimize_le (E : Externals) {J : Type} (c : flow_c) (job : J)
    (g : flow_graph) (node_id : Nat) (quit skip d : Bool) :
    flow_graph_states_le g (node_visitor_optimize E c job g node_id quit skip d).graph := by
  unfold node_visitor_optimize
  simp only
  split
  · refine ⟨Nat.le_refl _, fun i _ => ?_⟩
    simp only
    rw [set_state_at]
    split
    · rename_i h; subst h; exact state_le_or _ _
    · exact state_le_refl _
  · exact states_le_refl g

/-- The graph `node_visitor_execute` leaves: that of `flow_node_update_state` when the node
is not run, that of the node's execution when it fails, and otherwise that of the node's
execution with Executed set on the visited node (and its tick counter advanced). -/
theorem visitor_execute_graph (E : Externals) {D : Type} (c : flow_c) (job : flow_job)
    (g : flow_graph) (node_id : Nat) (quit skip : Bool) (d : D) :
    (¬ ((E.flow_node_update_state c g node_id).1 = true ∧
        flow_job_node_is_executed E (E.flow_node_update_state c g node_id).2.2 node_id = false ∧
        ((E.flow_node_update_state c g node_id).2.2.nodes node_id).state =
          E.flow_node_state_ReadyForExecution) →
      (node_visitor_execute E c job g node_id quit skip d).graph =
        (E.flow_node_update_state c g node_id).2.2) ∧
    ((E.flow_node_update_state c g node_id).1 = true →
      flow_job_node_is_executed E (E.flow_node_update_state c g node_id).2.2 node_id = false →
      ((E.flow_node_update_state c g node_id).2.2.nodes node_id).state =
        E.flow_node_state_ReadyForExecution →
      ((E.flow_node_execute (E.flow_node_update_state c g node_id).2.1 job
          (E.flow_node_update_state c g node_id).2.2 node_id).1 = false →
        (node_visitor_execute E c job g node_id quit skip d).graph =
          (E.flow_node_execute (E.flow_node_update_state c g node_id).2.1 job
            (E.flow_node_update_state c g node_id).2.2 node_id).2.2.2) ∧
      ((E.flow_node_execute (E.flow_node_update_state c g node_id).2.1 job
          (E.flow_node_update_state c g node_id).2.2 node_id).1 = true →
        (node_visitor_execute E c job g node_id quit skip d).graph.next_node_id =
          (E.flow_node_execute (E.flow_node_update_state c g node_id).2.1 job
            (E.flow_node_update_state c g node_id).2.2 node_id).2.2.2.next_node_id ∧
        ∀ i, ((node_visitor_execute E c job g node_id quit skip d).graph.nodes i).state =
          if i = node_id then
            ((E.flow_node_execute (E.flow_node_update_state c g node_id).2.1 job
              (E.flow_node_update_state c g node_id).2.2 node_id).2.2.2.nodes node_id).state |||
              E.flow_node_state_Executed
          else
            ((E.flow_node_execute (E.flow_node_update_state c g node_id).2.1 job
              (E.flow_node_update_state c g node_id).2.2 node_id).2.2.2.nodes i).state)) := by
  unfold node_visitor_execute
  cases hx : E.flow_node_update_state c g node_id with
  | mk uok urest =>
    obtain ⟨c1, g1⟩ := urest
    cases uok with
    | false => simp
    | true =>
      simp only [true_and, forall_const]
      by_cases hcond : flow_job_node_is_executed E g1 node_id = false ∧
          (g1.nodes node_id).state = E.flow_node_state_ReadyForExecution
      · rw [if_pos hcond]
        refine ⟨fun h => absurd hcond h, fun _ _ => ?_⟩
        cases hy : E.flow_node_execute c1 job g1 node_id with
        | mk xok xrest =>
          obtain ⟨c2, job2, g2⟩ := xrest
          cases xok with
          | false => simp
          | true =>
            simp only [Bool.true_eq_false, false_implies, true_and, forall_const]
            refine ⟨by split <;> rfl, ?_⟩
            intro i
            have h4 := (set_state_at (flow_node_add_ticks g2 node_id
              (flow_get_high_precision_ticks c1) (flow_get_high_precision_ticks c2)) node_id
              E.flow_node_state_Executed i).trans
                (by rw [add_ticks_state, add_ticks_state] :
                  _ = if i = node_id then (g2.nodes node_id).state ||| E.flow_node_state_Executed
                    else (g2.nodes i).state)
            split
            · exact h4
            · exact h4
      · rw [if_neg hcond]
        refine ⟨fun _ => ?_, fun h1 h2 => absurd ⟨h1, h2⟩ hcond⟩
        simp only
        split <;> rfl

/-- The executor's own write, the setting of Executed, clears no flag: the visitor changes
the graph through `flow_node_update_state`, the node's execution, the tick counter and that
write. -/
theorem visitor_execute_le (E : Externals) {D : Type}
    (hupd : ∀ c g i, flow_graph_states_le g (E.flow_node_update_state c g i).2.2)
    (hexec : ∀ c job g i, flow_graph_states_le g (E.flow_node_execute c job g i).2.2.2)
    (c : flow_c) (job : flow_job) (g : flow_graph) (node_id : Nat) (quit skip : Bool) (d : D) :
    flow_graph_states_le g (node_visitor_execute E c job g node_id quit skip d).graph := by
  obtain ⟨h1, h2⟩ := visitor_execute_graph E c job g node_id quit skip d
  have hu := hupd c g node_id
  have he := hexec (E.flow_node_update_state c g node_id).2.1 job
    (E.flow_node_update_state c g node_id).2.2 node_id
  by_cases hcond : (E.flow_node_update_state c g node_id).1 = true ∧
      flow_job_node_is_executed E (E.flow_node_update_state c g node_id).2.2 node_id = false ∧
      ((E.flow_node_update_state c g node_id).2.2.nodes node_id).state =
        E.flow_node_state_ReadyForExecution
  · obtain ⟨h3, h4⟩ := h2 hcond.1 hcond.2.1 hcond.2.2
    cases hx : (E.flow_node_execute (E.flow_node_update_state c g node_id).2.1 job
        (E.flow_node_update_state c g node_id).2.2 node_id).1 with
    | false =>
      rw [h3 hx]
      exact states_le_trans hu he
    | true =>
      obtain ⟨hn, hs⟩ := h4 hx
      have hue := states_le_trans hu he
      refine ⟨by rw [hn]; exact hue.1, fun i hi => ?_⟩
      unfold flow_node_state_le
      rw [hs i]
      refine state_le_trans (hue.2 i hi) ?_
      split
      · rename_i h; subst h; exact state_le_or _ _
      · exact state_le_refl _
  · rw [h1 hcond]
    exact hu

end VisitorsKeep
section PhasesKeep

/-- A walk of a walker that keeps its contract leaves a graph with every property that
each call of the visitor keeps. -/
theorem walker_preserves
    (walk : {J D : Type} → flow_c → J → flow_graph → flow_graph_visitor J D → D →
      Bool × flow_c × J × flow_graph × D)
    (K : flow_graph → Nat → Prop) (hw : flow_graph_walker_visits K walk) {J D : Type}
    (visitor : flow_graph_visitor J D) (P : flow_graph → Prop)
    (hv : ∀ c job g node_id quit skip d, K g node_id → P g →
      P (visitor c job g node_id quit skip d).graph)
    (c : flow_c) (job : J) (g : flow_graph) (d : D) (hg : P g) :
    P (walk c job g visitor d).2.2.2.1 := by
  obtain ⟨T, hT, hK⟩ := hw J D c job g visitor d
  exact walk_run_preserves visitor K P hv job g d T _ hT hK hg

theorem dimensions_where_certain_preserves (E : Externals) (K : flow_graph → Nat → Prop)
    (P : flow_graph → Prop) (hw : flow_graph_walker_visits K E.flow_graph_walk_dependency_wise)
    (hv : ∀ c job g node_id quit skip d, K g node_id → P g →
      P (node_visitor_dimensions E c job g node_id quit skip d).graph)
    (c : flow_c) (job : flow_job) (g : flow_graph) (hg : P g) :
    P (flow_job_populate_dimensions_where_certain E c job g).2.2.2 := by
  have h := walker_preserves E.flow_graph_walk_dependency_wise K hw (node_visitor_dimensions E) P hv
    c job g false hg
  beta_reduce at h
  unfold flow_job_populate_dimensions_where_certain
  split
  · rename_i hx; rw [hx] at h; exact h
  · rename_i hx; rw [hx] at h; exact h

theorem execute_where_certain_preserves (E : Externals) (K : flow_graph → Nat → Prop)
    (P : flow_graph → Prop) (hw : flow_graph_walker_visits K E.flow_graph_walk_dependency_wise)
    (hv : ∀ c job g node_id quit skip (d : Unit), K g node_id → P g →
      P (node_visitor_execute E c job g node_id quit skip d).graph)
    (c : flow_c) (job : flow_job) (g : flow_graph) (hg : P g) :
    ∃ g', (flow_job_execute_where_certain E c job (some g)).2.2.2 = some g' ∧ P g' := by
  have h := walker_preserves E.flow_graph_walk_dependency_wise K hw (node_visitor_execute E) P hv
    c job g () hg
  beta_reduce at h
  unfold flow_job_execute_where_certain
  simp only
  split
  · rename_i hx; rw [hx] at h; exact ⟨_, rfl, h⟩
  · rename_i hx; rw [hx] at h; exact ⟨_, rfl, h⟩

theorem pre_optimize_flatten_walks_preserves (E : Externals) (K : flow_graph → Nat → Prop)
    (P : flow_graph → Prop) (hw : flow_graph_walker_visits K E.flow_graph_walk_dependency_wise)
    (hv : ∀ c (job : Unit) g node_id quit skip d, K g node_id → P g →
      P (node_visitor_flatten E c job g node_id quit skip d).graph) :
    ∀ (fuel : Nat) (c : flow_c) (g : flow_graph) (r : Bool × flow_c × flow_graph), P g →
      flow_graph_pre_optimize_flatten_walks E fuel c g = some r → P r.2.2 := by
  intro fuel
  induction fuel with
  | zero => intro c g r _ h; simp [flow_graph_pre_optimize_flatten_walks] at h
  | succ n ih =>
    intro c g r hg h
    have hwalk := walker_preserves E.flow_graph_walk_dependency_wise K hw (node_visitor_flatten E) P
      hv c () g false hg
    beta_reduce at hwalk
    unfold flow_graph_pre_optimize_flatten_walks at h
    split at h
    · rename_i hx
      rw [hx] at hwalk
      simp only [Option.some.injEq] at h
      rw [← h]; exact hwalk
    · rename_i hx
      rw [hx] at hwalk
      split at h
      · exact ih _ _ _ hwalk h
      · simp only [Option.some.injEq] at h
        rw [← h]; exact hwalk

theorem post_optimize_flatten_walks_preserves (E : Externals) (K : flow_graph → Nat → Prop)
    (P : flow_graph → Prop) (hw : flow_graph_walker_visits K E.flow_graph_walk)
    (hv : ∀ c (job : flow_job) g node_id quit skip d, K g node_id → P g →
      P (node_visitor_post_optimize_flatten E c job g node_id quit skip d).graph) :
    ∀ (fuel : Nat) (c : flow_c) (job : flow_job) (g : flow_graph)
      (r : Bool × flow_c × flow_job × flow_graph), P g →
      flow_graph_post_optimize_flatten_walks E fuel c job g = some r → P r.2.2.2 := by
  intro fuel
  induction fuel with
  | zero => intro c job g r _ h; simp [flow_graph_post_optimize_flatten_walks] at h
  | succ n ih =>
    intro c job g r hg h
    have hwalk := walker_preserves E.flow_graph_walk K hw (node_visitor_post_optimize_flatten E) P
      hv c job g false hg
    beta_reduce at hwalk
    unfold flow_graph_post_optimize_flatten_walks at h
    split at h
    · rename_i hx
      rw [hx] at hwalk
      simp only [Option.some.injEq] at h
      rw [← h]; exact hwalk
    · rename_i hx
      rw [hx] at hwalk
      split at h
      · exact ih _ _ _ _ hwalk h
      · simp only [Option.some.injEq] at h
        rw [← h]; exact hwalk

theorem optimize_walks_preserves (E : Externals) (K : flow_graph → Nat → Prop)
    (P : flow_graph → Prop) (hw : flow_graph_walker_visits K E.flow_graph_walk)
    (hv : ∀ c (job : flow_job) g node_id quit skip d, K g node_id → P g →
      P (node_visitor_optimize E c job g node_id quit skip d).graph) :
    ∀ (fuel : Nat) (c : flow_c) (job : flow_job) (g : flow_graph)
      (r : Bool × flow_c × flow_job × flow_graph), P g →
      flow_graph_optimize_walks E fuel c job g = some r → P r.2.2.2 := by
  intro fuel
  induction fuel with
  | zero => intro c job g r _ h; simp [flow_graph_optimize_walks] at h
  | succ n ih =>
    intro c job g r hg h
    have hwalk := walker_preserves E.flow_graph_walk K hw (node_visitor_optimize E) P
      hv c job g false hg
    beta_reduce at hwalk
    unfold flow_graph_optimize_walks at h
    split at h
    · rename_i hx
      rw [hx] at hwalk
      simp only [Option.some.injEq] at h
      rw [← h]; exact hwalk
    · rename_i hx
      rw [hx] at hwalk
      split at h
      · exact ih _ _ _ _ hwalk h
      · simp only [Option.some.injEq] at h
        rw [← h]; exact hwalk

end PhasesKeep
section ExecuteKeeps

/-- The linker leaves the node table as it was. -/
theorem link_codecs_nodes (E : Externals) (c : flow_c) (job : flow_job) (g : flow_graph) :
    ∃ g', (flow_job_link_codecs E c job (some (some g))).2.2.2 = some g' ∧
      g'.nodes = g.nodes ∧ g'.next_node_id = g.next_node_id := by
  unfold flow_job_link_codecs
  simp only
  split
  · exact ⟨g, rfl, rfl, rfl⟩
  · exact ⟨_, rfl, (link_fold _ _ _ _).1, (link_fold _ _ _ _).2.1⟩

/-- Every callee of `flow_job_execute` leaves a graph with each property of node tables
that every call of the five visitors keeps. -/
theorem execute_callee_preserves (E : Externals) (K : flow_graph → Nat → Prop)
    (P : flow_graph → Prop)
    (hnodes : ∀ g g', P g → g'.nodes = g.nodes → g'.next_node_id = g.next_node_id → P g')
    (hw : flow_graph_walker_visits K E.flow_graph_walk)
    (hwd : flow_graph_walker_visits K E.flow_graph_walk_dependency_wise)
    (hdim : ∀ c job g node_id quit skip d, K g node_id → P g →
      P (node_visitor_dimensions E c job g node_id quit skip d).graph)
    (hpre : ∀ c (job : Unit) g node_id quit skip d, K g node_id → P g →
      P (node_visitor_flatten E c job g node_id quit skip d).graph)
    (hopt : ∀ c (job : flow_job) g node_id quit skip d, K g node_id → P g →
      P (node_visitor_optimize E c job g node_id quit skip d).graph)
    (hpost : ∀ c (job : flow_job) g node_id quit skip d, K g node_id → P g →
      P (node_visitor_post_optimize_flatten E c job g node_id quit skip d).graph)
    (hexec : ∀ c job g node_id quit skip (d : Unit), K g node_id → P g →
      P (node_visitor_execute E c job g node_id quit skip d).graph)
    (fuel : Nat) (call : flow_call) (c : flow_c) (job : flow_job) (g : flow_graph)
    (r : Bool × flow_c × flow_job × Option flow_graph) (hg : P g)
    (h : flow_job_execute_callee E fuel call c job g = some r) :
    ∀ g', r.2.2.2 = some g' → P g' := by
  intro g' hg'
  cases call with
  | notify_graph_changed =>
    simp only [flow_job_execute_callee, Option.some.injEq] at h
    rw [← h] at hg'
    simp only [Option.some.injEq] at hg'
    rw [← hg']; exact hg
  | link_codecs =>
    simp only [flow_job_execute_callee, Option.some.injEq] at h
    obtain ⟨g2, h2, hn, hnn⟩ := link_codecs_nodes E c job g
    rw [h, hg'] at h2
    simp only [Option.some.injEq] at h2
    rw [h2]; exact hnodes _ _ hg hn hnn
  | populate_dimensions_where_certain =>
    simp only [flow_job_execute_callee, Option.some.injEq] at h
    have hd := dimensions_where_certain_preserves E K P hwd hdim c job g hg
    rw [← h] at hg'
    simp only [Option.some.injEq] at hg'
    rw [← hg']; exact hd
  | pre_optimize_flatten =>
    simp only [flow_job_execute_callee, flow_graph_pre_optimize_flatten] at h
    cases hx : flow_graph_pre_optimize_flatten_walks E fuel c g with
    | none => rw [hx] at h; simp at h
    | some x =>
      rw [hx] at h
      simp only [Option.some.injEq] at h
      have hp := pre_optimize_flatten_walks_preserves E K P hwd hpre fuel c g x hg hx
      rw [← h] at hg'
      simp only [Option.some.injEq] at hg'
      rw [← hg']; exact hp
  | optimize =>
    simp only [flow_job_execute_callee, flow_graph_optimize] at h
    cases hx : flow_graph_optimize_walks E fuel c job g with
    | none => rw [hx] at h; simp at h
    | some x =>
      rw [hx] at h
      simp only [Option.some.injEq] at h
      have hp := optimize_walks_preserves E K P hw hopt fuel c job g x hg hx
      rw [← h] at hg'
      simp only [Option.some.injEq] at hg'
      rw [← hg']; exact hp
  | post_optimize_flatten =>
    simp only [flow_job_execute_callee, flow_graph_post_optimize_flatten] at h
    cases hx : flow_graph_post_optimize_flatten_walks E fuel c job g with
    | none => rw [hx] at h; simp at h
    | some x =>
      rw [hx] at h
      simp only [Option.some.injEq] at h
      have hp := post_optimize_flatten_walks_preserves E K P hw hpost fuel c job g x hg hx
      rw [← h] at hg'
      simp only [Option.some.injEq] at hg'
      rw [← hg']; exact hp
  | execute_where_certain =>
    simp only [flow_job_execute_callee, Option.some.injEq] at h
    obtain ⟨g2, h2, hp⟩ := execute_where_certain_preserves E K P hwd hexec c job g hg
    rw [h, hg'] at h2
    simp only [Option.some.injEq] at h2
    rw [h2]; exact hp
  | render_graph_to_png =>
    simp only [flow_job_execute_callee, Option.some.injEq] at h
    rw [← h] at hg'
    simp only [Option.some.injEq] at hg'
    rw [← hg']; exact hg

/-- A run of guarded calls keeps such a property. -/
theorem execute_calls_preserves (E : Externals) (P : flow_graph → Prop) (fuel : Nat)
    (hcallee : ∀ call c job g r, P g → flow_job_execute_callee E fuel call c job g = some r →
      ∀ g', r.2.2.2 = some g' → P g') :
    ∀ (calls : List flow_call) (s : flow_job_execute_state)
      (r : Bool × flow_job_execute_state), P s.graph →
      flow_job_execute_calls E fuel calls s = some r → P r.2.graph := by
  intro calls
  induction calls with
  | nil =>
    intro s r hg h
    simp only [flow_job_execute_calls, Option.some.injEq] at h
    rw [← h]; exact hg
  | cons call rest ih =>
    intro s r hg h
    unfold flow_job_execute_calls at h
    split at h
    · simp at h
    · simp at h
    · rename_i c1 job1 g1 hc
      simp only [Option.some.injEq] at h
      rw [← h]
      exact hcallee _ _ _ _ _ hg hc g1 rfl
    · rename_i c1 job1 g1 hc
      exact ih _ _ (hcallee _ _ _ _ _ hg hc g1 rfl) h

/-- An iteration of the loop keeps such a property. -/
theorem execute_pass_preserves (E : Externals) (P : flow_graph → Prop) (fuel : Nat)
    (hcallee : ∀ call c job g r, P g → flow_job_execute_callee E fuel call c job g = some r →
      ∀ g', r.2.2.2 = some g' → P g')
    (s : flow_job_execute_state) (r : Bool × flow_job_execute_state) (hg : P s.graph)
    (h : flow_job_execute_pass E fuel s = some r) : P r.2.graph := by
  unfold flow_job_execute_pass at h
  split at h
  · simp at h
  · rename_i s1 h1
    simp only [Option.some.injEq] at h
    rw [← h]
    exact execute_calls_preserves E P fuel hcallee _ _ _ hg h1
  · rename_i s1 h1
    have hp := execute_calls_preserves E P fuel hcallee _ _ _ hg h1
    exact execute_calls_preserves E P fuel hcallee _ { s1 with passes := s1.passes + 1 } _ hp h

/-- The loop keeps such a property. -/
theorem execute_loop_preserves (E : Externals) (P : flow_graph → Prop) (fuel : Nat)
    (hcallee : ∀ call c job g r, P g → flow_job_execute_callee E fuel call c job g = some r →
      ∀ g', r.2.2.2 = some g' → P g') :
    ∀ (n : Nat) (s : flow_job_execute_state) (r : Bool × flow_job_execute_state),
      P s.graph → flow_job_execute_loop E fuel n s = some r → P r.2.graph := by
  intro n
  induction n with
  | zero =>
    intro s r hg h
    unfold flow_job_execute_loop at h
    split at h
    · simp only [Option.some.injEq] at h
      rw [← h]; exact hg
    · split at h
      · simp only [Option.some.injEq] at h
        rw [← h]; exact hg
      · simp at h
  | succ m ih =>
    intro s r hg h
    unfold flow_job_execute_loop at h
    split at h
    · simp only [Option.some.injEq] at h
      rw [← h]; exact hg
    · split at h
      · simp only [Option.some.injEq] at h
        rw [← h]; exact hg
      · simp only at h
        split at h
        · simp at h
        · rename_i s1 h1
          simp only [Option.some.injEq] at h
          rw [← h]
          exact execute_pass_preserves E P fuel hcallee _ _ hg h1
        · rename_i s1 h1
          exact ih _ _ (execute_pass_preserves E P fuel hcallee _ _ hg h1) h

/-- What `flow_job_execute` leaves at the handle has every property of node tables that the
graph had at entry and that each call of the five visitors keeps. -/
theorem execute_preserves (E : Externals) (K : flow_graph → Nat → Prop)
    (P : flow_graph → Prop)
    (hnodes : ∀ g g', P g → g'.nodes = g.nodes → g'.next_node_id = g.next_node_id → P g')
    (hw : flow_graph_walker_visits K E.flow_graph_walk)
    (hwd : flow_graph_walker_visits K E.flow_graph_walk_dependency_wise)
    (hdim : ∀ c job g node_id quit skip d, K g node_id → P g →
      P (node_visitor_dimensions E c job g node_id quit skip d).graph)
    (hpre : ∀ c (job : Unit) g node_id quit skip d, K g node_id → P g →
      P (node_visitor_flatten E c job g node_id quit skip d).graph)
    (hopt : ∀ c (job : flow_job) g node_id quit skip d, K g node_id → P g →
      P (node_visitor_optimize E c job g node_id quit skip d).graph)
    (hpost : ∀ c (job : flow_job) g node_id quit skip d, K g node_id → P g →
      P (node_visitor_post_optimize_flatten E c job g node_id quit skip d).graph)
    (hexec : ∀ c job g node_id quit skip (d : Unit), K g node_id → P g →
      P (node_visitor_execute E c job g node_id quit skip d).graph)
    (fuel : Nat) (c : flow_c) (job : flow_job) (g : flow_graph) (r : flow_job_execute_result)
    (hg : P g) (h : flow_job_execute E fuel c job (some g) = some r) :
    ∃ g', r.graph = some g' ∧ P g' := by
  have hcallee := execute_callee_preserves E K P hnodes hw hwd hdim hpre hopt hpost hexec fuel
  unfold flow_job_execute at h
  split at h
  · simp only [Option.some.injEq] at h
    rw [← h]; exact ⟨g, rfl, hg⟩
  · rename_i c1 job1 hn
    obtain ⟨g2, h2, hn2, hnn2⟩ := link_codecs_nodes E c1 job1 g
    have hg2 := hnodes _ _ hg hn2 hnn2
    split at h
    · rename_i hl
      rw [hl] at h2
      simp only [Option.some.injEq] at h
      rw [← h]; exact ⟨g2, h2, hg2⟩
    · simp at h
    · rename_i c2 job2 g3 hl
      rw [hl] at h2
      simp only [Option.some.injEq] at h2
      subst h2
      split at h
      · simp at h
      · rename_i s hs
        simp only [Option.some.injEq] at h
        rw [← h]
        exact ⟨_, rfl, execute_loop_preserves E P fuel hcallee _ _ _ hg2 hs⟩
      · rename_i s hs
        simp only [Option.some.injEq] at h
        rw [← h]
        exact ⟨_, (execute_render_frame E s).1,
          execute_loop_preserves E P fuel hcallee _ _ _ hg2 hs⟩

end ExecuteKeeps
section SampleKeeps

/-- The sample walker keeps the contract of the walkers, and visits nodes of the graph. -/
theorem walk_by_id_run {J D : Type} (visitor : flow_graph_visitor J D) :
    ∀ (fuel i : Nat) (c : flow_c) (job : J) (g : flow_graph) (d : D),
      ∃ T, flow_graph_walk_run visitor job g d T
          ((Sample.walk_by_id visitor fuel i c job g d).1,
            (Sample.walk_by_id visitor fuel i c job g d).2.2) ∧
        ∀ call ∈ T, call.2.2.2.1 < call.2.2.1.next_node_id := by
  intro fuel
  induction fuel with
  | zero =>
    intro i c job g d
    exact ⟨[], flow_graph_walk_run.done job g d, fun _ h => by cases h⟩
  | succ n ih =>
    intro i c job g d
    unfold Sample.walk_by_id
    split
    · exact ⟨[], flow_graph_walk_run.done job g d, fun _ h => by cases h⟩
    · rename_i hi
      have hi' : i < g.next_node_id := Nat.lt_of_not_le hi
      split
      · exact ih _ _ _ _ _
      · simp only
        split
        · rename_i hok
          refine ⟨_, flow_graph_walk_run.failed c job g i false d hok, fun call hc => ?_⟩
          rw [List.mem_singleton.mp hc]
          exact hi'
        · rename_i hok
          have hok' : (visitor c job g i false false d).ok = true := by
            cases h : (visitor c job g i false false d).ok
            · exact absurd h hok
            · rfl
          split
          · rename_i hq
            refine ⟨_, flow_graph_walk_run.quit c job g i false d hok' hq, fun call hc => ?_⟩
            rw [List.mem_singleton.mp hc]
            exact hi'
          · rename_i hq
            have hq' : (visitor c job g i false false d).quit = false := by
              cases h : (visitor c job g i false false d).quit
              · rfl
              · exact absurd h hq
            obtain ⟨T, hT, hK⟩ := ih (i + 1) (visitor c job g i false false d).c
              (visitor c job g i false false d).job (visitor c job g i false false d).graph
              (visitor c job g i false false d).custom_data
            refine ⟨_, flow_graph_walk_run.next c job g i false d T _ hok' hq' hT,
              fun call hc => ?_⟩
            rcases List.mem_cons.mp hc with h | h
            · rw [h]; exact hi'
            · exact hK call h

theorem sample_walk_runs : flow_graph_walker_runs Sample.externals.flow_graph_walk :=
  fun _ _ c job g visitor d =>
    (walk_by_id_run visitor g.next_node_id 0 c job g d).imp fun _ h => h.1

theorem sample_walk_dependency_wise_runs :
    flow_graph_walker_runs Sample.externals.flow_graph_walk_dependency_wise :=
  fun _ _ c job g visitor d =>
    (walk_by_id_run visitor g.next_node_id 0 c job g d).imp fun _ h => h.1

theorem sample_walk_visits_table :
    flow_graph_walker_visits_table Sample.expanding_externals.flow_graph_walk :=
  fun _ _ c job g visitor d => walk_by_id_run visitor g.next_node_id 0 c job g d

theorem sample_walk_dependency_wise_visits_table :
    flow_graph_walker_visits_table Sample.expanding_externals.flow_graph_walk_dependency_wise :=
  fun _ _ c job g visitor d => walk_by_id_run visitor g.next_node_id 0 c job g d

theorem sample_set_flags_state (g : flow_graph) (node_id flags i : Nat) :
    ((Sample.set_flags g node_id flags).nodes i).state =
      if i = node_id then (g.nodes node_id).state ||| flags else (g.nodes i).state :=
  set_state_at g node_id flags i

theorem sample_set_flags_le (g : flow_graph) (node_id flags : Nat) :
    flow_graph_states_le g (Sample.set_flags g node_id flags) := by
  refine ⟨Nat.le_refl _, fun i _ => ?_⟩
  rw [sample_set_flags_state]
  split
  · rename_i h; subst h; exact state_le_or _ _
  · exact state_le_refl _

/-- Setting flags other than Executed (32) does not make a node executed. -/
theorem sample_set_flags_grow (g : flow_graph) (node_id flags : Nat) (h : flags &&& 32 = 0) :
    flow_graph_states_grow Sample.expanding_externals g (Sample.set_flags g node_id flags) := by
  refine ⟨sample_set_flags_le g node_id flags, fun i hi => ?_⟩
  unfold flow_job_node_is_executed
  rw [sample_set_flags_state]
  split
  · rename_i hx; subst hx
    show decide (((g.nodes i).state ||| flags) &&& 32 > 0) = true → _
    rw [or_and_disjoint _ _ _ h]
    exact fun hx => ⟨hi, hx⟩
  · exact fun hx => ⟨hi, hx⟩

theorem sample_update_state_grow (c : flow_c) (g : flow_graph) (i : Nat) :
    flow_graph_states_grow Sample.expanding_externals g (Sample.update_state c g i).2.2 := by
  unfold Sample.update_state
  simp only
  apply sample_set_flags_grow
  split <;> split <;> rfl

theorem sample_populate_dimensions_state (c : flow_c) (g : flow_graph) (i : Nat) (f : Bool)
    (j : Nat) :
    ((Sample.populate_dimensions c g i f).2.2.nodes j).state = (g.nodes j).state := by
  unfold Sample.populate_dimensions
  simp only
  split
  · rfl
  · by_cases h : j = i
    · subst h; simp
    · simp [Function.update, h]

theorem sample_populate_dimensions_next (c : flow_c) (g : flow_graph) (i : Nat) (f : Bool) :
    (Sample.populate_dimensions c g i f).2.2.next_node_id = g.next_node_id := by
  unfold Sample.populate_dimensions
  simp only
  split <;> rfl

theorem sample_populate_dimensions_grow (c : flow_c) (g : flow_graph) (i : Nat) (f : Bool) :
    flow_graph_states_grow Sample.expanding_externals g
      (Sample.populate_dimensions c g i f).2.2 := by
  refine ⟨⟨by rw [sample_populate_dimensions_next], fun j _ => ?_⟩, fun j hj => ?_⟩
  · unfold flow_node_state_le
    rw [sample_populate_dimensions_state]
    exact Nat.and_self _
  · unfold flow_job_node_is_executed
    rw [sample_populate_dimensions_state, sample_populate_dimensions_next] at *
    exact fun h => ⟨hj, h⟩

/-- The rewrite that creates a node clears no flag of the nodes there were, and the node
it creates is not executed. -/
theorem sample_expand_grow (c : flow_c) (g : flow_graph) (i : Nat) :
    flow_graph_states_grow Sample.expanding_externals g (Sample.expand c g i).2.2 := by
  unfold Sample.expand
  simp only
  split
  · have hstate : ∀ j, j < g.next_node_id →
        ((Function.update
          (Function.update g.nodes i
            { type := flow_ntype.Null, state := (g.nodes i).state,
              result_width := (g.nodes i).result_width,
              result_height := (g.nodes i).result_height,
              info_byte_index := (g.nodes i).info_byte_index,
              ticks_elapsed := (g.nodes i).ticks_elapsed })
          g.next_node_id (Sample.node (flow_ntype.other 1) 0 0)) j).state = (g.nodes j).state := by
      intro j hj
      have hne : j ≠ g.next_node_id := Nat.ne_of_lt hj
      by_cases h : j = i
      · subst h; simp [Function.update, hne]
      · simp [Function.update, hne, h]
    refine ⟨⟨Nat.le_succ _, fun j hj => ?_⟩, fun j hj => ?_⟩
    · unfold flow_node_state_le
      simp only
      rw [hstate j hj]
      exact Nat.and_self _
    · unfold flow_job_node_is_executed
      simp only at hj ⊢
      by_cases hlt : j < g.next_node_id
      · rw [hstate j hlt]
        exact fun h => ⟨hlt, h⟩
      · have hj' : j = g.next_node_id := by omega
        subst hj'
        simp [Function.update, Sample.node, Sample.expanding_externals, Sample.externals]
  · exact sample_set_flags_grow g i 4 rfl

end SampleKeeps

/-! ## The claims on node states -/

/-- C15. Assume the external node operations (update_state, populate_dimensions, the two
flatten rewrites, execute) never clear a flag of a node of the graph and never drop a
node (they may create nodes, in whatever state), and walkers that change the graph only
through the visitor. Then the optimizer visitor's promotion to Optimized and the executor
visitor's setting of Executed leave every node's flag set a superset of what it was, and
so does the whole of `flow_job_execute`: whatever it returns, each node the graph had at
entry has, in the graph left at the handle, at least the flags it had at entry. -/
theorem flow_job_execute_states_monotone (E : Externals)
    (hupd : ∀ c g i, flow_graph_states_le g (E.flow_node_update_state c g i).2.2)
    (hpop : ∀ c g i f, flow_graph_states_le g (E.flow_node_populate_dimensions c g i f).2.2)
    (hpre : ∀ c g i, flow_graph_states_le g (E.flow_node_pre_optimize_flatten c g i).2.2)
    (hpost : ∀ c g i, flow_graph_states_le g (E.flow_node_post_optimize_flatten c g i).2.2)
    (hexec : ∀ c job g i, flow_graph_states_le g (E.flow_node_execute c job g i).2.2.2)
    (hw : flow_graph_walker_runs E.flow_graph_walk)
    (hwd : flow_graph_walker_runs E.flow_graph_walk_dependency_wise) :
    (∀ (c : flow_c) (job : flow_job) (g : flow_graph) (node_id : Nat) (quit skip d : Bool),
      flow_graph_states_le g (node_visitor_optimize E c job g node_id quit skip d).graph) ∧
    (∀ (c : flow_c) (job : flow_job) (g : flow_graph) (node_id : Nat) (quit skip : Bool),
      flow_graph_states_le g (node_visitor_execute E c job g node_id quit skip ()).graph) ∧
    (∀ (fuel : Nat) (c : flow_c) (job : flow_job) (g : flow_graph)
        (r : flow_job_execute_result),
      flow_job_execute E fuel c job (some g) = some r →
      ∃ g', r.graph = some g' ∧ flow_graph_states_le g g' ∧
        g.next_node_id ≤ g'.next_node_id ∧
        ∀ i, i < g.next_node_id →
          (g.nodes i).state &&& (g'.nodes i).state = (g.nodes i).state) := by
  refine ⟨fun c job g node_id quit skip d => visitor_optimize_le E c job g node_id quit skip d,
    fun c job g node_id quit skip => visitor_execute_le E hupd hexec c job g node_id quit skip (),
    fun fuel c job g r h => ?_⟩
  have hticks : ∀ g n a b, flow_graph_states_le g (flow_node_add_ticks g n a b) := by
    intro g n a b
    refine ⟨Nat.le_refl _, fun i _ => ?_⟩
    rw [add_ticks_state]
    exact state_le_refl _
  obtain ⟨g', hg', hle⟩ := execute_preserves E (fun _ _ => True)
    (fun x => flow_graph_states_le g x)
    (fun g1 g2 h1 hn hnn => ⟨by rw [hnn]; exact h1.1, fun i hi => by rw [hn]; exact h1.2 i hi⟩)
    (walker_runs_visits E.flow_graph_walk hw)
    (walker_runs_visits E.flow_graph_walk_dependency_wise hwd)
    (fun c job g1 node_id quit skip d _ h1 => states_le_trans h1
      (visitor_dimensions_rel E flow_graph_states_le states_le_refl
        (fun _ _ _ => states_le_trans) hticks hupd hpop c job g1 node_id quit skip d))
    (fun c job g1 node_id quit skip d _ h1 => states_le_trans h1
      (visitor_flatten_rel E flow_graph_states_le (fun _ _ _ => states_le_trans) hupd hpre
        c job g1 node_id quit skip d))
    (fun c job g1 node_id quit skip d _ h1 => states_le_trans h1
      (visitor_optimize_le E c job g1 node_id quit skip d))
    (fun c job g1 node_id quit skip d _ h1 => states_le_trans h1
      (visitor_post_flatten_rel E flow_graph_states_le (fun _ _ _ => states_le_trans) hupd hpost
        c job g1 node_id quit skip d))
    (fun c job g1 node_id quit skip d _ h1 => states_le_trans h1
      (visitor_execute_le E hupd hexec c job g1 node_id quit skip d))
    fuel c job g r (states_le_refl g) h
  exact ⟨g', hg', hle, hle.1, hle.2⟩

/-- C15, at a concrete input, with a pre-optimize rewrite that creates a node: an operation
node feeds a node that the rewrite replaces by a new node in the blank state (the old one
becomes a tombstone). The run returns true and leaves three nodes; the two nodes there
were at entry have kept their flags. -/
theorem flow_job_execute_states_monotone_witness :
    ∃ r g', flow_job_execute Sample.expanding_externals 5 Sample.context (Sample.job 6 [])
        (some Sample.expandable_graph) = some r ∧ r.ok = true ∧ r.graph = some g' ∧
      Sample.expandable_graph.next_node_id = 2 ∧ g'.next_node_id = 3 ∧
      flow_graph_states_le Sample.expandable_graph g' := by
  have hv : (flow_job_execute Sample.expanding_externals 5 Sample.context (Sample.job 6 [])
      (some Sample.expandable_graph)).map
        (fun x => (x.ok, x.graph.map fun g => g.next_node_id)) = some (true, some 3) := by
    decide!
  cases hr : flow_job_execute Sample.expanding_externals 5 Sample.context (Sample.job 6 [])
      (some Sample.expandable_graph) with
  | none => rw [hr] at hv; cases hv
  | some r =>
    rw [hr] at hv
    simp only [Option.map_some', Option.some.injEq, Prod.mk.injEq] at hv
    obtain ⟨g', hg', hle, _⟩ :=
      (flow_job_execute_states_monotone Sample.expanding_externals
        (fun c g i => (sample_update_state_grow c g i).1)
        (fun c g i f => (sample_populate_dimensions_grow c g i f).1)
        (fun c g i => (sample_expand_grow c g i).1)
        (fun _ g i => sample_set_flags_le g i 16)
        (fun _ _ g _ => states_le_refl g)
        sample_walk_runs sample_walk_dependency_wise_runs).2.2 5 Sample.context (Sample.job 6 [])
        Sample.expandable_graph r hr
    rw [hg'] at hv
    simp only [Option.map_some', Option.some.injEq] at hv
    exact ⟨r, g', rfl, hv.1, hg', rfl, hv.2, hle⟩

/-- A graph that grew from one in which the executed nodes are ready has the same
property. -/
theorem executed_ready_grow (E : Externals) (g g' : flow_graph)
    (h : flow_graph_executed_ready E g) (hgrow : flow_graph_states_grow E g g') :
    flow_graph_executed_ready E g' := by
  intro i hi he
  obtain ⟨hi0, he0⟩ := hgrow.2 i hi he
  exact state_le_trans (h i hi0 he0) (hgrow.1.2 i hi0)

theorem states_grow_ticks (E : Externals) (g : flow_graph) (n a b : Nat) :
    flow_graph_states_grow E g (flow_node_add_ticks g n a b) := by
  refine ⟨⟨Nat.le_refl _, fun i _ => ?_⟩, fun i hi => ?_⟩
  · rw [add_ticks_state]
    exact state_le_refl _
  · unfold flow_job_node_is_executed
    rw [add_ticks_state]
    exact fun h => ⟨hi, h⟩

/-- The promotion to Optimized makes no node executed, Optimized and Executed being
different flags. -/
theorem visitor_optimize_grow (E : Externals)
    (hflags : E.flow_node_state_Optimized &&& E.flow_node_state_Executed = 0) {J : Type}
    (c : flow_c) (job : J) (g : flow_graph) (node_id : Nat) (quit skip d : Bool) :
    flow_graph_states_grow E g (node_visitor_optimize E c job g node_id quit skip d).graph := by
  refine ⟨visitor_optimize_le E c job g node_id quit skip d, fun i => ?_⟩
  unfold node_visitor_optimize flow_job_node_is_executed
  simp only
  split
  · simp only
    rw [set_state_at]
    split
    · rename_i hi; subst hi
      rw [or_and_disjoint _ _ _ hflags]
      exact fun hi h => ⟨hi, h⟩
    · exact fun hi h => ⟨hi, h⟩
  · exact fun hi h => ⟨hi, h⟩

/-- Through a call of the executor visitor a node gains Executed only when it is the
visited node and its state after `flow_node_update_state` equals `ReadyForExecution`. -/
theorem visitor_execute_gains (E : Externals) {D : Type}
    (hupd : ∀ c g i, flow_graph_states_grow E g (E.flow_node_update_state c g i).2.2)
    (hexec : ∀ c job g i, flow_graph_states_grow E g (E.flow_node_execute c job g i).2.2.2)
    (c : flow_c) (job : flow_job) (g : flow_graph) (node_id : Nat) (quit skip : Bool) (d : D)
    (i : Nat)
    (hi : i < (node_visitor_execute E c job g node_id quit skip d).graph.next_node_id)
    (h : flow_job_node_is_executed E (node_visitor_execute E c job g node_id quit skip d).graph i
      = true) :
    (i < g.next_node_id ∧ flow_job_node_is_executed E g i = true) ∨
      (i = node_id ∧ (E.flow_node_update_state c g node_id).1 = true ∧
        ((E.flow_node_update_state c g node_id).2.2.nodes node_id).state =
          E.flow_node_state_ReadyForExecution) := by
  obtain ⟨h1, h2⟩ := visitor_execute_graph E c job g node_id quit skip d
  have hu := hupd c g node_id
  have he := hexec (E.flow_node_update_state c g node_id).2.1 job
    (E.flow_node_update_state c g node_id).2.2 node_id
  by_cases hcond : (E.flow_node_update_state c g node_id).1 = true ∧
      flow_job_node_is_executed E (E.flow_node_update_state c g node_id).2.2 node_id = false ∧
      ((E.flow_node_update_state c g node_id).2.2.nodes node_id).state =
        E.flow_node_state_ReadyForExecution
  · obtain ⟨h3, h4⟩ := h2 hcond.1 hcond.2.1 hcond.2.2
    cases hx : (E.flow_node_execute (E.flow_node_update_state c g node_id).2.1 job
        (E.flow_node_update_state c g node_id).2.2 node_id).1 with
    | false =>
      rw [h3 hx] at h hi
      obtain ⟨hi1, he1⟩ := he.2 i hi h
      exact Or.inl (hu.2 i hi1 he1)
    | true =>
      obtain ⟨hn, hs⟩ := h4 hx
      by_cases hin : i = node_id
      · exact Or.inr ⟨hin, hcond.1, hcond.2.2⟩
      · unfold flow_job_node_is_executed at h
        rw [hs i, if_neg hin] at h
        rw [hn] at hi
        obtain ⟨hi1, he1⟩ := he.2 i hi h
        exact Or.inl (hu.2 i hi1 he1)
  · rw [h1 hcond] at h hi
    exact Or.inl (hu.2 i hi h)

/-- A call of the executor visitor for a node of the graph keeps the property that
executed nodes are ready. -/
theorem visitor_execute_ready (E : Externals) {D : Type}
    (hupd : ∀ c g i, flow_graph_states_grow E g (E.flow_node_update_state c g i).2.2)
    (hexec : ∀ c job g i, flow_graph_states_grow E g (E.flow_node_execute c job g i).2.2.2)
    (c : flow_c) (job : flow_job) (g : flow_graph) (node_id : Nat) (quit skip : Bool) (d : D)
    (hnode : node_id < g.next_node_id)
    (hg : flow_graph_executed_ready E g) :
    flow_graph_executed_ready E (node_visitor_execute E c job g node_id quit skip d).graph := by
  intro i hi hex
  have hle := visitor_execute_le E (fun c g i => (hupd c g i).1)
    (fun c job g i => (hexec c job g i).1) c job g node_id quit skip d
  have hu := hupd c g node_id
  have he := hexec (E.flow_node_update_state c g node_id).2.1 job
    (E.flow_node_update_state c g node_id).2.2 node_id
  have hnode' : node_id < (E.flow_node_update_state c g node_id).2.2.next_node_id :=
    Nat.lt_of_lt_of_le hnode hu.1.1
  rcases visitor_execute_gains E hupd hexec c job g node_id quit skip d i hi hex with h | h
  · exact state_le_trans (hg i h.1 h.2) (hle.2 i h.1)
  · obtain ⟨rfl, hok, hready⟩ := h
    obtain ⟨h1, h2⟩ := visitor_execute_graph E c job g i quit skip d
    by_cases hnot :
        flow_job_node_is_executed E (E.flow_node_update_state c g i).2.2 i = false
    · obtain ⟨h3, h4⟩ := h2 hok hnot hready
      cases hx : (E.flow_node_execute (E.flow_node_update_state c g i).2.1 job
          (E.flow_node_update_state c g i).2.2 i).1 with
      | false =>
        rw [h3 hx]
        rw [← hready]
        exact he.1.2 i hnode'
      | true =>
        unfold flow_node_state_le
        rw [(h4 hx).2 i, if_pos rfl]
        rw [← hready]
        exact state_le_trans (he.1.2 i hnode') (state_le_or _ _)
    · rw [h1 (fun hc => hnot hc.2.1)]
      rw [← hready]
      exact state_le_refl _

/-- C16. Assume that `flow_node_update_state` and the node's execution clear no flag of a
node of the graph, drop no node and leave no node with an Executed flag it did not have
(a node they create is not executed); a dependency-wise walker that changes the graph only
through the visitor and visits nodes of the graph; and let `ReadyForExecution` contain
`InputDimensionsKnown` and `OutboundDimensionsKnown`. Then through a call of the executor
visitor a node gains Executed only when it is the visited node and its state after
`flow_node_update_state` equals `ReadyForExecution`; and, starting from a graph in which no
node has Executed, every node with Executed in the graph that
`flow_job_execute_where_certain` leaves has the flags of `ReadyForExecution`, so
`InputDimensionsKnown` and `OutboundDimensionsKnown`. When moreover the three other node
operations (populate_dimensions and the two flatten rewrites, which may create nodes in the
blank state) keep the same discipline, Optimized and Executed are different flags, and the
free walker keeps the same contract, no call of the dimension, flatten or optimizer
visitors makes a node executed, and the same holds of the graph that the whole of
`flow_job_execute` leaves. -/
theorem flow_job_execute_executed_ready (E : Externals) (OutboundDimensionsKnown : Nat)
    (hin : flow_node_state_le E.flow_node_state_InputDimensionsKnown
      E.flow_node_state_ReadyForExecution)
    (hout : flow_node_state_le OutboundDimensionsKnown E.flow_node_state_ReadyForExecution)
    (hupd : ∀ c g i, flow_graph_states_grow E g (E.flow_node_update_state c g i).2.2)
    (hexec : ∀ c job g i, flow_graph_states_grow E g (E.flow_node_execute c job g i).2.2.2)
    (hwd : flow_graph_walker_visits_table E.flow_graph_walk_dependency_wise) :
    (∀ (c : flow_c) (job : flow_job) (g : flow_graph) (node_id : Nat) (quit skip : Bool)
        (i : Nat),
      i < (node_visitor_execute E c job g node_id quit skip ()).graph.next_node_id →
      flow_job_node_is_executed E
          (node_visitor_execute E c job g node_id quit skip ()).graph i = true →
        (i < g.next_node_id ∧ flow_job_node_is_executed E g i = true) ∨
          (i = node_id ∧ (E.flow_node_update_state c g node_id).1 = true ∧
            ((E.flow_node_update_state c g node_id).2.2.nodes node_id).state =
              E.flow_node_state_ReadyForExecution)) ∧
    (∀ (c : flow_c) (job : flow_job) (g : flow_graph),
      (∀ i, i < g.next_node_id → flow_job_node_is_executed E g i = false) →
      ∃ g', (flow_job_execute_where_certain E c job (some g)).2.2.2 = some g' ∧
        ∀ i, i < g'.next_node_id → flow_job_node_is_executed E g' i = true →
          flow_node_state_le E.flow_node_state_ReadyForExecution (g'.nodes i).state ∧
          flow_node_state_le E.flow_node_state_InputDimensionsKnown (g'.nodes i).state ∧
          flow_node_state_le OutboundDimensionsKnown (g'.nodes i).state) ∧
    (E.flow_node_state_Optimized &&& E.flow_node_state_Executed = 0 →
      (∀ c g i f, flow_graph_states_grow E g (E.flow_node_populate_dimensions c g i f).2.2) →
      (∀ c g i, flow_graph_states_grow E g (E.flow_node_pre_optimize_flatten c g i).2.2) →
      (∀ c g i, flow_graph_states_grow E g (E.flow_node_post_optimize_flatten c g i).2.2) →
      flow_graph_walker_visits_table E.flow_graph_walk →
      (∀ (c : flow_c) (job : flow_job) (g : flow_graph) (node_id : Nat) (quit skip d : Bool),
        flow_graph_states_grow E g
          (node_visitor_dimensions E c job g node_id quit skip d).graph ∧
        flow_graph_states_grow E g (node_visitor_flatten E c () g node_id quit skip d).graph ∧
        flow_graph_states_grow E g
          (node_visitor_optimize E c job g node_id quit skip d).graph ∧
        flow_graph_states_grow E g
          (node_visitor_post_optimize_flatten E c job g node_id quit skip d).graph) ∧
      (∀ (fuel : Nat) (c : flow_c) (job : flow_job) (g : flow_graph)
          (r : flow_job_execute_result),
        (∀ i, i < g.next_node_id → flow_job_node_is_executed E g i = false) →
        flow_job_execute E fuel c job (some g) = some r →
        ∃ g', r.graph = some g' ∧
          ∀ i, i < g'.next_node_id → flow_job_node_is_executed E g' i = true →
            flow_node_state_le E.flow_node_state_ReadyForExecution (g'.nodes i).state ∧
            flow_node_state_le E.flow_node_state_InputDimensionsKnown (g'.nodes i).state ∧
            flow_node_state_le OutboundDimensionsKnown (g'.nodes i).state)) := by
  have hinit : ∀ g, (∀ i, i < g.next_node_id → flow_job_node_is_executed E g i = false) →
      flow_graph_executed_ready E g := by
    intro g h0 i hi he
    rw [h0 i hi] at he
    cases he
  refine ⟨fun c job g node_id quit skip i hi h =>
      visitor_execute_gains E hupd hexec c job g node_id quit skip () i hi h,
    fun c job g h0 => ?_, fun hflags hpop hpre hpost hw => ?_⟩
  · obtain ⟨g', hg', hready⟩ := execute_where_certain_preserves E
      (fun g n => n < g.next_node_id) (flow_graph_executed_ready E) hwd
      (fun c job g node_id quit skip d hn hg =>
        visitor_execute_ready E hupd hexec c job g node_id quit skip d hn hg) c job g
      (hinit g h0)
    exact ⟨g', hg', fun i hi he => ⟨hready i hi he, state_le_trans hin (hready i hi he),
      state_le_trans hout (hready i hi he)⟩⟩
  · have hdimv := fun c job g node_id quit skip d =>
      visitor_dimensions_rel E (flow_graph_states_grow E) (states_grow_refl E)
        (fun _ _ _ => states_grow_trans E) (states_grow_ticks E) hupd hpop c job g node_id quit
        skip d
    have hprev := fun (J : Type) c (job : J) g node_id quit skip d =>
      visitor_flatten_rel E (flow_graph_states_grow E) (fun _ _ _ => states_grow_trans E) hupd
        hpre c job g node_id quit skip d
    have hpostv := fun (J : Type) c (job : J) g node_id quit skip d =>
      visitor_post_flatten_rel E (flow_graph_states_grow E) (fun _ _ _ => states_grow_trans E)
        hupd hpost c job g node_id quit skip d
    have hoptv := fun (J : Type) c (job : J) g node_id quit skip d =>
      visitor_optimize_grow E hflags c job g node_id quit skip d
    refine ⟨fun c job g node_id quit skip d =>
        ⟨hdimv c job g node_id quit skip d, hprev Unit c () g node_id quit skip d,
          hoptv flow_job c job g node_id quit skip d,
          hpostv flow_job c job g node_id quit skip d⟩,
      fun fuel c job g r h0 h => ?_⟩
    obtain ⟨g', hg', hready⟩ := execute_preserves E (fun g n => n < g.next_node_id)
      (flow_graph_executed_ready E)
      (fun g1 g2 h1 hn hnn i hi => by
        unfold flow_job_node_is_executed
        rw [hn]
        rw [hnn] at hi
        exact h1 i hi)
      hw hwd
      (fun c job g1 node_id quit skip d _ h1 =>
        executed_ready_grow E _ _ h1 (hdimv c job g1 node_id quit skip d))
      (fun c job g1 node_id quit skip d _ h1 =>
        executed_ready_grow E _ _ h1 (hprev Unit c job g1 node_id quit skip d))
      (fun c job g1 node_id quit skip d _ h1 =>
        executed_ready_grow E _ _ h1 (hoptv flow_job c job g1 node_id quit skip d))
      (fun c job g1 node_id quit skip d _ h1 =>
        executed_ready_grow E _ _ h1 (hpostv flow_job c job g1 node_id quit skip d))
      (fun c job g1 node_id quit skip d hn h1 =>
        visitor_execute_ready E hupd hexec c job g1 node_id quit skip d hn h1)
      fuel c job g r (hinit g h0) h
    exact ⟨g', hg', fun i hi he => ⟨hready i hi he, state_le_trans hin (hready i hi he),
      state_le_trans hout (hready i hi he)⟩⟩

/-- C16, at a concrete input, with a pre-optimize rewrite that creates a node in the blank
state (flags 1 and 2 for input and outbound dimensions, 31 for `ReadyForExecution`, 32 for
Executed): an operation node feeds a node that the rewrite replaces. The run leaves three
nodes; the first node and the created node end executed, the tombstone does not. -/
theorem flow_job_execute_executed_ready_witness :
    (∀ i, i < Sample.expandable_graph.next_node_id →
      flow_job_node_is_executed Sample.expanding_externals Sample.expandable_graph i = false) ∧
    ∃ r g', flow_job_execute Sample.expanding_externals 5 Sample.context (Sample.job 6 [])
        (some Sample.expandable_graph) = some r ∧ r.graph = some g' ∧
      g'.next_node_id = 3 ∧
      flow_job_node_is_executed Sample.expanding_externals g' 0 = true ∧
      flow_job_node_is_executed Sample.expanding_externals g' 1 = false ∧
      flow_job_node_is_executed Sample.expanding_externals g' 2 = true ∧
      ∀ i, i < g'.next_node_id →
        flow_job_node_is_executed Sample.expanding_externals g' i = true →
        flow_node_state_le 31 (g'.nodes i).state ∧
        flow_node_state_le 1 (g'.nodes i).state ∧
        flow_node_state_le 2 (g'.nodes i).state := by
  have h0 : ∀ i, i < Sample.expandable_graph.next_node_id →
      flow_job_node_is_executed Sample.expanding_externals Sample.expandable_graph i = false := by
    intro i hi
    have hi2 : i < 2 := hi
    rcases i with _ | _ | i
    · rfl
    · rfl
    · omega
  have hv : (flow_job_execute Sample.expanding_externals 5 Sample.context (Sample.job 6 [])
      (some Sample.expandable_graph)).map (fun x => x.graph.map fun g =>
        (g.next_node_id, flow_job_node_is_executed Sample.expanding_externals g 0,
          flow_job_node_is_executed Sample.expanding_externals g 1,
          flow_job_node_is_executed Sample.expanding_externals g 2)) =
      some (some (3, true, false, true)) := by
    decide!
  cases hr : flow_job_execute Sample.expanding_externals 5 Sample.context (Sample.job 6 [])
      (some Sample.expandable_graph) with
  | none => rw [hr] at hv; cases hv
  | some r =>
    rw [hr] at hv
    simp only [Option.map_some', Option.some.injEq] at hv
    obtain ⟨g', hg', hready⟩ :=
      ((flow_job_execute_executed_ready Sample.expanding_externals 2 rfl rfl
        sample_update_state_grow
        (fun _ _ g _ => states_grow_refl Sample.expanding_externals g)
        sample_walk_dependency_wise_visits_table).2.2 rfl
        sample_populate_dimensions_grow sample_expand_grow
        (fun _ g i => sample_set_flags_grow g i 16 rfl)
        sample_walk_visits_table).2 5 Sample.context
        (Sample.job 6 []) Sample.expandable_graph r h0 hr
    rw [hg'] at hv
    simp only [Option.map_some', Option.some.injEq, Prod.mk.injEq] at hv
    exact ⟨h0, r, g', rfl, hg', hv.1, hv.2.1, hv.2.2.1, hv.2.2.2, hready⟩

/-! ## The claim on the flatten passes -/

/-- A walk with a visitor that sets `quit` and the re-walk signal whenever it reaches its
rewrite, and leaves both alone otherwise: at most one call of the walk reaches the
rewrite, and a walk that returns true hands back the signal exactly when it was set at
the start or one call reached the rewrite. -/
theorem walk_run_rewrites {J : Type} (visitor : flow_graph_visitor J Bool)
    (rewrites : flow_c → flow_graph → Nat → Bool)
    (h1 : ∀ c job g n s d, rewrites c g n = true → (visitor c job g n false s d).ok = true →
      (visitor c job g n false s d).quit = true ∧
        (visitor c job g n false s d).custom_data = true)
    (h2 : ∀ c job g n s d, rewrites c g n = false → (visitor c job g n false s d).ok = true →
      (visitor c job g n false s d).quit = false ∧
        (visitor c job g n false s d).custom_data = d)
    (job : J) (g : flow_graph) (d : Bool)
    (T : List (flow_c × J × flow_graph × Nat × Bool × Bool)) (r : Bool × J × flow_graph × Bool)
    (h : flow_graph_walk_run visitor job g d T r) :
    flow_graph_walk_rewrites rewrites T ≤ 1 ∧
    (r.1 = true → (r.2.2.2 = true ↔ d = true ∨ flow_graph_walk_rewrites rewrites T = 1)) := by
  induction h with
  | done job g d => simp [flow_graph_walk_rewrites]
  | aborted job g d => simp [flow_graph_walk_rewrites]
  | failed c job g node_id skip d hok =>
    refine ⟨?_, fun h => by cases h⟩
    unfold flow_graph_walk_rewrites
    exact List.countP_le_length _
  | quit c job g node_id skip d hok hq =>
    cases hr : rewrites c g node_id with
    | false =>
      have := (h2 c job g node_id skip d hr hok).1
      rw [hq] at this
      cases this
    | true =>
      have hcd := (h1 c job g node_id skip d hr hok).2
      simp [flow_graph_walk_rewrites, hr, hcd]
  | next c job g node_id skip d T r hok hq _ ih =>
    cases hr : rewrites c g node_id with
    | true =>
      have := (h1 c job g node_id skip d hr hok).1
      rw [hq] at this
      cases this
    | false =>
      have hcd := (h2 c job g node_id skip d hr hok).2
      rw [hcd] at ih
      have hcount : flow_graph_walk_rewrites rewrites ((c, job, g, node_id, skip, d) :: T) =
          flow_graph_walk_rewrites rewrites T := by
        simp [flow_graph_walk_rewrites, hr]
      rw [hcount]
      exact ih

/-- The pre-optimize flatten visitor, case by case. -/
theorem visitor_flatten_cases (E : Externals) {J : Type} (c : flow_c) (job : J)
    (g : flow_graph) (node_id : Nat) (quit skip d : Bool) :
    (node_visitor_flatten_rewrites E c g node_id = true ↔
      ((E.flow_node_update_state c g node_id).1 = true ∧
        ((E.flow_node_update_state c g node_id).2.2.nodes node_id).state =
          E.flow_node_state_ReadyForPreOptimizeFlatten)) ∧
    ((E.flow_node_update_state c g node_id).1 = false →
      node_visitor_flatten E c job g node_id quit skip d =
        ⟨false, FLOW_error_return (E.flow_node_update_state c g node_id).2.1
          "node_visitor_flatten", job, (E.flow_node_update_state c g node_id).2.2, quit, skip,
          d⟩) ∧
    (node_visitor_flatten_rewrites E c g node_id = true →
      node_visitor_flatten E c job g node_id quit skip d =
        match E.flow_node_pre_optimize_flatten (E.flow_node_update_state c g node_id).2.1
            (E.flow_node_update_state c g node_id).2.2 node_id with
        | (false, c2, g2) =>
          ⟨false, FLOW_error_return c2 "node_visitor_flatten", job, g2, quit, skip, d⟩
        | (true, c2, g2) => ⟨true, c2, job, g2, true, skip, true⟩) ∧
    ((E.flow_node_update_state c g node_id).1 = true →
      node_visitor_flatten_rewrites E c g node_id = false →
      node_visitor_flatten E c job g node_id quit skip d =
        ⟨true, (E.flow_node_update_state c g node_id).2.1, job,
          (E.flow_node_update_state c g node_id).2.2, quit,
          if ((E.flow_node_update_state c g node_id).2.2.nodes node_id).state &&&
              E.flow_node_state_InputDimensionsKnown = 0 then true else skip, d⟩) := by
  unfold node_visitor_flatten node_visitor_flatten_rewrites
  cases hx : E.flow_node_update_state c g node_id with
  | mk uok urest =>
    obtain ⟨c1, g1⟩ := urest
    cases uok with
    | false => simp
    | true =>
      simp only [Bool.true_and, decide_eq_true_eq, true_and, Bool.true_eq_false, false_implies,
        forall_const, decide_eq_false_iff_not]
      refine ⟨fun h => ?_, fun h => ?_⟩
      · rw [if_pos h]
      · rw [if_neg h]
        split <;> rfl

/-- The post-optimize flatten visitor, case by case. -/
theorem visitor_post_flatten_cases (E : Externals) {J : Type} (c : flow_c) (job : J)
    (g : flow_graph) (node_id : Nat) (quit skip d : Bool) :
    (node_visitor_post_optimize_flatten_rewrites E c g node_id = true ↔
      ((E.flow_node_update_state c g node_id).1 = true ∧
        ((E.flow_node_update_state c g node_id).2.2.nodes node_id).state =
          E.flow_node_state_ReadyForPostOptimizeFlatten)) ∧
    ((E.flow_node_update_state c g node_id).1 = false →
      node_visitor_post_optimize_flatten E c job g node_id quit skip d =
        ⟨false, FLOW_error_return (E.flow_node_update_state c g node_id).2.1
          "node_visitor_post_optimize_flatten", job,
          (E.flow_node_update_state c g node_id).2.2, quit, skip, d⟩) ∧
    (node_visitor_post_optimize_flatten_rewrites E c g node_id = true →
      node_visitor_post_optimize_flatten E c job g node_id quit skip d =
        match E.flow_node_post_optimize_flatten (E.flow_node_update_state c g node_id).2.1
            (E.flow_node_update_state c g node_id).2.2 node_id with
        | (false, c2, g2) =>
          ⟨false, FLOW_error_return c2 "node_visitor_post_optimize_flatten", job, g2, quit,
            skip, d⟩
        | (true, c2, g2) =>
          match E.flow_graph_validate c2 g2 with
          | (false, c3) =>
            ⟨false, FLOW_error_return c3 "node_visitor_post_optimize_flatten", job, g2, quit,
              skip, d⟩
          | (true, c3) => ⟨true, c3, job, g2, true, skip, true⟩) ∧
    ((E.flow_node_update_state c g node_id).1 = true →
      node_visitor_post_optimize_flatten_rewrites E c g node_id = false →
      node_visitor_post_optimize_flatten E c job g node_id quit skip d =
        ⟨true, (E.flow_node_update_state c g node_id).2.1, job,
          (E.flow_node_update_state c g node_id).2.2, quit,
          if ((E.flow_node_update_state c g node_id).2.2.nodes node_id).state &&&
              E.flow_node_state_InputDimensionsKnown = 0 then true else skip, d⟩) := by
  unfold node_visitor_post_optimize_flatten node_visitor_post_optimize_flatten_rewrites
  cases hx : E.flow_node_update_state c g node_id with
  | mk uok urest =>
    obtain ⟨c1, g1⟩ := urest
    cases uok with
    | false => simp
    | true =>
      simp only [Bool.true_and, decide_eq_true_eq, true_and, Bool.true_eq_false, false_implies,
        forall_const, decide_eq_false_iff_not]
      refine ⟨fun h => ?_, fun h => ?_⟩
      · rw [if_pos h]
      · rw [if_neg h]
        split <;> rfl

/-- C18. Flatten discipline, for the pre-optimize and the post-optimize pass alike. The
visitor reaches the single-node rewrite exactly when `flow_node_update_state` succeeded and
left the node's state equal to `ReadyForPreOptimizeFlatten` (resp.
`ReadyForPostOptimizeFlatten`); a rewrite that succeeds (and, for the post-optimize pass,
validates) sets `quit` and the re-walk signal; otherwise the visitor sets
`skip_outbound_paths` exactly when `InputDimensionsKnown` is not set and leaves `quit` and
the signal alone. With a walker that stops at `quit`, at most one call of a walk reaches
the rewrite; a walk that returns true hands back the signal exactly when one did; and the
driver fails when the walk fails, walks again when the walk made a rewrite, and returns
true after the first walk that made none. -/
theorem flow_graph_flatten_discipline (E : Externals)
    (hw : flow_graph_walker_runs E.flow_graph_walk)
    (hwd : flow_graph_walker_runs E.flow_graph_walk_dependency_wise) :
    (∀ (c : flow_c) (job : Unit) (g : flow_graph) (node_id : Nat) (quit skip d : Bool),
      (node_visitor_flatten_rewrites E c g node_id = true ↔
        ((E.flow_node_update_state c g node_id).1 = true ∧
          ((E.flow_node_update_state c g node_id).2.2.nodes node_id).state =
            E.flow_node_state_ReadyForPreOptimizeFlatten)) ∧
      ((E.flow_node_update_state c g node_id).1 = false →
        node_visitor_flatten E c job g node_id quit skip d =
          ⟨false, FLOW_error_return (E.flow_node_update_state c g node_id).2.1
            "node_visitor_flatten", job,
            (E.flow_node_update_state c g node_id).2.2, quit, skip, d⟩) ∧
      (node_visitor_flatten_rewrites E c g node_id = true →
        node_visitor_flatten E c job g node_id quit skip d =
          match E.flow_node_pre_optimize_flatten (E.flow_node_update_state c g node_id).2.1
              (E.flow_node_update_state c g node_id).2.2 node_id with
          | (false, c2, g2) =>
            ⟨false, FLOW_error_return c2 "node_visitor_flatten", job, g2, quit, skip, d⟩
          | (true, c2, g2) => ⟨true, c2, job, g2, true, skip, true⟩) ∧
      ((E.flow_node_update_state c g node_id).1 = true →
        node_visitor_flatten_rewrites E c g node_id = false →
        node_visitor_flatten E c job g node_id quit skip d =
          ⟨true, (E.flow_node_update_state c g node_id).2.1, job,
            (E.flow_node_update_state c g node_id).2.2, quit,
            if ((E.flow_node_update_state c g node_id).2.2.nodes node_id).state &&&
                E.flow_node_state_InputDimensionsKnown = 0 then true else skip, d⟩)) ∧
    (∀ (c : flow_c) (job : flow_job) (g : flow_graph) (node_id : Nat) (quit skip d : Bool),
      (node_visitor_post_optimize_flatten_rewrites E c g node_id = true ↔
        ((E.flow_node_update_state c g node_id).1 = true ∧
          ((E.flow_node_update_state c g node_id).2.2.nodes node_id).state =
            E.flow_node_state_ReadyForPostOptimizeFlatten)) ∧
      ((E.flow_node_update_state c g node_id).1 = false →
        node_visitor_post_optimize_flatten E c job g node_id quit skip d =
          ⟨false, FLOW_error_return (E.flow_node_update_state c g node_id).2.1
            "node_visitor_post_optimize_flatten", job,
            (E.flow_node_update_state c g node_id).2.2, quit, skip, d⟩) ∧
      (node_visitor_post_optimize_flatten_rewrites E c g node_id = true →
        node_visitor_post_optimize_flatten E c job g node_id quit skip d =
          match E.flow_node_post_optimize_flatten (E.flow_node_update_state c g node_id).2.1
              (E.flow_node_update_state c g node_id).2.2 node_id with
          | (false, c2, g2) =>
            ⟨false, FLOW_error_return c2 "node_visitor_post_optimize_flatten", job, g2, quit, skip, d⟩
          | (true, c2, g2) =>
            match E.flow_graph_validate c2 g2 with
            | (false, c3) =>
              ⟨false, FLOW_error_return c3 "node_visitor_post_optimize_flatten", job, g2, quit, skip, d⟩
            | (true, c3) => ⟨true, c3, job, g2, true, skip, true⟩) ∧
      ((E.flow_node_update_state c g node_id).1 = true →
        node_visitor_post_optimize_flatten_rewrites E c g node_id = false →
        node_visitor_post_optimize_flatten E c job g node_id quit skip d =
          ⟨true, (E.flow_node_update_state c g node_id).2.1, job,
            (E.flow_node_update_state c g node_id).2.2, quit,
            if ((E.flow_node_update_state c g node_id).2.2.nodes node_id).state &&&
                E.flow_node_state_InputDimensionsKnown = 0 then true else skip, d⟩)) ∧
    (∀ (c : flow_c) (g : flow_graph),
      ∃ T, flow_graph_walk_run (node_visitor_flatten E) () g false T
          ((E.flow_graph_walk_dependency_wise c () g (node_visitor_flatten E) false).1,
            (E.flow_graph_walk_dependency_wise c () g (node_visitor_flatten E) false).2.2) ∧
        flow_graph_walk_rewrites (node_visitor_flatten_rewrites E) T ≤ 1 ∧
        ((E.flow_graph_walk_dependency_wise c () g (node_visitor_flatten E) false).1 = true →
          ((E.flow_graph_walk_dependency_wise c () g (node_visitor_flatten E) false).2.2.2.2
              = true ↔
            flow_graph_walk_rewrites (node_visitor_flatten_rewrites E) T = 1)) ∧
        ∀ fuel, flow_graph_pre_optimize_flatten_walks E (fuel + 1) c g =
          if (E.flow_graph_walk_dependency_wise c () g (node_visitor_flatten E) false).1 = false
          then
            some (false,
              FLOW_error_return
                (E.flow_graph_walk_dependency_wise c () g (node_visitor_flatten E) false).2.1
                "flow_graph_pre_optimize_flatten",
              (E.flow_graph_walk_dependency_wise c () g (node_visitor_flatten E) false).2.2.2.1)
          else if flow_graph_walk_rewrites (node_visitor_flatten_rewrites E) T = 1 then
            flow_graph_pre_optimize_flatten_walks E fuel
              (E.flow_graph_walk_dependency_wise c () g (node_visitor_flatten E) false).2.1
              (E.flow_graph_walk_dependency_wise c () g (node_visitor_flatten E) false).2.2.2.1
          else
            some (true,
              (E.flow_graph_walk_dependency_wise c () g (node_visitor_flatten E) false).2.1,
              (E.flow_graph_walk_dependency_wise c () g (node_visitor_flatten E) false).2.2.2.1)) ∧
    (∀ (c : flow_c) (job : flow_job) (g : flow_graph),
      ∃ T, flow_graph_walk_run (node_visitor_post_optimize_flatten E) job g false T
          ((E.flow_graph_walk c job g (node_visitor_post_optimize_flatten E) false).1,
            (E.flow_graph_walk c job g (node_visitor_post_optimize_flatten E) false).2.2) ∧
        flow_graph_walk_rewrites (node_visitor_post_optimize_flatten_rewrites E) T ≤ 1 ∧
        ((E.flow_graph_walk c job g (node_visitor_post_optimize_flatten E) false).1 = true →
          ((E.flow_graph_walk c job g (node_visitor_post_optimize_flatten E) false).2.2.2.2
              = true ↔
            flow_graph_walk_rewrites (node_visitor_post_optimize_flatten_rewrites E) T = 1)) ∧
        ∀ fuel, flow_graph_post_optimize_flatten_walks E (fuel + 1) c job g =
          if (E.flow_graph_walk c job g (node_visitor_post_optimize_flatten E) false).1 = false
          then
            some (false,
              FLOW_error_return
                (E.flow_graph_walk c job g (node_visitor_post_optimize_flatten E) false).2.1
                "flow_graph_post_optimize_flatten",
              (E.flow_graph_walk c job g (node_visitor_post_optimize_flatten E) false).2.2.1,
              (E.flow_graph_walk c job g (node_visitor_post_optimize_flatten E) false).2.2.2.1)
          else if flow_graph_walk_rewrites (node_visitor_post_optimize_flatten_rewrites E) T = 1
          then
            flow_graph_post_optimize_flatten_walks E fuel
              (E.flow_graph_walk c job g (node_visitor_post_optimize_flatten E) false).2.1
              (E.flow_graph_walk c job g (node_visitor_post_optimize_flatten E) false).2.2.1
              (E.flow_graph_walk c job g (node_visitor_post_optimize_flatten E) false).2.2.2.1
          else
            some (true,
              (E.flow_graph_walk c job g (node_visitor_post_optimize_flatten E) false).2.1,
              (E.flow_graph_walk c job g (node_visitor_post_optimize_flatten E) false).2.2.1,
              (E.flow_graph_walk c job g (node_visitor_post_optimize_flatten E) false).2.2.2.1)) := by
  refine ⟨fun c job g node_id quit skip d => visitor_flatten_cases E c job g node_id quit skip d,
    fun c job g node_id quit skip d =>
      visitor_post_flatten_cases E c job g node_id quit skip d, fun c g => ?_,
    fun c job g => ?_⟩
  · obtain ⟨T, hT⟩ := hwd Unit Bool c () g (node_visitor_flatten E) false
    beta_reduce at hT
    have hcount := walk_run_rewrites (node_visitor_flatten E) (node_visitor_flatten_rewrites E)
      (fun c job g n s d hr hok => by
        have h3 := (visitor_flatten_cases E c job g n false s d).2.2.1 hr
        rw [h3] at hok ⊢
        split at hok
        · cases hok
        · exact ⟨rfl, rfl⟩)
      (fun c job g n s d hr hok => by
        cases hu : (E.flow_node_update_state c g n).1 with
        | false =>
          rw [(visitor_flatten_cases E c job g n false s d).2.1 hu] at hok
          cases hok
        | true =>
          rw [(visitor_flatten_cases E c job g n false s d).2.2.2 hu hr]
          exact ⟨rfl, rfl⟩)
      () g false T _ hT
    refine ⟨T, hT, hcount.1, fun hok => ?_, fun fuel => ?_⟩
    · have := hcount.2 hok
      simpa using this
    · have hsig := hcount.2
      rw [flow_graph_pre_optimize_flatten_walks]
      cases hx : E.flow_graph_walk_dependency_wise c () g (node_visitor_flatten E) false with
      | mk ok rest =>
        obtain ⟨c1, j1, g1, rw1⟩ := rest
        rw [hx] at hsig
        simp only at hsig
        cases ok with
        | false => simp
        | true =>
          have hs := hsig rfl
          simp only [Bool.false_eq_true, false_or] at hs
          simp only [Bool.true_eq_false, if_false]
          by_cases h1 : flow_graph_walk_rewrites (node_visitor_flatten_rewrites E) T = 1
          · rw [if_pos h1, if_pos (hs.mpr h1)]
          · rw [if_neg h1, if_neg (fun h => h1 (hs.mp h))]
  · obtain ⟨T, hT⟩ := hw flow_job Bool c job g (node_visitor_post_optimize_flatten E) false
    beta_reduce at hT
    have hcount := walk_run_rewrites (node_visitor_post_optimize_flatten E)
      (node_visitor_post_optimize_flatten_rewrites E)
      (fun c job g n s d hr hok => by
        have h3 := (visitor_post_flatten_cases E c job g n false s d).2.2.1 hr
        rw [h3] at hok ⊢
        split at hok
        · cases hok
        · split at hok
          · cases hok
          · exact ⟨rfl, rfl⟩)
      (fun c job g n s d hr hok => by
        cases hu : (E.flow_node_update_state c g n).1 with
        | false =>
          rw [(visitor_post_flatten_cases E c job g n false s d).2.1 hu] at hok
          cases hok
        | true =>
          rw [(visitor_post_flatten_cases E c job g n false s d).2.2.2 hu hr]
          exact ⟨rfl, rfl⟩)
      job g false T _ hT
    refine ⟨T, hT, hcount.1, fun hok => ?_, fun fuel => ?_⟩
    · have := hcount.2 hok
      simpa using this
    · have hsig := hcount.2
      rw [flow_graph_post_optimize_flatten_walks]
      cases hx : E.flow_graph_walk c job g (node_visitor_post_optimize_flatten E) false with
      | mk ok rest =>
        obtain ⟨c1, j1, g1, rw1⟩ := rest
        rw [hx] at hsig
        simp only at hsig
        cases ok with
        | false => simp
        | true =>
          have hs := hsig rfl
          simp only [Bool.false_eq_true, false_or] at hs
          simp only [Bool.true_eq_false, if_false]
          by_cases h1 :
              flow_graph_walk_rewrites (node_visitor_post_optimize_flatten_rewrites E) T = 1
          · rw [if_pos h1, if_pos (hs.mpr h1)]
          · rw [if_neg h1, if_neg (fun h => h1 (hs.mp h))]

/-- C18, at a concrete input: one operation node whose state becomes
`ReadyForPreOptimizeFlatten` (3) under the sample node library. The first walk makes one
rewrite and signals a re-walk; the driver walks again and returns true, the node having
gained the flag of the rewrite (state 7). -/
theorem flow_graph_flatten_discipline_witness :
    flow_graph_walker_runs Sample.externals.flow_graph_walk ∧
    flow_graph_walker_runs Sample.externals.flow_graph_walk_dependency_wise ∧
    (∃ T, flow_graph_walk_run (node_visitor_flatten Sample.externals) () Sample.single_graph
        false T
        ((Sample.externals.flow_graph_walk_dependency_wise Sample.context () Sample.single_graph
          (node_visitor_flatten Sample.externals) false).1,
          (Sample.externals.flow_graph_walk_dependency_wise Sample.context () Sample.single_graph
          (node_visitor_flatten Sample.externals) false).2.2) ∧
      flow_graph_walk_rewrites (node_visitor_flatten_rewrites Sample.externals) T = 1) ∧
    (flow_graph_pre_optimize_flatten_walks Sample.externals 2 Sample.context
      Sample.single_graph).map (fun r => (r.1, (r.2.2.nodes 0).state)) = some (true, 7) := by
  obtain ⟨T, hT, _, hsig, _⟩ :=
    (flow_graph_flatten_discipline Sample.externals sample_walk_runs
      sample_walk_dependency_wise_runs).2.2.1 Sample.context Sample.single_graph
  have hok : (Sample.externals.flow_graph_walk_dependency_wise Sample.context () Sample.single_graph
          (node_visitor_flatten Sample.externals) false).1 = true := by decide!
  have hre : (Sample.externals.flow_graph_walk_dependency_wise Sample.context () Sample.single_graph
          (node_visitor_flatten Sample.externals) false).2.2.2.2 = true := by decide!
  exact ⟨sample_walk_runs, sample_walk_dependency_wise_runs, ⟨T, hT, (hsig hok).mp hre⟩,
    by decide!⟩

end Imageflow
